import Mathlib

/-!
# Hand-gesture sound manipulation: gesture mapping and audio parameter control

A shallow embedding of `gestureDetector.js`, `enhancedApp.js` and
`enhancedAudioEngine.js`.

JavaScript numbers are taken as exact: every definition is written over an
arbitrary linearly ordered field `α`.  The functions of the host `Math` object
that are not field operations (`Math.sqrt`, `Math.atan2`, `Math.pow`,
`Math.PI`) are passed in as a record `JSMath α`; statements that depend on
them are made over `ℝ`, where they are read as `Real.sqrt`, `Complex.arg`
(`atan2 y x` is the argument of `x + y·i`), real powers and `Real.pi`.

Web Audio nodes are records of their parameters.  An `AudioParam` keeps its
directly assigned `value` and the list of ramps scheduled on it.  Drawing,
DOM updates and the visualizer are left out.
-/

/-- The part of the JavaScript `Math` object the program uses beyond field arithmetic. -/
structure JSMath (α : Type) where
  /-- The constant `Math.PI`. -/
  PI : α
  /-- The function `Math.sqrt`. -/
  sqrt : α → α
  /-- The function `Math.atan2(y, x)`. -/
  atan2 : α → α → α
  /-- The function `Math.pow(base, exponent)`. -/
  pow : α → α → α

/-- One scheduled `linearRampToValueAtTime(target, endTime)` event. -/
structure Ramp (α : Type) where
  target : α
  endTime : α
deriving DecidableEq, Repr

/-- A Web Audio `AudioParam`: the directly assigned value and the scheduled ramps
(oldest first). -/
structure AudioParam (α : Type) where
  value : α
  ramps : List (Ramp α)
deriving DecidableEq, Repr

namespace AudioParam

variable {α : Type}

/-- A parameter created with a value and nothing scheduled. -/
def ofValue (v : α) : AudioParam α :=
  { value := v, ramps := [] }

/-- The assignment `param.value = v`. -/
def setValue (p : AudioParam α) (v : α) : AudioParam α :=
  { p with value := v }

/-- The call `param.linearRampToValueAtTime(target, endTime)`. -/
def linearRampToValueAtTime (p : AudioParam α) (target endTime : α) : AudioParam α :=
  { p with ramps := p.ramps ++ [{ target := target, endTime := endTime }] }

/-- The target of the most recently scheduled ramp, if any. -/
def lastTarget (p : AudioParam α) : Option α :=
  p.ramps.getLast?.map Ramp.target

end AudioParam

/-! ## `enhancedAudioEngine.js`: node records and engine state -/

/-- A `GainNode`. -/
structure GainNode (α : Type) where
  gain : AudioParam α
deriving DecidableEq, Repr

/-- A `DelayNode`. -/
structure DelayNode (α : Type) where
  delayTime : AudioParam α
deriving DecidableEq, Repr

/-- A `WaveShaperNode`; `curve` is the `Float32Array` transfer curve. -/
structure WaveShaperNode (α : Type) where
  curve : List α
deriving DecidableEq, Repr

/-- A `BiquadFilterNode`. -/
structure BiquadFilterNode (α : Type) where
  type : String
  frequency : AudioParam α
  Q : AudioParam α
deriving DecidableEq, Repr

/-- An `OscillatorNode`.  `gainStage` is the gain node created together with the
oscillator and fed by it (`oscGain`, `lfoGain` in the `start…Sound` methods), when
there is one. -/
structure OscillatorNode (α : Type) where
  type : String
  frequency : AudioParam α
  detune : AudioParam α
  gainStage : Option (GainNode α) := none
deriving DecidableEq, Repr

/-- A captured input stream, as `getUserMedia` hands it out. -/
structure MediaStream where
  id : Nat
deriving DecidableEq, Repr

/-- A `MediaStreamAudioSourceNode` made by `createMediaStreamSource(stream)`. -/
structure MediaStreamAudioSourceNode where
  mediaStream : MediaStream
deriving DecidableEq, Repr

/-- A `ConvolverNode` with the impulse buffer made by `createReverb`: the `length`
and `sampleRate` handed to `createBuffer`.  The samples themselves are random noise
and are not represented. -/
structure ConvolverNode (α : Type) where
  bufferLength : α
  bufferSampleRate : α
deriving DecidableEq, Repr

/-- The record `this.adjustableParams`. -/
structure AdjustableParams (α : Type) where
  pitchShift : α
  distortion : α
  reverbSize : α
  vibratoSpeed : α
  vibratoDepth : α
  harmonics : α
deriving DecidableEq, Repr

/-- The record `this.parameters`. -/
structure Parameters (α : Type) where
  volume : α
  pitch : α
  filter : α
  effectMix : α
deriving DecidableEq, Repr

/-- One one-shot transient started by `triggerPercussionHit`: the audio-clock time it
starts at and the two ends of its pitch sweep. -/
structure PercussionHit (α : Type) where
  time : α
  startFrequency : α
  endFrequency : α
deriving DecidableEq, Repr

/-- The state of an `EnhancedAudioEngine` whose `initialize()` has run.  `currentTime`
and `sampleRate` are the readings of `this.audioContext`; `percussionHits` records
the transients started so far (oldest first). -/
structure EnhancedAudioEngine (α : Type) where
  currentTime : α
  sampleRate : α
  isPlaying : Bool
  soundType : String
  currentEffect : String
  isVoiceMode : Bool
  microphone : Option MediaStreamAudioSourceNode
  micStream : Option MediaStream
  oscillators : List (OscillatorNode α)
  lfos : List (OscillatorNode α)
  gainNode : GainNode α
  masterGain : GainNode α
  distortionNode : WaveShaperNode α
  filterNode : BiquadFilterNode α
  vibratoLFO : OscillatorNode α
  vibratoGain : GainNode α
  reverbNode : ConvolverNode α
  delayNode : DelayNode α
  feedbackNode : GainNode α
  dryGainNode : GainNode α
  wetGainNode : GainNode α
  currentFrequency : α
  baseFrequency : α
  adjustableParams : AdjustableParams α
  parameters : Parameters α
  percussionHits : List (PercussionHit α)

namespace EnhancedAudioEngine

variable {α : Type} [LinearOrderedField α]

/-- The method `createReverb(size)`: a convolver whose impulse buffer has
`length = sampleRate * (0.5 + size * 3)`. -/
def createReverb (e : EnhancedAudioEngine α) (size : α) : ConvolverNode α :=
  let sampleRate := e.sampleRate
  let length := sampleRate * (0.5 + size * 3)
  { bufferLength := length, bufferSampleRate := sampleRate }

/-- The transfer curve that `updateDistortion(amount)` builds. -/
def distortionCurve (M : JSMath α) (amount : α) : List α :=
  let samples : Nat := 44100
  let deg := M.PI / 180
  let intensity := amount / 100
  (List.range samples).map fun (i : ℕ) =>
    let x := ((i : α) * 2) / (samples : α) - 1
    if intensity = 0 then x
    else ((3 + intensity) * x * 20 * deg) / (M.PI + intensity * |x|)

attribute [irreducible] distortionCurve

/-- The method `updateDistortion(amount)`. -/
def updateDistortion (M : JSMath α) (e : EnhancedAudioEngine α) (amount : α) :
    EnhancedAudioEngine α :=
  { e with distortionNode := { e.distortionNode with curve := distortionCurve M amount } }

/-- The method `updateVibrato()`. -/
def updateVibrato (e : EnhancedAudioEngine α) : EnhancedAudioEngine α :=
  { e with
    vibratoLFO := { e.vibratoLFO with
      frequency := e.vibratoLFO.frequency.setValue e.adjustableParams.vibratoSpeed }
    vibratoGain := { e.vibratoGain with
      gain := e.vibratoGain.gain.setValue (e.adjustableParams.vibratoDepth / 10) } }

/-- The method `updateReverbSize(value)`. -/
def updateReverbSize (e : EnhancedAudioEngine α) (value : α) : EnhancedAudioEngine α :=
  let e1 := { e with adjustableParams := { e.adjustableParams with reverbSize := value } }
  { e1 with reverbNode := e1.createReverb (value / 100) }

/-- The method `resetEffectParams()`. -/
def resetEffectParams (M : JSMath α) (e : EnhancedAudioEngine α) : EnhancedAudioEngine α :=
  let e1 := { e with
    filterNode := { e.filterNode with
      type := "lowpass"
      frequency := e.filterNode.frequency.setValue 2000
      Q := e.filterNode.Q.setValue 1 }
    adjustableParams := { e.adjustableParams with
      pitchShift := 0
      distortion := 0
      vibratoSpeed := 5
      vibratoDepth := 0 } }
  (updateDistortion M e1 0).updateVibrato

/-- The `switch (effectName)` of `applyVoiceEffect`. -/
def applyPreset (M : JSMath α) (e : EnhancedAudioEngine α) (effectName : String) :
    EnhancedAudioEngine α :=
  match effectName with
  | "normal" => resetEffectParams M e
  | "robot" =>
    { e with
      adjustableParams := { e.adjustableParams with
        pitchShift := -2, distortion := 40, vibratoSpeed := 0 }
      filterNode := { e.filterNode with
        type := "bandpass"
        frequency := e.filterNode.frequency.setValue 800
        Q := e.filterNode.Q.setValue 10 } }
  | "chipmunk" =>
    { e with
      adjustableParams := { e.adjustableParams with pitchShift := 12, distortion := 0 }
      filterNode := { e.filterNode with
        type := "highpass"
        frequency := e.filterNode.frequency.setValue 500 } }
  | "monster" =>
    { e with
      adjustableParams := { e.adjustableParams with
        pitchShift := -12, distortion := 60, vibratoSpeed := 3, vibratoDepth := 50 }
      filterNode := { e.filterNode with
        type := "lowpass"
        frequency := e.filterNode.frequency.setValue 300 } }
  | "alien" =>
    { e with
      adjustableParams := { e.adjustableParams with
        pitchShift := 7, distortion := 30, vibratoSpeed := 15, vibratoDepth := 80 }
      filterNode := { e.filterNode with
        type := "bandpass"
        frequency := e.filterNode.frequency.setValue 1500 } }
  | "echo" =>
    { e with
      delayNode := { e.delayNode with delayTime := e.delayNode.delayTime.setValue 0.5 }
      feedbackNode := { e.feedbackNode with gain := e.feedbackNode.gain.setValue 0.7 }
      wetGainNode := { e.wetGainNode with gain := e.wetGainNode.gain.setValue 0.8 }
      dryGainNode := { e.dryGainNode with gain := e.dryGainNode.gain.setValue 0.5 } }
  | "underwater" =>
    let e1 := { e with
      filterNode := { e.filterNode with
        type := "lowpass"
        frequency := e.filterNode.frequency.setValue 400
        Q := e.filterNode.Q.setValue 5 }
      adjustableParams := { e.adjustableParams with reverbSize := 80 } }
    let e2 := e1.updateReverbSize 80
    { e2 with wetGainNode := { e2.wetGainNode with gain := e2.wetGainNode.gain.setValue 0.7 } }
  | "telephone" =>
    let e1 := { e with
      filterNode := { e.filterNode with
        type := "bandpass"
        frequency := e.filterNode.frequency.setValue 1000
        Q := e.filterNode.Q.setValue 2 }
      adjustableParams := { e.adjustableParams with distortion := 20 } }
    updateDistortion M e1 20
  | _ => e

/-- The method `applyVoiceEffect(effectName)`. -/
def applyVoiceEffect (M : JSMath α) (e : EnhancedAudioEngine α) (effectName : String) :
    EnhancedAudioEngine α :=
  let e1 := { e with currentEffect := effectName }
  let e2 := applyPreset M e1 effectName
  (updateDistortion M e2 e2.adjustableParams.distortion).updateVibrato

/-- The method `triggerPercussionHit()`. -/
def triggerPercussionHit (e : EnhancedAudioEngine α) : EnhancedAudioEngine α :=
  if !e.isPlaying || e.soundType != "percussion" then e
  else
    let now := e.currentTime
    { e with percussionHits := e.percussionHits ++
        [{ time := now
           startFrequency := e.currentFrequency * 4
           endFrequency := e.currentFrequency }] }

/-- The method `updateVolume(value)`. -/
def updateVolume (e : EnhancedAudioEngine α) (value : α) : EnhancedAudioEngine α :=
  let volume := value ^ 2
  { e with
    parameters := { e.parameters with volume := value }
    gainNode := { e.gainNode with
      gain := e.gainNode.gain.linearRampToValueAtTime volume (e.currentTime + 0.05) }
    masterGain := { e.masterGain with
      gain := e.masterGain.gain.linearRampToValueAtTime (volume * 0.6)
        (e.currentTime + 0.05) } }

/-- The multiplier `updateFrequency` gives the oscillator at `index`. -/
def frequencyMultiplier (soundType : String) (index : Nat) : α :=
  match soundType with
  | "ambient" => ([1, 1.5, 2, 2.5, 3, 4] : List α).getD index 1
  | "synth" => (index : α) + 1
  | "theremin" => 1
  | "choir" => 1
  | _ => 1

/-- The method `updateFrequency(pitchValue)`.  Every entry of `oscillators` is an
oscillator node, so the test `if (osc.frequency)` always passes. -/
def updateFrequency (M : JSMath α) (e : EnhancedAudioEngine α) (pitchValue : α) :
    EnhancedAudioEngine α :=
  let minFreq : α := if e.soundType = "percussion" then 60 else 220
  let maxFreq : α := if e.soundType = "percussion" then 400 else 880
  let targetFreq := minFreq + (pitchValue * (maxFreq - minFreq))
  let pitchShiftMult := M.pow 2 (e.adjustableParams.pitchShift / 12)
  let targetFreq := targetFreq * pitchShiftMult
  let e1 := { e with currentFrequency := targetFreq }
  if e1.soundType != "percussion" && !e1.isVoiceMode then
    { e1 with oscillators := e1.oscillators.mapIdx fun (index : ℕ) osc =>
        { osc with
          frequency := osc.frequency.linearRampToValueAtTime
            (e1.currentFrequency * frequencyMultiplier e1.soundType index)
            (e1.currentTime + 0.05) } }
  else e1

/-- The method `updatePitch(value)`. -/
def updatePitch (M : JSMath α) (e : EnhancedAudioEngine α) (value : α) :
    EnhancedAudioEngine α :=
  updateFrequency M { e with parameters := { e.parameters with pitch := value } } value

/-- The method `updateFilter(value)`. -/
def updateFilter (e : EnhancedAudioEngine α) (value : α) : EnhancedAudioEngine α :=
  let e1 := { e with parameters := { e.parameters with filter := value } }
  if e1.currentEffect != "normal" then e1
  else
    let minFreq : α := 200
    let maxFreq : α := 8000
    let frequency := minFreq + (value * (maxFreq - minFreq))
    { e1 with filterNode := { e1.filterNode with
        frequency := e1.filterNode.frequency.linearRampToValueAtTime frequency
          (e1.currentTime + 0.05)
        Q := e1.filterNode.Q.setValue (1 + (value * 10)) } }

/-- The method `updateEffectMix(value)`. -/
def updateEffectMix (e : EnhancedAudioEngine α) (value : α) : EnhancedAudioEngine α :=
  { e with
    parameters := { e.parameters with effectMix := value }
    dryGainNode := { e.dryGainNode with
      gain := e.dryGainNode.gain.linearRampToValueAtTime (1 - value) (e.currentTime + 0.1) }
    wetGainNode := { e.wetGainNode with
      gain := e.wetGainNode.gain.linearRampToValueAtTime value (e.currentTime + 0.1) }
    delayNode := { e.delayNode with
      delayTime := e.delayNode.delayTime.setValue (0.1 + (value * 0.4)) }
    feedbackNode := { e.feedbackNode with
      gain := e.feedbackNode.gain.setValue (0.2 + (value * 0.5)) } }

/-- The method `updatePitchShift(value)`. -/
def updatePitchShift (M : JSMath α) (e : EnhancedAudioEngine α) (value : α) :
    EnhancedAudioEngine α :=
  let e1 := { e with adjustableParams := { e.adjustableParams with pitchShift := value } }
  updateFrequency M e1 e1.parameters.pitch

/-- The method `getParameters()`. -/
def getParameters (e : EnhancedAudioEngine α) : Parameters α :=
  e.parameters

end EnhancedAudioEngine

/-- The engine after the constructor and the method `initialize()` (a reserved word
here, hence the name), for an audio context with
the given sample rate and clock reading. -/
def EnhancedAudioEngine.initialized {α : Type} [LinearOrderedField α] (M : JSMath α)
    (sampleRate currentTime : α) : EnhancedAudioEngine α :=
  let adjustableParams : AdjustableParams α :=
    { pitchShift := 0, distortion := 0, reverbSize := 50
      vibratoSpeed := 5, vibratoDepth := 0, harmonics := 2 }
  let e0 : EnhancedAudioEngine α :=
    { currentTime := currentTime
      sampleRate := sampleRate
      isPlaying := false
      soundType := "synth"
      currentEffect := "normal"
      isVoiceMode := false
      microphone := none
      micStream := none
      oscillators := []
      lfos := []
      gainNode := { gain := AudioParam.ofValue 0 }
      masterGain := { gain := AudioParam.ofValue 0 }
      distortionNode := { curve := [] }
      filterNode :=
        { type := "lowpass", frequency := AudioParam.ofValue 2000, Q := AudioParam.ofValue 1 }
      vibratoLFO :=
        { type := "sine", frequency := AudioParam.ofValue 5, detune := AudioParam.ofValue 0 }
      vibratoGain := { gain := AudioParam.ofValue 0 }
      reverbNode := { bufferLength := 0, bufferSampleRate := sampleRate }
      delayNode := { delayTime := AudioParam.ofValue 0.3 }
      feedbackNode := { gain := AudioParam.ofValue 0.4 }
      dryGainNode := { gain := AudioParam.ofValue 1 }
      wetGainNode := { gain := AudioParam.ofValue 0 }
      currentFrequency := 440
      baseFrequency := 440
      adjustableParams := adjustableParams
      parameters := { volume := 0, pitch := 0, filter := 0, effectMix := 0 }
      percussionHits := [] }
  let e1 := EnhancedAudioEngine.updateDistortion M e0 0
  { e1 with reverbNode := e1.createReverb (e1.adjustableParams.reverbSize / 100) }

/-! ### Sound sources, voice mode, start and stop -/

namespace EnhancedAudioEngine

variable {α : Type} [LinearOrderedField α]

/-- The method `initialize()` run on an existing engine: a new audio context (with the
given sample rate and clock reading) and new nodes; the fields it does not assign
keep their values. -/
def initializeEngine (M : JSMath α) (e : EnhancedAudioEngine α)
    (sampleRate currentTime : α) : EnhancedAudioEngine α :=
  let e0 := { e with
    currentTime := currentTime
    sampleRate := sampleRate
    masterGain := { gain := AudioParam.ofValue 0 }
    gainNode := { gain := AudioParam.ofValue 0 }
    filterNode :=
      { type := "lowpass", frequency := AudioParam.ofValue 2000, Q := AudioParam.ofValue 1 }
    distortionNode := { curve := [] } }
  let e1 := updateDistortion M e0 0
  let e2 := { e1 with
    vibratoLFO :=
      { type := "sine", frequency := AudioParam.ofValue 5, detune := AudioParam.ofValue 0 }
    vibratoGain := { gain := AudioParam.ofValue 0 }
    dryGainNode := { gain := AudioParam.ofValue 1 }
    wetGainNode := { gain := AudioParam.ofValue 0 }
    delayNode := { delayTime := AudioParam.ofValue 0.3 }
    feedbackNode := { gain := AudioParam.ofValue 0.4 } }
  { e2 with reverbNode := e2.createReverb (e2.adjustableParams.reverbSize / 100) }

/-- The method `stopVoiceMode()`. -/
def stopVoiceMode (e : EnhancedAudioEngine α) : EnhancedAudioEngine α :=
  let e1 := if e.microphone.isSome then { e with microphone := none } else e
  let e2 := if e1.micStream.isSome then { e1 with micStream := none } else e1
  { e2 with isVoiceMode := false }

/-- The method `stopAllOscillators()`.  Each node is disconnected and stopped inside
its own `try … catch (e) {}`, so an error raised by a node never leaves the loop and
the two assignments that empty the lists always run. -/
def stopAllOscillators (e : EnhancedAudioEngine α) : EnhancedAudioEngine α :=
  { e with oscillators := [], lfos := [] }

/-- The statements `node.disconnect(); node.stop();` on one node; `raises node` tells
whether the node throws on them. -/
def disconnectAndStop (raises : OscillatorNode α → Bool) (node : OscillatorNode α) :
    Except String Unit :=
  if raises node then Except.error "InvalidStateError" else Except.ok ()

/-- The method `stopAllOscillators()` with the errors of the nodes spelled out: each
`forEach` body is `try { disconnectAndStop } catch (e) {}`. -/
def stopAllOscillatorsCatching (raises : OscillatorNode α → Bool)
    (e : EnhancedAudioEngine α) : Except String (EnhancedAudioEngine α) := do
  e.oscillators.forM fun osc =>
    tryCatch (disconnectAndStop raises osc) fun _ => pure ()
  e.lfos.forM fun lfo =>
    tryCatch (disconnectAndStop raises lfo) fun _ => pure ()
  pure { e with oscillators := [], lfos := [] }

/-- The method `disconnectSynthSources()`. -/
def disconnectSynthSources (e : EnhancedAudioEngine α) : EnhancedAudioEngine α :=
  e.stopAllOscillators

/-- The method `startVoiceMode()`; `granted` is what `getUserMedia` resolves to, `none`
when it rejects (the one failure the `try` block is there for).  The result carries
the boolean the method returns. -/
def startVoiceMode (e : EnhancedAudioEngine α) (granted : Option MediaStream) :
    EnhancedAudioEngine α × Bool :=
  match granted with
  | none => (e, false)
  | some stream =>
    let e1 := { e with micStream := some stream }
    let e2 := { e1 with microphone := some { mediaStream := stream } }
    let e3 := e2.disconnectSynthSources
    ({ e3 with isVoiceMode := true, isPlaying := true }, true)

/-- The method `stop()`. -/
def stop (e : EnhancedAudioEngine α) : EnhancedAudioEngine α :=
  let e1 := { e with isPlaying := false }
  let e2 := if e1.isVoiceMode then e1.stopVoiceMode else e1
  let e3 := e2.stopAllOscillators
  { e3 with
    gainNode := { e3.gainNode with
      gain := e3.gainNode.gain.linearRampToValueAtTime 0 (e3.currentTime + 0.1) }
    masterGain := { e3.masterGain with
      gain := e3.masterGain.gain.linearRampToValueAtTime 0 (e3.currentTime + 0.1) } }

/-- The method `startSynthSound()`. -/
def startSynthSound [FloorRing α] (e : EnhancedAudioEngine α) : EnhancedAudioEngine α :=
  let harmCount : ℤ := ⌊e.adjustableParams.harmonics⌋
  { e with oscillators := e.oscillators ++ (List.range harmCount.toNat).map fun (i : ℕ) =>
      { type := if i = 0 then "sawtooth" else "sine"
        frequency := AudioParam.ofValue (e.currentFrequency * ((i : α) + 1))
        detune := AudioParam.ofValue 0
        gainStage := some { gain := AudioParam.ofValue ((1 / ((i : α) + 1)) * 0.3) } } }

/-- The method `startAmbientSound()`. -/
def startAmbientSound (e : EnhancedAudioEngine α) : EnhancedAudioEngine α :=
  let frequencies : List α := [1, 1.5, 2, 2.5, 3, 4]
  { e with
    oscillators := e.oscillators ++ frequencies.mapIdx fun (index : ℕ) mult =>
      { type := ["sine", "triangle", "sine", "triangle", "sine", "triangle"].getD index ""
        frequency := AudioParam.ofValue (e.currentFrequency * mult)
        detune := AudioParam.ofValue 0
        gainStage := some { gain := AudioParam.ofValue (0.1 / ((index : α) + 1)) } }
    lfos := e.lfos ++ frequencies.mapIdx fun (index : ℕ) _ =>
      { type := "sine"
        frequency := AudioParam.ofValue (0.1 + ((index : α) * 0.05))
        detune := AudioParam.ofValue 0
        gainStage := some { gain := AudioParam.ofValue 15 } } }

/-- The method `startThereminSound()`. -/
def startThereminSound (e : EnhancedAudioEngine α) : EnhancedAudioEngine α :=
  { e with oscillators := e.oscillators ++
      [{ type := "sine"
         frequency := AudioParam.ofValue e.currentFrequency
         detune := AudioParam.ofValue 0 }] }

/-- The method `startChoirSound()`; `random n` is what the `n`-th call of
`Math.random()` inside the method returns (two calls per voice). -/
def startChoirSound (random : ℕ → α) (e : EnhancedAudioEngine α) : EnhancedAudioEngine α :=
  let voices : Nat := 8
  { e with
    oscillators := e.oscillators ++ (List.range voices).map fun (i : ℕ) =>
      let detune := (random (2 * i) - 0.5) * 20
      { type := "sine"
        frequency := AudioParam.ofValue e.currentFrequency
        detune := AudioParam.ofValue detune
        gainStage := some { gain := AudioParam.ofValue 0.1 } }
    lfos := e.lfos ++ (List.range voices).map fun (i : ℕ) =>
      { type := "sine"
        frequency := AudioParam.ofValue (0.5 + random (2 * i + 1) * 0.5)
        detune := AudioParam.ofValue 0
        gainStage := some { gain := AudioParam.ofValue 5 } } }

/-- The method `startPercussionSound()`. -/
def startPercussionSound (M : JSMath α) (e : EnhancedAudioEngine α) :
    EnhancedAudioEngine α :=
  let e1 := { e with baseFrequency := 100 }
  updateFrequency M e1 e1.parameters.pitch

/-- The method `start(soundType)`; `random` feeds `startChoirSound`. -/
def start [FloorRing α] (M : JSMath α) (random : ℕ → α) (e : EnhancedAudioEngine α)
    (soundType : String) : EnhancedAudioEngine α :=
  let e1 := { e with soundType := soundType, isPlaying := true }
  let e2 := e1.stopAllOscillators
  if !e2.isVoiceMode then
    match soundType with
    | "synth" => e2.startSynthSound
    | "ambient" => e2.startAmbientSound
    | "percussion" => startPercussionSound M e2
    | "theremin" => e2.startThereminSound
    | "choir" => startChoirSound random e2
    | _ => e2
  else e2

/-- The method `updateHarmonics(value)`. -/
def updateHarmonics [FloorRing α] (e : EnhancedAudioEngine α) (value : α) :
    EnhancedAudioEngine α :=
  let e1 := { e with adjustableParams := { e.adjustableParams with harmonics := value } }
  if e1.soundType = "synth" ∧ !e1.isVoiceMode then
    e1.stopAllOscillators.startSynthSound
  else e1

/-- The method `updateDistortionAmount(value)`. -/
def updateDistortionAmount (M : JSMath α) (e : EnhancedAudioEngine α) (value : α) :
    EnhancedAudioEngine α :=
  updateDistortion M
    { e with adjustableParams := { e.adjustableParams with distortion := value } } value

/-- The method `updateVibratoSpeed(value)`. -/
def updateVibratoSpeed (e : EnhancedAudioEngine α) (value : α) : EnhancedAudioEngine α :=
  { e with
    adjustableParams := { e.adjustableParams with vibratoSpeed := value }
    vibratoLFO := { e.vibratoLFO with frequency := e.vibratoLFO.frequency.setValue value } }

/-- The method `updateVibratoDepth(value)`. -/
def updateVibratoDepth (e : EnhancedAudioEngine α) (value : α) : EnhancedAudioEngine α :=
  { e with
    adjustableParams := { e.adjustableParams with vibratoDepth := value }
    vibratoGain := { e.vibratoGain with gain := e.vibratoGain.gain.setValue (value / 10) } }

end EnhancedAudioEngine


/-! ### The connection graph of the effect chain

The connections between the engine's nodes are kept as a state of their own, next to
the parameter state above: the `connect` and `disconnect` statements of `initialize()`,
`setupAudioGraph()` and `updateReverbSize()` act on it. -/

/-- A node of the engine's graph, named by the engine field that refers to it; the
convolvers, which `updateReverbSize` replaces, are told apart by their order of
creation. -/
inductive AudioNodeRef where
  | gainNode
  | distortionNode
  | filterNode
  | dryGainNode
  | wetGainNode
  | delayNode
  | feedbackNode
  | analyser
  | masterGain
  | destination
  | vibratoLFO
  | vibratoGain
  | convolver (created : Nat)
deriving DecidableEq, Repr

/-- The connection graph: the convolver `this.reverbNode` refers to, the number of
convolvers created so far, and the connections `(source, destination)` in the order
they were made. -/
structure AudioGraph where
  reverbNode : AudioNodeRef
  convolversCreated : Nat
  connections : List (AudioNodeRef × AudioNodeRef)
deriving DecidableEq, Repr

namespace AudioGraph

/-- The call `source.connect(dest)`; connecting twice is the same as once. -/
def connect (g : AudioGraph) (source dest : AudioNodeRef) : AudioGraph :=
  if (source, dest) ∈ g.connections then g
  else { g with connections := g.connections ++ [(source, dest)] }

/-- The call `source.disconnect()`: it removes the outgoing connections of `source`. -/
def disconnect (g : AudioGraph) (source : AudioNodeRef) : AudioGraph :=
  { g with connections := g.connections.filter fun c => c.1 ≠ source }

/-- The node creation in `createReverb(size)`: a new, unconnected convolver.  The
result is the graph with the creation counted, and the new convolver. -/
def createReverb (g : AudioGraph) : AudioGraph × AudioNodeRef :=
  ({ g with convolversCreated := g.convolversCreated + 1 },
    AudioNodeRef.convolver g.convolversCreated)

/-- The method `setupAudioGraph()`. -/
def setupAudioGraph (g : AudioGraph) : AudioGraph :=
  let g := g.connect AudioNodeRef.gainNode AudioNodeRef.distortionNode
  let g := g.connect AudioNodeRef.distortionNode AudioNodeRef.filterNode
  let g := g.connect AudioNodeRef.filterNode AudioNodeRef.dryGainNode
  let g := g.connect AudioNodeRef.dryGainNode AudioNodeRef.analyser
  let g := g.connect AudioNodeRef.filterNode AudioNodeRef.delayNode
  let g := g.connect AudioNodeRef.delayNode AudioNodeRef.feedbackNode
  let g := g.connect AudioNodeRef.feedbackNode AudioNodeRef.delayNode
  let g := g.connect AudioNodeRef.delayNode g.reverbNode
  let g := g.connect g.reverbNode AudioNodeRef.wetGainNode
  let g := g.connect AudioNodeRef.wetGainNode AudioNodeRef.analyser
  let g := g.connect AudioNodeRef.analyser AudioNodeRef.masterGain
  g.connect AudioNodeRef.masterGain AudioNodeRef.destination

/-- The graph the method `initialize()` builds on a new audio context: the connection
`vibratoLFO.connect(vibratoGain)`, the first convolver (convolver 0) assigned to
`this.reverbNode`, then `setupAudioGraph()`. -/
def initialized : AudioGraph :=
  let g : AudioGraph :=
    { reverbNode := AudioNodeRef.convolver 0
      convolversCreated := 1
      connections := [(AudioNodeRef.vibratoLFO, AudioNodeRef.vibratoGain)] }
  g.setupAudioGraph

/-- The graph statements of the method `updateReverbSize(value)`:
`this.reverbNode.disconnect()`, the new convolver assigned to `this.reverbNode`,
`this.delayNode.connect(this.reverbNode)`, `this.reverbNode.connect(this.wetGainNode)`. -/
def updateReverbSize (g : AudioGraph) : AudioGraph :=
  let g := g.disconnect g.reverbNode
  let (g, convolver) := g.createReverb
  let g := { g with reverbNode := convolver }
  let g := g.connect AudioNodeRef.delayNode g.reverbNode
  g.connect g.reverbNode AudioNodeRef.wetGainNode

/-- The connections into a node. -/
def incoming (g : AudioGraph) (node : AudioNodeRef) : List (AudioNodeRef × AudioNodeRef) :=
  g.connections.filter fun c => c.2 = node

/-- The connections out of a node. -/
def outgoing (g : AudioGraph) (node : AudioNodeRef) : List (AudioNodeRef × AudioNodeRef) :=
  g.connections.filter fun c => c.1 = node

end AudioGraph

/-! ## `gestureDetector.js` -/

/-- A point with normalized coordinates; the depth `z` may be missing. -/
structure Landmark (α : Type) where
  x : α
  y : α
  z : Option α
deriving DecidableEq, Repr

/-- The 21 landmarks of one hand, as the detector delivers them. -/
abbrev HandLandmarks (α : Type) := Fin 21 → Landmark α

/-- The record `this.gestureState`. -/
structure GestureState (α : Type) where
  handCount : Nat
  handHeight : α
  pinchDistance : α
  rotation : α
  twoHandsDistance : α
  palmOpenness : α
  movementSpeed : α
deriving DecidableEq, Repr

/-- The state of a `GestureDetector` that the gesture computation reads and writes. -/
structure GestureDetector (α : Type) where
  previousHandData : Option (List (HandLandmarks α))
  gestureState : GestureState α

namespace GestureDetector

variable {α : Type} [LinearOrderedField α]

/-- The detector state the constructor sets up. -/
def new : GestureDetector α :=
  { previousHandData := none
    gestureState :=
      { handCount := 0, handHeight := 0, pinchDistance := 0, rotation := 0
        twoHandsDistance := 0, palmOpenness := 0, movementSpeed := 0 } }

/-- The method `calculateDistance(point1, point2)`; `(p.z || 0)` is `p.z.getD 0`. -/
def calculateDistance (M : JSMath α) (point1 point2 : Landmark α) : α :=
  let dx := point1.x - point2.x
  let dy := point1.y - point2.y
  let dz := point1.z.getD 0 - point2.z.getD 0
  M.sqrt (dx * dx + dy * dy + dz * dz)

/-- The method `getHandCenter(landmarks)`. -/
def getHandCenter (landmarks : HandLandmarks α) : Landmark α :=
  let wrist := landmarks 0
  let middle := landmarks 9
  { x := (wrist.x + middle.x) / 2
    y := (wrist.y + middle.y) / 2
    z := some ((wrist.z.getD 0 + middle.z.getD 0) / 2) }

/-- The method `calculateGestureParameters(primaryHand, allHands)`. -/
def calculateGestureParameters (M : JSMath α) (d : GestureDetector α)
    (primaryHand : HandLandmarks α) (allHands : List (HandLandmarks α)) :
    GestureDetector α :=
  let wrist := primaryHand 0
  let thumbTip := primaryHand 4
  let indexTip := primaryHand 8
  let middleTip := primaryHand 12
  let ringTip := primaryHand 16
  let pinkyTip := primaryHand 20
  let indexBase := primaryHand 5
  let pinkyBase := primaryHand 17
  let handHeight := 1 - wrist.y
  let pinchDist := calculateDistance M thumbTip indexTip
  let pinchDistance := max 0 (min 1 (1 - (pinchDist * 5)))
  let handVectorX := indexBase.x - pinkyBase.x
  let handVectorY := indexBase.y - pinkyBase.y
  let rotation := M.atan2 handVectorY handVectorX
  let rotation := (rotation + M.PI) / (2 * M.PI)
  let fingerDistances : List α :=
    [ calculateDistance M thumbTip (primaryHand 2)
    , calculateDistance M indexTip (primaryHand 6)
    , calculateDistance M middleTip (primaryHand 10)
    , calculateDistance M ringTip (primaryHand 14)
    , calculateDistance M pinkyTip (primaryHand 18) ]
  let avgFingerExtension :=
    fingerDistances.foldl (fun a b => a + b) 0 / (fingerDistances.length : α)
  let palmOpenness := min 1 (avgFingerExtension * 3)
  let twoHandsDistance : α :=
    match allHands with
    | [hand1, hand2] =>
      let hand1Center := getHandCenter hand1
      let hand2Center := getHandCenter hand2
      let distance := calculateDistance M hand1Center hand2Center
      min 1 (distance * 2)
    | _ => 0
  let movementSpeed : α :=
    match d.previousHandData with
    | some (prevHand :: _) =>
      let prevWrist := prevHand 0
      let movement := calculateDistance M wrist prevWrist
      min 1 (movement * 20)
    | _ => d.gestureState.movementSpeed
  { d with gestureState :=
      { d.gestureState with
        handHeight := handHeight
        pinchDistance := pinchDistance
        rotation := rotation
        palmOpenness := palmOpenness
        twoHandsDistance := twoHandsDistance
        movementSpeed := movementSpeed } }

/-- The gesture part of `processResults(results)`; the argument is
`results.multiHandLandmarks`, which may be undefined.  The state returned carries the
`gestureState` handed to the results callback. -/
def processResults (M : JSMath α) (d : GestureDetector α)
    (multiHandLandmarks : Option (List (HandLandmarks α))) : GestureDetector α :=
  let d1 :=
    match multiHandLandmarks with
    | some (primaryHand :: moreHands) =>
      let allHands := primaryHand :: moreHands
      let d0 := { d with gestureState := { d.gestureState with handCount := allHands.length } }
      calculateGestureParameters M d0 primaryHand allHands
    | _ => { d with gestureState := { d.gestureState with handCount := 0 } }
  { d1 with previousHandData := multiHandLandmarks }

end GestureDetector

/-! ## `enhancedApp.js` -/

/-- The four gesture-controlled parameters (`smoothingFactors`, `smoothedValues`). -/
structure ControlValues (α : Type) where
  volume : α
  pitch : α
  filter : α
  effect : α
deriving DecidableEq, Repr

/-- The state of an `EnhancedApp` that gesture updates read and write. -/
structure EnhancedApp (α : Type) where
  audioEngine : EnhancedAudioEngine α
  isRunning : Bool
  currentSoundType : String
  currentEffect : String
  isVoiceMode : Bool
  lastPercussionTime : α
  percussionCooldown : α
  smoothingFactors : ControlValues α
  smoothedValues : ControlValues α

namespace EnhancedApp

variable {α : Type} [LinearOrderedField α]

/-- The application state the constructor sets up, around a given engine. -/
def new (audioEngine : EnhancedAudioEngine α) : EnhancedApp α :=
  { audioEngine := audioEngine
    isRunning := false
    currentSoundType := "synth"
    currentEffect := "normal"
    isVoiceMode := false
    lastPercussionTime := 0
    percussionCooldown := 200
    smoothingFactors := { volume := 0.15, pitch := 0.2, filter := 0.15, effect := 0.1 }
    smoothedValues := { volume := 0, pitch := 0, filter := 0, effect := 0 } }

/-- The method `mapGestureToParameter(value, min, max)`. -/
def mapGestureToParameter (value min max : α) : α :=
  let normalized := Max.max 0 (Min.min 1 value)
  min + (normalized * (max - min))

/-- The method `smooth(target, current, factor)`. -/
def smooth (target current factor : α) : α :=
  current + (target - current) * factor

/-- The two statements smoothing the volume toward `target` and sending it to the engine. -/
def stepVolume (s : EnhancedApp α) (target : α) : EnhancedApp α :=
  let s1 := { s with smoothedValues := { s.smoothedValues with
    volume := smooth target s.smoothedValues.volume s.smoothingFactors.volume } }
  { s1 with audioEngine := s1.audioEngine.updateVolume s1.smoothedValues.volume }

/-- The statements mapping `pinchDistance` to a target, smoothing the pitch and sending it. -/
def stepPitch (M : JSMath α) (s : EnhancedApp α) (gestureState : GestureState α) :
    EnhancedApp α :=
  let targetPitch := mapGestureToParameter gestureState.pinchDistance 0 1
  let s1 := { s with smoothedValues := { s.smoothedValues with
    pitch := smooth targetPitch s.smoothedValues.pitch s.smoothingFactors.pitch } }
  { s1 with audioEngine := s1.audioEngine.updatePitch M s1.smoothedValues.pitch }

/-- The statements mapping `rotation` to a target, smoothing the filter and sending it. -/
def stepFilter (s : EnhancedApp α) (gestureState : GestureState α) : EnhancedApp α :=
  let targetFilter := mapGestureToParameter gestureState.rotation 0 1
  let s1 := { s with smoothedValues := { s.smoothedValues with
    filter := smooth targetFilter s.smoothedValues.filter s.smoothingFactors.filter } }
  { s1 with audioEngine := s1.audioEngine.updateFilter s1.smoothedValues.filter }

/-- The statements mapping `twoHandsDistance` to a target, smoothing the effect mix and
sending it. -/
def stepEffect (s : EnhancedApp α) (gestureState : GestureState α) : EnhancedApp α :=
  let targetEffect := mapGestureToParameter gestureState.twoHandsDistance 0 1
  let s1 := { s with smoothedValues := { s.smoothedValues with
    effect := smooth targetEffect s.smoothedValues.effect s.smoothingFactors.effect } }
  { s1 with audioEngine := s1.audioEngine.updateEffectMix s1.smoothedValues.effect }

/-- The percussion gate of the one-hand branch; `now` is the reading of `Date.now()`. -/
def percussionGate (s : EnhancedApp α) (gestureState : GestureState α) (now : α) :
    EnhancedApp α :=
  if s.currentSoundType = "percussion" ∧ gestureState.palmOpenness > 0.7 then
    if now - s.lastPercussionTime > s.percussionCooldown then
      { s with
        audioEngine := s.audioEngine.triggerPercussionHit
        lastPercussionTime := now }
    else s
  else s

/-- The method `handleGestureUpdate(gestureState)`, without the on-screen feedback;
`now` is the reading `Date.now()` would give during the call. -/
def handleGestureUpdate (M : JSMath α) (s : EnhancedApp α) (gestureState : GestureState α)
    (now : α) : EnhancedApp α :=
  if !s.isRunning then s
  else if gestureState.handCount = 0 then
    stepVolume s 0
  else if gestureState.handCount = 1 then
    let s1 := stepVolume s (mapGestureToParameter gestureState.handHeight 0 1)
    let s2 := stepPitch M s1 gestureState
    let s3 := stepFilter s2 gestureState
    percussionGate s3 gestureState now
  else if gestureState.handCount = 2 then
    let s1 := stepVolume s (mapGestureToParameter gestureState.handHeight 0 1)
    let s2 := stepPitch M s1 gestureState
    let s3 := stepFilter s2 gestureState
    stepEffect s3 gestureState
  else s

/-- The method `stop()`, without the camera, the visualizer and the page elements
(`resetUI` only rewrites the on-screen bars and labels). -/
def stop (s : EnhancedApp α) : EnhancedApp α :=
  let s1 := { s with isRunning := false }
  let s2 := { s1 with audioEngine := s1.audioEngine.stop }
  { s2 with isVoiceMode := false }

/-- The method `start()` when camera and audio come up without an error;
`sampleRate` and `currentTime` are the readings of the new audio context and `random`
feeds the engine's `start`. -/
def start [FloorRing α] (M : JSMath α) (random : ℕ → α) (s : EnhancedApp α)
    (sampleRate currentTime : α) : EnhancedApp α :=
  let s1 := { s with
    audioEngine := EnhancedAudioEngine.initializeEngine M s.audioEngine sampleRate currentTime }
  let s2 := { s1 with
    audioEngine := EnhancedAudioEngine.start M random s1.audioEngine s1.currentSoundType }
  { s2 with isRunning := true }

end EnhancedApp

/-! ## Observations used in the statements -/

/-- The settings the "normal" preset resets, in the order: filter type, filter
frequency, filter Q, pitch shift, distortion, vibrato speed, vibrato depth. -/
def EnhancedAudioEngine.effectSettings {α : Type} (e : EnhancedAudioEngine α) :
    String × α × α × α × α × α × α :=
  ( e.filterNode.type, e.filterNode.frequency.value, e.filterNode.Q.value
  , e.adjustableParams.pitchShift, e.adjustableParams.distortion
  , e.adjustableParams.vibratoSpeed, e.adjustableParams.vibratoDepth )

/-- The fields a voice-effect preset may assign, in the order: filter type, filter
frequency, filter Q, pitch shift, distortion amount, vibrato speed, vibrato depth,
delay time, feedback gain, wet gain, dry gain. -/
def EnhancedAudioEngine.presetFields {α : Type} (e : EnhancedAudioEngine α) :
    String × α × α × α × α × α × α × α × α × α × α :=
  ( e.filterNode.type, e.filterNode.frequency.value, e.filterNode.Q.value
  , e.adjustableParams.pitchShift, e.adjustableParams.distortion
  , e.adjustableParams.vibratoSpeed, e.adjustableParams.vibratoDepth
  , e.delayNode.delayTime.value, e.feedbackNode.gain.value
  , e.wetGainNode.gain.value, e.dryGainNode.gain.value )

/-- One call on the engine's effect controls. -/
inductive EffectCall (α : Type) where
  | applyVoiceEffect (effectName : String)
  | updateEffectMix (value : α)

/-- The engine after one call of `applyVoiceEffect` or `updateEffectMix`. -/
def EnhancedAudioEngine.effectCall {α : Type} [LinearOrderedField α] (M : JSMath α)
    (e : EnhancedAudioEngine α) : EffectCall α → EnhancedAudioEngine α
  | EffectCall.applyVoiceEffect effectName => EnhancedAudioEngine.applyVoiceEffect M e effectName
  | EffectCall.updateEffectMix value => e.updateEffectMix value

/-- The engine after a sequence of effect calls, first call first. -/
def EnhancedAudioEngine.effectCalls {α : Type} [LinearOrderedField α] (M : JSMath α)
    (e : EnhancedAudioEngine α) (calls : List (EffectCall α)) : EnhancedAudioEngine α :=
  calls.foldl (EnhancedAudioEngine.effectCall M) e

/-- The engine holds a microphone source or an input stream only while in voice mode,
as `startVoiceMode`, `stopVoiceMode` and `stop` keep it. -/
def EnhancedAudioEngine.MicOnlyInVoiceMode {α : Type} (e : EnhancedAudioEngine α) : Prop :=
  e.isVoiceMode = false → e.microphone = none ∧ e.micStream = none

/-- The oscillator set is the synth partial series for the harmonics value `n`: it has
`floor(n)` oscillators, and partial `k` (counted from 1) has frequency
`currentFrequency · k`, its own gain stage at `0.3 / k`, and waveform "sawtooth" for
`k = 1` and "sine" otherwise. -/
def EnhancedAudioEngine.HasSynthPartials {α : Type} [LinearOrderedField α] [FloorRing α]
    (e : EnhancedAudioEngine α) (n : α) : Prop :=
  (e.oscillators.length : ℤ) = ⌊n⌋ ∧
  ∀ k : ℕ, 1 ≤ k → (k : ℤ) ≤ ⌊n⌋ →
    ∃ osc : OscillatorNode α, e.oscillators[k - 1]? = some osc ∧
      osc.frequency.value = e.currentFrequency * (k : α) ∧
      osc.gainStage.map (fun g => g.gain.value) = some (0.3 / (k : α)) ∧
      osc.type = if k = 1 then "sawtooth" else "sine"

/-- The detector after a sequence of detector results, first frame first; each frame
is the `multiHandLandmarks` of one `processResults` call. -/
def GestureDetector.processFrames {α : Type} [LinearOrderedField α] (M : JSMath α)
    (d : GestureDetector α) (frames : List (Option (List (HandLandmarks α)))) :
    GestureDetector α :=
  frames.foldl (GestureDetector.processResults M) d

/-- Every gesture feature lies in [0, 1]. -/
def GestureState.InUnitRange {α : Type} [LinearOrderedField α] (g : GestureState α) : Prop :=
  (0 ≤ g.handHeight ∧ g.handHeight ≤ 1) ∧
  (0 ≤ g.pinchDistance ∧ g.pinchDistance ≤ 1) ∧
  (0 ≤ g.rotation ∧ g.rotation ≤ 1) ∧
  (0 ≤ g.palmOpenness ∧ g.palmOpenness ≤ 1) ∧
  (0 ≤ g.twoHandsDistance ∧ g.twoHandsDistance ≤ 1) ∧
  (0 ≤ g.movementSpeed ∧ g.movementSpeed ≤ 1)

/-- The application after a sequence of `handleGestureUpdate` calls, first call first;
each call comes with its gesture state and the `Date.now()` reading during it. -/
def EnhancedApp.gestureUpdates {α : Type} [LinearOrderedField α] (M : JSMath α)
    (s : EnhancedApp α) (updates : List (GestureState α × α)) : EnhancedApp α :=
  updates.foldl (fun s' u => EnhancedApp.handleGestureUpdate M s' u.1 u.2) s

/-- Each of the four control values lies in [0, 1]. -/
def ControlValues.InUnitRange {α : Type} [LinearOrderedField α] (c : ControlValues α) : Prop :=
  (0 ≤ c.volume ∧ c.volume ≤ 1) ∧ (0 ≤ c.pitch ∧ c.pitch ≤ 1) ∧
  (0 ≤ c.filter ∧ c.filter ≤ 1) ∧ (0 ≤ c.effect ∧ c.effect ≤ 1)

/-! ## Sample inputs -/

/-- Sample state: a running percussion session around a freshly initialized engine
(44.1 kHz, audio clock at 0) that is playing in mode "percussion". -/
def EnhancedApp.percussionSession {α : Type} [LinearOrderedField α] (M : JSMath α) :
    EnhancedApp α :=
  { EnhancedApp.new
      { EnhancedAudioEngine.initialized M 44100 0 with
        isPlaying := true, soundType := "percussion" } with
    isRunning := true, currentSoundType := "percussion" }

/-- Sample gesture: one hand at mid height with an open palm. -/
def GestureState.openPalm {α : Type} [LinearOrderedField α] : GestureState α :=
  { handCount := 1, handHeight := 0.5, pinchDistance := 0.5, rotation := 0.5
    twoHandsDistance := 0, palmOpenness := 0.9, movementSpeed := 0 }

/-- Sample gesture: no hand in view; the other fields keep stale values. -/
def GestureState.noHands {α : Type} [LinearOrderedField α] : GestureState α :=
  { handCount := 0, handHeight := 0.5, pinchDistance := 0.5, rotation := 0.5
    twoHandsDistance := 0.3, palmOpenness := 0.9, movementSpeed := 0.2 }

/-- Sample hand: an upright open hand, shifted horizontally by `dx`; the wrist is at
`(0.2 + dx, 0.8)` and the knuckles of index, middle and little finger are level at
height 0.6. -/
def HandLandmarks.upright {α : Type} [LinearOrderedField α] (dx : α) : HandLandmarks α :=
  fun i =>
    match i.val with
    | 0 => { x := 0.2 + dx, y := 0.8, z := some 0 }
    | 4 => { x := 0.05 + dx, y := 0.6, z := some 0 }
    | 5 => { x := 0.15 + dx, y := 0.6, z := some 0 }
    | 8 => { x := 0.15 + dx, y := 0.35, z := some 0 }
    | 9 => { x := 0.2 + dx, y := 0.6, z := some 0 }
    | 17 => { x := 0.3 + dx, y := 0.6, z := some 0 }
    | _ => { x := 0.2 + dx, y := 0.5, z := some 0 }

/-- Sample state: the percussion session after some playing, with smoothed values
0.8, 0.5, 0.4 and 0.3. -/
def EnhancedApp.percussionSessionInUse {α : Type} [LinearOrderedField α] (M : JSMath α) :
    EnhancedApp α :=
  { EnhancedApp.percussionSession M with
    smoothedValues := { volume := 0.8, pitch := 0.5, filter := 0.4, effect := 0.3 } }

/-- Sample gesture: two hands reported with feature values outside [0, 1]. -/
def GestureState.outOfRange {α : Type} [LinearOrderedField α] : GestureState α :=
  { handCount := 2, handHeight := 7, pinchDistance := -3, rotation := 1.5
    twoHandsDistance := 40, palmOpenness := 2, movementSpeed := -1 }

/-! # Theorems -/

/-! ## Smoothing converges monotonically -/

section Smoothing

variable {α : Type} [LinearOrderedField α]

/-- One smoothing step scales the signed distance to the target by `1 - factor`. -/
theorem EnhancedApp.smooth_sub_target (T c f : α) :
    EnhancedApp.smooth T c f - T = (c - T) * (1 - f) := by
  unfold EnhancedApp.smooth
  ring

/-- After `n` smoothing steps the signed distance to the target is scaled by
`(1 - factor) ^ n`. -/
theorem EnhancedApp.iterate_smooth_sub_target (T c f : α) (n : ℕ) :
    (fun x => EnhancedApp.smooth T x f)^[n] c - T = (c - T) * (1 - f) ^ n := by
  induction n generalizing c with
  | zero => simp
  | succ k ih =>
    rw [Function.iterate_succ_apply, ih, EnhancedApp.smooth_sub_target]
    ring

/-- For a factor strictly between 0 and 1, every frame under a constant target brings
the smoothed value strictly closer to it. -/
theorem EnhancedApp.smooth_strictly_closer (T c f : α) (hc : c ≠ T) (h0 : 0 < f)
    (h1 : f < 1) (n : ℕ) :
    |(fun x => EnhancedApp.smooth T x f)^[n + 1] c - T|
      < |(fun x => EnhancedApp.smooth T x f)^[n] c - T| := by
  rw [EnhancedApp.iterate_smooth_sub_target, EnhancedApp.iterate_smooth_sub_target,
    abs_mul, abs_mul, pow_succ, abs_mul]
  have hpos : 0 < |c - T| := abs_pos.mpr (sub_ne_zero.mpr hc)
  have hf : 0 < 1 - f := by linarith
  have hq : 0 < |(1 - f) ^ n| := abs_pos.mpr (pow_ne_zero n (ne_of_gt hf))
  have hlt : |1 - f| < 1 := by
    rw [abs_of_pos hf]
    linarith
  have hprod : 0 < |c - T| * |(1 - f) ^ n| := mul_pos hpos hq
  calc |c - T| * (|(1 - f) ^ n| * |1 - f|)
      = (|c - T| * |(1 - f) ^ n|) * |1 - f| := by ring
    _ < (|c - T| * |(1 - f) ^ n|) * 1 := by
        exact mul_lt_mul_of_pos_left hlt hprod
    _ = |c - T| * |(1 - f) ^ n| := by ring

/-- C1: with the four smoothing factors the constructor configures (volume 0.15,
pitch 0.2, filter 0.15, effect 0.1), for a constant target `T` and a current value
`c ≠ T`, one step `smooth T c factor` lands strictly closer to `T` than `c` was, and
under the constant target the distance to `T` strictly decreases on every later frame
as well. -/
theorem C1_smooth_strictly_approaches_target (audioEngine : EnhancedAudioEngine α)
    (T c : α) (hc : c ≠ T) :
    (EnhancedApp.new audioEngine).smoothingFactors
        = { volume := 0.15, pitch := 0.2, filter := 0.15, effect := 0.1 } ∧
    ∀ f ∈ [ (EnhancedApp.new audioEngine).smoothingFactors.volume
          , (EnhancedApp.new audioEngine).smoothingFactors.pitch
          , (EnhancedApp.new audioEngine).smoothingFactors.filter
          , (EnhancedApp.new audioEngine).smoothingFactors.effect ],
      EnhancedApp.smooth T c f = c + (T - c) * f ∧
      |EnhancedApp.smooth T c f - T| < |c - T| ∧
      ∀ n : ℕ, |(fun x => EnhancedApp.smooth T x f)^[n + 1] c - T|
          < |(fun x => EnhancedApp.smooth T x f)^[n] c - T| := by
  refine ⟨rfl, ?_⟩
  intro f hf
  have hrange : 0 < f ∧ f < 1 := by
    simp only [EnhancedApp.new, List.mem_cons, List.mem_singleton, List.mem_nil_iff,
      or_false] at hf
    rcases hf with h | h | h | h <;> subst h <;> constructor <;> norm_num
  refine ⟨rfl, ?_, fun n => EnhancedApp.smooth_strictly_closer T c f hc hrange.1 hrange.2 n⟩
  simpa using EnhancedApp.smooth_strictly_closer T c f hc hrange.1 hrange.2 0

end Smoothing

/-- Witness for C1: from current value 0 toward target 1 with the volume factor. -/
theorem C1_smooth_strictly_approaches_target_witness :
    (0 : ℝ) ≠ 1 ∧ |EnhancedApp.smooth (1 : ℝ) 0 0.15 - 1| < |(0 : ℝ) - 1| :=
  ⟨by norm_num,
    ((C1_smooth_strictly_approaches_target
      (EnhancedAudioEngine.initialized
        ⟨Real.pi, Real.sqrt, fun y x => Complex.arg ⟨x, y⟩, fun b x => b ^ x⟩ 44100 0)
      (1 : ℝ) 0 (by norm_num)).2 0.15 (by simp [EnhancedApp.new])).2.1⟩

/-! ## Pitch and volume mapping -/

section PitchVolume

/-- The current frequency `updateFrequency` stores, for any reading of `Math.pow`. -/
theorem EnhancedAudioEngine.updateFrequency_currentFrequency {α : Type}
    [LinearOrderedField α] (M : JSMath α) (e : EnhancedAudioEngine α) (p : α) :
    (EnhancedAudioEngine.updateFrequency M e p).currentFrequency
      = ((if e.soundType = "percussion" then 60 else 220)
          + p * ((if e.soundType = "percussion" then 400 else 880)
            - (if e.soundType = "percussion" then 60 else 220)))
        * M.pow 2 (e.adjustableParams.pitchShift / 12) := by
  unfold EnhancedAudioEngine.updateFrequency
  dsimp only
  split <;> rfl

/-- C2: with `Math.pow` read as the real power, after `updatePitch(p)` the engine's
`currentFrequency` is `(min + p·(max − min))·2^(pitchShift/12)` with range (60, 400) in
sound mode "percussion" and (220, 880) in every other mode; with pitch shift 0 this
gives 220 Hz for `p = 0` and 880 Hz for `p = 1` in "synth", and 60 Hz for `p = 0` in
"percussion". -/
theorem C2_updatePitch_currentFrequency (M : JSMath ℝ)
    (hpow : ∀ b x : ℝ, M.pow b x = b ^ x) (e : EnhancedAudioEngine ℝ) (p : ℝ) :
    (e.soundType = "percussion" →
      (EnhancedAudioEngine.updatePitch M e p).currentFrequency
        = (60 + p * (400 - 60)) * (2 : ℝ) ^ (e.adjustableParams.pitchShift / 12)) ∧
    (e.soundType ≠ "percussion" →
      (EnhancedAudioEngine.updatePitch M e p).currentFrequency
        = (220 + p * (880 - 220)) * (2 : ℝ) ^ (e.adjustableParams.pitchShift / 12)) ∧
    (e.adjustableParams.pitchShift = 0 → e.soundType = "synth" →
      (EnhancedAudioEngine.updatePitch M e 0).currentFrequency = 220 ∧
      (EnhancedAudioEngine.updatePitch M e 1).currentFrequency = 880) ∧
    (e.adjustableParams.pitchShift = 0 → e.soundType = "percussion" →
      (EnhancedAudioEngine.updatePitch M e 0).currentFrequency = 60) := by
  have key : ∀ q : ℝ, (EnhancedAudioEngine.updatePitch M e q).currentFrequency
      = ((if e.soundType = "percussion" then 60 else 220)
          + q * ((if e.soundType = "percussion" then 400 else 880)
            - (if e.soundType = "percussion" then 60 else 220)))
        * (2 : ℝ) ^ (e.adjustableParams.pitchShift / 12) := by
    intro q
    unfold EnhancedAudioEngine.updatePitch
    rw [EnhancedAudioEngine.updateFrequency_currentFrequency, hpow]
  refine ⟨fun h => ?_, fun h => ?_, fun hs h => ⟨?_, ?_⟩, fun hs h => ?_⟩
  · rw [key, if_pos h, if_pos h]
  · rw [key, if_neg h, if_neg h]
  · rw [key, h, hs, if_neg (by decide), if_neg (by decide)]; norm_num
  · rw [key, h, hs, if_neg (by decide), if_neg (by decide)]; norm_num
  · rw [key, h, hs, if_pos rfl, if_pos rfl]; norm_num

/-- Witness for C2: the freshly initialized engine (mode "synth", pitch shift 0) at
pitch 1 is tuned to 880 Hz. -/
theorem C2_updatePitch_currentFrequency_witness :
    (EnhancedAudioEngine.updatePitch
      ⟨Real.pi, Real.sqrt, fun y x => Complex.arg ⟨x, y⟩, fun b x => b ^ x⟩
      (EnhancedAudioEngine.initialized
        ⟨Real.pi, Real.sqrt, fun y x => Complex.arg ⟨x, y⟩, fun b x => b ^ x⟩ 44100 0)
      1).currentFrequency = 880 :=
  ((C2_updatePitch_currentFrequency
    ⟨Real.pi, Real.sqrt, fun y x => Complex.arg ⟨x, y⟩, fun b x => b ^ x⟩
    (fun _ _ => rfl)
    (EnhancedAudioEngine.initialized
      ⟨Real.pi, Real.sqrt, fun y x => Complex.arg ⟨x, y⟩, fun b x => b ^ x⟩ 44100 0)
    1).2.2.1 rfl rfl).2

/-- C3: `updateVolume(v)` records `parameters.volume = v`, schedules on the source
gain a ramp to `v²` and on the master gain a ramp to `0.6·v²`, both ending 50 ms after
the current audio time; so `v = 0.5` gives gain target 0.25, and `v = 1` gives gain
target 1 with master target 0.6. -/
theorem C3_updateVolume_square_law {α : Type} [LinearOrderedField α]
    (e : EnhancedAudioEngine α) (v : α) :
    (e.updateVolume v).parameters.volume = v ∧
    (e.updateVolume v).gainNode.gain.ramps
      = e.gainNode.gain.ramps ++ [{ target := v ^ 2, endTime := e.currentTime + 0.05 }] ∧
    (e.updateVolume v).masterGain.gain.ramps
      = e.masterGain.gain.ramps
        ++ [{ target := 0.6 * v ^ 2, endTime := e.currentTime + 0.05 }] ∧
    (e.updateVolume v).gainNode.gain.lastTarget = some (v ^ 2) ∧
    (e.updateVolume v).masterGain.gain.lastTarget = some (0.6 * v ^ 2) ∧
    (e.updateVolume 0.5).gainNode.gain.lastTarget = some 0.25 ∧
    (e.updateVolume 1).gainNode.gain.lastTarget = some 1 ∧
    (e.updateVolume 1).masterGain.gain.lastTarget = some 0.6 := by
  have hm : ∀ w : α, (e.updateVolume w).masterGain.gain.lastTarget = some (0.6 * w ^ 2) := by
    intro w
    simp [EnhancedAudioEngine.updateVolume, AudioParam.linearRampToValueAtTime,
      AudioParam.lastTarget, mul_comm]
  have hg : ∀ w : α, (e.updateVolume w).gainNode.gain.lastTarget = some (w ^ 2) := by
    intro w
    simp [EnhancedAudioEngine.updateVolume, AudioParam.linearRampToValueAtTime,
      AudioParam.lastTarget]
  refine ⟨rfl, rfl, ?_, hg v, hm v, ?_, ?_, ?_⟩
  · simp [EnhancedAudioEngine.updateVolume, AudioParam.linearRampToValueAtTime, mul_comm]
  · rw [hg]; norm_num
  · rw [hg]; norm_num
  · rw [hm]; norm_num

end PitchVolume

/-! ## Reverb impulse length and the "normal" preset -/

section ReverbPreset

variable {α : Type} [LinearOrderedField α]

/-- The impulse length `updateReverbSize(size)` computes. -/
theorem EnhancedAudioEngine.updateReverbSize_bufferLength (e : EnhancedAudioEngine α)
    (size : α) :
    (e.updateReverbSize size).reverbNode.bufferLength
      = e.sampleRate * (0.5 + (size / 100) * 3) := rfl

/-- C5: for a positive sample rate the impulse length computed by
`updateReverbSize(size)` is `sampleRate·(0.5 + (size/100)·3)`; it increases with
`size` (strictly, and hence monotonically, on [0, 100] as everywhere), is
`0.5·sampleRate` at size 0 and `3.5·sampleRate` at size 100. -/
theorem C5_reverb_impulse_length (e : EnhancedAudioEngine α) (hrate : 0 < e.sampleRate) :
    (∀ size : α, (e.updateReverbSize size).reverbNode.bufferLength
      = e.sampleRate * (0.5 + (size / 100) * 3)) ∧
    (∀ s₁ s₂ : α, s₁ ≤ s₂ →
      (e.updateReverbSize s₁).reverbNode.bufferLength
        ≤ (e.updateReverbSize s₂).reverbNode.bufferLength) ∧
    (∀ s₁ s₂ : α, s₁ < s₂ →
      (e.updateReverbSize s₁).reverbNode.bufferLength
        < (e.updateReverbSize s₂).reverbNode.bufferLength) ∧
    (e.updateReverbSize 0).reverbNode.bufferLength = 0.5 * e.sampleRate ∧
    (e.updateReverbSize 100).reverbNode.bufferLength = 3.5 * e.sampleRate := by
  refine ⟨fun size => rfl, fun s₁ s₂ h => ?_, fun s₁ s₂ h => ?_, ?_, ?_⟩
  · rw [EnhancedAudioEngine.updateReverbSize_bufferLength,
      EnhancedAudioEngine.updateReverbSize_bufferLength]
    apply mul_le_mul_of_nonneg_left _ hrate.le
    have : s₁ / 100 ≤ s₂ / 100 := div_le_div_of_nonneg_right h (by norm_num)
    linarith
  · rw [EnhancedAudioEngine.updateReverbSize_bufferLength,
      EnhancedAudioEngine.updateReverbSize_bufferLength]
    apply mul_lt_mul_of_pos_left _ hrate
    have : s₁ / 100 < s₂ / 100 := div_lt_div_of_pos_right h (by norm_num)
    linarith
  · rw [EnhancedAudioEngine.updateReverbSize_bufferLength]
    ring
  · rw [EnhancedAudioEngine.updateReverbSize_bufferLength]
    ring

/-- Witness for C5: at 44100 Hz, size 100 gives an impulse of 154350 samples. -/
theorem C5_reverb_impulse_length_witness :
    ((EnhancedAudioEngine.initialized
        ⟨Real.pi, Real.sqrt, fun y x => Complex.arg ⟨x, y⟩, fun b x => b ^ x⟩
        44100 0).updateReverbSize 100).reverbNode.bufferLength = 154350 := by
  have h := (C5_reverb_impulse_length
    (EnhancedAudioEngine.initialized
      ⟨Real.pi, Real.sqrt, fun y x => Complex.arg ⟨x, y⟩, fun b x => b ^ x⟩ 44100 0)
    (by simp [EnhancedAudioEngine.initialized, EnhancedAudioEngine.updateDistortion])).2.2.2.2
  rw [h]
  simp [EnhancedAudioEngine.initialized, EnhancedAudioEngine.updateDistortion]
  norm_num

/-- C6: whatever the engine state before (for instance the one "robot" leaves, which
differs), `applyVoiceEffect("normal")` leaves filter type "lowpass", filter frequency
2000, filter Q 1, pitch shift 0, distortion 0, vibrato speed 5 and vibrato depth 0, and
these are exactly the values a freshly initialized engine has. -/
theorem C6_normal_preset_is_full_reset (M : JSMath α) (e : EnhancedAudioEngine α)
    (sampleRate currentTime : α) :
    (EnhancedAudioEngine.applyVoiceEffect M e "normal").effectSettings
      = ("lowpass", 2000, 1, 0, 0, 5, 0) ∧
    (EnhancedAudioEngine.applyVoiceEffect M e "robot").effectSettings
      = ("bandpass", 800, 10, -2, 40, 0, e.adjustableParams.vibratoDepth) ∧
    (EnhancedAudioEngine.applyVoiceEffect M
        (EnhancedAudioEngine.applyVoiceEffect M e "robot") "normal").effectSettings
      = ("lowpass", 2000, 1, 0, 0, 5, 0) ∧
    ( EnhancedAudioEngine.initialized M sampleRate currentTime).effectSettings
      = ("lowpass", 2000, 1, 0, 0, 5, 0) :=
  ⟨rfl, rfl, rfl, rfl⟩

end ReverbPreset

/-! ## Gesture updates: percussion cooldown and the no-hand frame -/

section GestureUpdate

variable {α : Type} [LinearOrderedField α]

/-- The statements `updateFrequency` leaves alone: play state, sound mode, hit log. -/
theorem EnhancedAudioEngine.updateFrequency_hit_state (M : JSMath α)
    (e : EnhancedAudioEngine α) (p : α) :
    (EnhancedAudioEngine.updateFrequency M e p).isPlaying = e.isPlaying ∧
    (EnhancedAudioEngine.updateFrequency M e p).soundType = e.soundType ∧
    (EnhancedAudioEngine.updateFrequency M e p).percussionHits = e.percussionHits := by
  unfold EnhancedAudioEngine.updateFrequency
  dsimp only
  split <;> exact ⟨rfl, rfl, rfl⟩

/-- The method `updateFilter` leaves play state, sound mode and hit log alone. -/
theorem EnhancedAudioEngine.updateFilter_hit_state (e : EnhancedAudioEngine α) (v : α) :
    (e.updateFilter v).isPlaying = e.isPlaying ∧
    (e.updateFilter v).soundType = e.soundType ∧
    (e.updateFilter v).percussionHits = e.percussionHits := by
  unfold EnhancedAudioEngine.updateFilter
  dsimp only
  split <;> exact ⟨rfl, rfl, rfl⟩

/-- The three smoothing steps of the one-hand branch leave everything the percussion
gate reads as it was. -/
theorem EnhancedApp.steps_gate_state (M : JSMath α) (s : EnhancedApp α)
    (g : GestureState α) (target : α) :
    (EnhancedApp.stepFilter (EnhancedApp.stepPitch M (EnhancedApp.stepVolume s target) g)
        g).currentSoundType = s.currentSoundType ∧
    (EnhancedApp.stepFilter (EnhancedApp.stepPitch M (EnhancedApp.stepVolume s target) g)
        g).lastPercussionTime = s.lastPercussionTime ∧
    (EnhancedApp.stepFilter (EnhancedApp.stepPitch M (EnhancedApp.stepVolume s target) g)
        g).percussionCooldown = s.percussionCooldown ∧
    (EnhancedApp.stepFilter (EnhancedApp.stepPitch M (EnhancedApp.stepVolume s target) g)
        g).isRunning = s.isRunning ∧
    (EnhancedApp.stepFilter (EnhancedApp.stepPitch M (EnhancedApp.stepVolume s target) g)
        g).audioEngine.isPlaying = s.audioEngine.isPlaying ∧
    (EnhancedApp.stepFilter (EnhancedApp.stepPitch M (EnhancedApp.stepVolume s target) g)
        g).audioEngine.soundType = s.audioEngine.soundType ∧
    (EnhancedApp.stepFilter (EnhancedApp.stepPitch M (EnhancedApp.stepVolume s target) g)
        g).audioEngine.percussionHits = s.audioEngine.percussionHits := by
  refine ⟨rfl, rfl, rfl, rfl, ?_, ?_, ?_⟩
  · simp only [EnhancedApp.stepFilter, EnhancedApp.stepPitch, EnhancedApp.stepVolume,
      EnhancedAudioEngine.updatePitch,
      (EnhancedAudioEngine.updateFilter_hit_state _ _).1,
      (EnhancedAudioEngine.updateFrequency_hit_state M _ _).1]
    rfl
  · simp only [EnhancedApp.stepFilter, EnhancedApp.stepPitch, EnhancedApp.stepVolume,
      EnhancedAudioEngine.updatePitch,
      (EnhancedAudioEngine.updateFilter_hit_state _ _).2.1,
      (EnhancedAudioEngine.updateFrequency_hit_state M _ _).2.1]
    rfl
  · simp only [EnhancedApp.stepFilter, EnhancedApp.stepPitch, EnhancedApp.stepVolume,
      EnhancedAudioEngine.updatePitch,
      (EnhancedAudioEngine.updateFilter_hit_state _ _).2.2,
      (EnhancedAudioEngine.updateFrequency_hit_state M _ _).2.2]
    rfl

/-- One trigger request in a running percussion session with one open hand: the
session stays as it is, and a hit is fired (and its time remembered) exactly when more
than the cooldown has passed since the remembered time. -/
theorem EnhancedApp.handleGestureUpdate_percussion_request (M : JSMath α)
    (s : EnhancedApp α) (g : GestureState α) (now : α)
    (hrun : s.isRunning = true) (hmode : s.currentSoundType = "percussion")
    (hplay : s.audioEngine.isPlaying = true)
    (hengine : s.audioEngine.soundType = "percussion")
    (hcount : g.handCount = 1) (hpalm : g.palmOpenness > 0.7) :
    (EnhancedApp.handleGestureUpdate M s g now).isRunning = true ∧
    (EnhancedApp.handleGestureUpdate M s g now).currentSoundType = "percussion" ∧
    (EnhancedApp.handleGestureUpdate M s g now).percussionCooldown
      = s.percussionCooldown ∧
    (EnhancedApp.handleGestureUpdate M s g now).audioEngine.isPlaying = true ∧
    (EnhancedApp.handleGestureUpdate M s g now).audioEngine.soundType = "percussion" ∧
    (now - s.lastPercussionTime > s.percussionCooldown →
      (EnhancedApp.handleGestureUpdate M s g now).lastPercussionTime = now ∧
      (EnhancedApp.handleGestureUpdate M s g now).audioEngine.percussionHits.length
        = s.audioEngine.percussionHits.length + 1) ∧
    (¬ now - s.lastPercussionTime > s.percussionCooldown →
      (EnhancedApp.handleGestureUpdate M s g now).lastPercussionTime
        = s.lastPercussionTime ∧
      (EnhancedApp.handleGestureUpdate M s g now).audioEngine.percussionHits.length
        = s.audioEngine.percussionHits.length) := by
  obtain ⟨k1, k2, k3, k4, k5, k6, k7⟩ :=
    EnhancedApp.steps_gate_state M s g (EnhancedApp.mapGestureToParameter g.handHeight 0 1)
  have hstep : EnhancedApp.handleGestureUpdate M s g now
      = EnhancedApp.percussionGate
          (EnhancedApp.stepFilter (EnhancedApp.stepPitch M
            (EnhancedApp.stepVolume s (EnhancedApp.mapGestureToParameter g.handHeight 0 1))
            g) g) g now := by
    simp [EnhancedApp.handleGestureUpdate, hrun, hcount]
  rw [hstep]
  unfold EnhancedApp.percussionGate
  rw [if_pos ⟨k1.trans hmode, hpalm⟩, k2, k3]
  by_cases hgap : now - s.lastPercussionTime > s.percussionCooldown
  · rw [if_pos hgap]
    refine ⟨k4.trans hrun, k1.trans hmode, k3, ?_, ?_, fun _ => ⟨rfl, ?_⟩,
      fun h => absurd hgap h⟩
    · simp [EnhancedAudioEngine.triggerPercussionHit, k5, k6, hplay, hengine]
    · simp [EnhancedAudioEngine.triggerPercussionHit, k5, k6, hplay, hengine]
    · simp [EnhancedAudioEngine.triggerPercussionHit, k5, k6, k7, hplay, hengine]
  · rw [if_neg hgap]
    exact ⟨k4.trans hrun, k1.trans hmode, k3, k5.trans hplay, k6.trans hengine,
      fun h => absurd h hgap, fun _ => ⟨k2, by rw [k7]⟩⟩

/-- C4: in a running percussion session (application and engine both in mode
"percussion", engine playing, cooldown 200 ms), take two consecutive trigger requests
with one hand whose `palmOpenness` exceeds 0.7, at clock times `t` and `t + d`, the
first of which fires a hit.  Then the second fires a hit exactly when `d > 200`: with
`d = 100` there is one hit in total, with `d = 250` there are two, and two fired hits
are never 200 ms or less apart. -/
theorem C4_percussion_cooldown (M : JSMath α) (s : EnhancedApp α)
    (g₁ g₂ : GestureState α) (t d : α)
    (hrun : s.isRunning = true) (hmode : s.currentSoundType = "percussion")
    (hcool : s.percussionCooldown = 200)
    (hplay : s.audioEngine.isPlaying = true)
    (hengine : s.audioEngine.soundType = "percussion")
    (hcount₁ : g₁.handCount = 1) (hpalm₁ : g₁.palmOpenness > 0.7)
    (hcount₂ : g₂.handCount = 1) (hpalm₂ : g₂.palmOpenness > 0.7)
    (hfire : (EnhancedApp.handleGestureUpdate M s g₁ t).audioEngine.percussionHits.length
      = s.audioEngine.percussionHits.length + 1) :
    ((EnhancedApp.handleGestureUpdate M (EnhancedApp.handleGestureUpdate M s g₁ t) g₂
        (t + d)).audioEngine.percussionHits.length
      = s.audioEngine.percussionHits.length + 2 ↔ 200 < d) ∧
    ((EnhancedApp.handleGestureUpdate M (EnhancedApp.handleGestureUpdate M s g₁ t) g₂
        (t + d)).audioEngine.percussionHits.length
      = s.audioEngine.percussionHits.length + 1 ↔ d ≤ 200) ∧
    (d = 100 →
      (EnhancedApp.handleGestureUpdate M (EnhancedApp.handleGestureUpdate M s g₁ t) g₂
        (t + d)).audioEngine.percussionHits.length
      = s.audioEngine.percussionHits.length + 1) ∧
    (d = 250 →
      (EnhancedApp.handleGestureUpdate M (EnhancedApp.handleGestureUpdate M s g₁ t) g₂
        (t + d)).audioEngine.percussionHits.length
      = s.audioEngine.percussionHits.length + 2) := by
  obtain ⟨a1, a2, a3, a4, a5, a6, a7⟩ :=
    EnhancedApp.handleGestureUpdate_percussion_request M s g₁ t hrun hmode hplay hengine
      hcount₁ hpalm₁
  have hlast : (EnhancedApp.handleGestureUpdate M s g₁ t).lastPercussionTime = t := by
    by_cases hgap : t - s.lastPercussionTime > s.percussionCooldown
    · exact (a6 hgap).1
    · have := (a7 hgap).2
      omega
  obtain ⟨-, -, -, -, -, b6, b7⟩ :=
    EnhancedApp.handleGestureUpdate_percussion_request M
      (EnhancedApp.handleGestureUpdate M s g₁ t) g₂ (t + d) a1 a2 a4 a5 hcount₂ hpalm₂
  rw [hlast, a3, hcool, add_sub_cancel_left] at b6 b7
  have hyes : 200 < d →
      (EnhancedApp.handleGestureUpdate M (EnhancedApp.handleGestureUpdate M s g₁ t) g₂
        (t + d)).audioEngine.percussionHits.length
      = s.audioEngine.percussionHits.length + 2 := by
    intro h
    rw [(b6 h).2, hfire]
  have hno : d ≤ 200 →
      (EnhancedApp.handleGestureUpdate M (EnhancedApp.handleGestureUpdate M s g₁ t) g₂
        (t + d)).audioEngine.percussionHits.length
      = s.audioEngine.percussionHits.length + 1 := by
    intro h
    rw [(b7 (not_lt.mpr h)).2, hfire]
  refine ⟨⟨fun h => ?_, hyes⟩, ⟨fun h => ?_, hno⟩, fun h => hno ?_, fun h => hyes ?_⟩
  · by_contra hd
    have := hno (not_lt.mp hd)
    omega
  · by_contra hd
    have := hyes (not_le.mp hd)
    omega
  · rw [h]; norm_num
  · rw [h]; norm_num

/-- Witness for C4: in the sample session, requests at 1000 ms and 1100 ms give one
hit in total. -/
theorem C4_percussion_cooldown_witness :
    (EnhancedApp.handleGestureUpdate
      ⟨Real.pi, Real.sqrt, fun y x => Complex.arg ⟨x, y⟩, fun b x => b ^ x⟩
      (EnhancedApp.handleGestureUpdate
        ⟨Real.pi, Real.sqrt, fun y x => Complex.arg ⟨x, y⟩, fun b x => b ^ x⟩
        (EnhancedApp.percussionSession
          ⟨Real.pi, Real.sqrt, fun y x => Complex.arg ⟨x, y⟩, fun b x => b ^ x⟩)
        GestureState.openPalm 1000)
      GestureState.openPalm (1000 + 100)).audioEngine.percussionHits.length = 0 + 1 :=
  (C4_percussion_cooldown
    ⟨Real.pi, Real.sqrt, fun y x => Complex.arg ⟨x, y⟩, fun b x => b ^ x⟩
    (EnhancedApp.percussionSession
      ⟨Real.pi, Real.sqrt, fun y x => Complex.arg ⟨x, y⟩, fun b x => b ^ x⟩)
    GestureState.openPalm GestureState.openPalm 1000 100 rfl rfl rfl rfl rfl rfl
    (by norm_num [GestureState.openPalm]) rfl (by norm_num [GestureState.openPalm])
    ((EnhancedApp.handleGestureUpdate_percussion_request _ _ _ _ rfl rfl rfl rfl rfl
      (by norm_num [GestureState.openPalm])).2.2.2.2.2.1
      (by norm_num [EnhancedApp.percussionSession, EnhancedApp.new])).2).2.2.1 rfl

/-- A frame without hands in a running application is one volume step toward 0. -/
theorem EnhancedApp.handleGestureUpdate_no_hands (M : JSMath α) (s : EnhancedApp α)
    (g : GestureState α) (now : α) (hrun : s.isRunning = true) (hcount : g.handCount = 0) :
    EnhancedApp.handleGestureUpdate M s g now = EnhancedApp.stepVolume s 0 := by
  simp [EnhancedApp.handleGestureUpdate, hrun, hcount]

/-- C8: in a running application with the smoothing factors as constructed, a gesture
update with `handCount = 0` replaces the smoothed volume by
`smooth(0, volume, 0.15)` and leaves the smoothed pitch, filter and effect values and
the engine's pitch, filter and effectMix parameters unchanged. -/
theorem C8_no_hands_fades_volume_only (M : JSMath α) (s : EnhancedApp α)
    (g : GestureState α) (now : α) (hrun : s.isRunning = true) (hcount : g.handCount = 0)
    (hfactors : s.smoothingFactors = (EnhancedApp.new s.audioEngine).smoothingFactors) :
    (EnhancedApp.handleGestureUpdate M s g now).smoothedValues.volume
      = EnhancedApp.smooth 0 s.smoothedValues.volume 0.15 ∧
    (EnhancedApp.handleGestureUpdate M s g now).smoothedValues.pitch
      = s.smoothedValues.pitch ∧
    (EnhancedApp.handleGestureUpdate M s g now).smoothedValues.filter
      = s.smoothedValues.filter ∧
    (EnhancedApp.handleGestureUpdate M s g now).smoothedValues.effect
      = s.smoothedValues.effect ∧
    (EnhancedApp.handleGestureUpdate M s g now).audioEngine.parameters.pitch
      = s.audioEngine.parameters.pitch ∧
    (EnhancedApp.handleGestureUpdate M s g now).audioEngine.parameters.filter
      = s.audioEngine.parameters.filter ∧
    (EnhancedApp.handleGestureUpdate M s g now).audioEngine.parameters.effectMix
      = s.audioEngine.parameters.effectMix := by
  rw [EnhancedApp.handleGestureUpdate_no_hands M s g now hrun hcount]
  refine ⟨?_, rfl, rfl, rfl, rfl, rfl, rfl⟩
  show EnhancedApp.smooth 0 s.smoothedValues.volume s.smoothingFactors.volume = _
  rw [hfactors]
  rfl

/-- Witness for C8: the sample session with smoothed volume 0.8 fades to 0.68 on a
frame without hands. -/
theorem C8_no_hands_fades_volume_only_witness :
    (EnhancedApp.handleGestureUpdate
      ⟨Real.pi, Real.sqrt, fun y x => Complex.arg ⟨x, y⟩, fun b x => b ^ x⟩
      { EnhancedApp.percussionSession
          ⟨Real.pi, Real.sqrt, fun y x => Complex.arg ⟨x, y⟩, fun b x => b ^ x⟩ with
        smoothedValues := { volume := 0.8, pitch := 0.5, filter := 0.4, effect := 0.3 } }
      GestureState.noHands 1000).smoothedValues.volume = 0.68 :=
  (C8_no_hands_fades_volume_only
    ⟨Real.pi, Real.sqrt, fun y x => Complex.arg ⟨x, y⟩, fun b x => b ^ x⟩
    { EnhancedApp.percussionSession
        ⟨Real.pi, Real.sqrt, fun y x => Complex.arg ⟨x, y⟩, fun b x => b ^ x⟩ with
      smoothedValues := { volume := 0.8, pitch := 0.5, filter := 0.4, effect := 0.3 } }
    GestureState.noHands 1000 rfl rfl rfl).1.trans (by norm_num [EnhancedApp.smooth])

end GestureUpdate

/-! ## Gesture features: two-hand distance, rotation, movement speed -/

section GestureFeatures

/-- The two-hand distance `calculateGestureParameters` stores, for any reading of
`Math`. -/
theorem GestureDetector.calculateGestureParameters_twoHandsDistance {α : Type}
    [LinearOrderedField α] (M : JSMath α) (d : GestureDetector α)
    (primaryHand : HandLandmarks α) (allHands : List (HandLandmarks α)) :
    (GestureDetector.calculateGestureParameters M d primaryHand
        allHands).gestureState.twoHandsDistance
      = match allHands with
        | [hand1, hand2] =>
          min 1 (GestureDetector.calculateDistance M (GestureDetector.getHandCenter hand1)
            (GestureDetector.getHandCenter hand2) * 2)
        | _ => 0 := rfl

/-- C7: with `Math.sqrt` read as the real square root, for two hands
`calculateGestureParameters` sets `twoHandsDistance = min(1, 2·d)`, where `d` is the 3D
Euclidean distance between the two hand centroids and a centroid is the midpoint of
landmark 0 and landmark 9 (a missing depth counting as 0); so centroids exactly 0.5
apart give 1.  Whenever the number of hands is not 2 it sets `twoHandsDistance = 0`. -/
theorem C7_twoHandsDistance (M : JSMath ℝ) (hsqrt : ∀ x : ℝ, M.sqrt x = Real.sqrt x)
    (d : GestureDetector ℝ) (primaryHand : HandLandmarks ℝ)
    (allHands : List (HandLandmarks ℝ)) :
    (∀ hand1 hand2 : HandLandmarks ℝ, allHands = [hand1, hand2] →
      (GestureDetector.calculateGestureParameters M d primaryHand
          allHands).gestureState.twoHandsDistance
        = min 1 (2 * Real.sqrt
            ((((hand1 0).x + (hand1 9).x) / 2 - ((hand2 0).x + (hand2 9).x) / 2) ^ 2
            + (((hand1 0).y + (hand1 9).y) / 2 - ((hand2 0).y + (hand2 9).y) / 2) ^ 2
            + (((hand1 0).z.getD 0 + (hand1 9).z.getD 0) / 2
                - ((hand2 0).z.getD 0 + (hand2 9).z.getD 0) / 2) ^ 2)) ∧
      (Real.sqrt
            ((((hand1 0).x + (hand1 9).x) / 2 - ((hand2 0).x + (hand2 9).x) / 2) ^ 2
            + (((hand1 0).y + (hand1 9).y) / 2 - ((hand2 0).y + (hand2 9).y) / 2) ^ 2
            + (((hand1 0).z.getD 0 + (hand1 9).z.getD 0) / 2
                - ((hand2 0).z.getD 0 + (hand2 9).z.getD 0) / 2) ^ 2) = 0.5 →
        (GestureDetector.calculateGestureParameters M d primaryHand
          allHands).gestureState.twoHandsDistance = 1)) ∧
    (allHands.length ≠ 2 →
      (GestureDetector.calculateGestureParameters M d primaryHand
        allHands).gestureState.twoHandsDistance = 0) := by
  constructor
  · intro hand1 hand2 hall
    have hval : (GestureDetector.calculateGestureParameters M d primaryHand
          allHands).gestureState.twoHandsDistance
        = min 1 (2 * Real.sqrt
            ((((hand1 0).x + (hand1 9).x) / 2 - ((hand2 0).x + (hand2 9).x) / 2) ^ 2
            + (((hand1 0).y + (hand1 9).y) / 2 - ((hand2 0).y + (hand2 9).y) / 2) ^ 2
            + (((hand1 0).z.getD 0 + (hand1 9).z.getD 0) / 2
                - ((hand2 0).z.getD 0 + (hand2 9).z.getD 0) / 2) ^ 2)) := by
      rw [GestureDetector.calculateGestureParameters_twoHandsDistance, hall]
      simp only [GestureDetector.calculateDistance, GestureDetector.getHandCenter,
        Option.getD_some, hsqrt]
      rw [mul_comm]
      congr 3
      ring
    refine ⟨hval, fun hhalf => ?_⟩
    rw [hval, hhalf]
    norm_num
  · intro hlen
    rw [GestureDetector.calculateGestureParameters_twoHandsDistance]
    match allHands, hlen with
    | [], _ => rfl
    | [_], _ => rfl
    | [_, _], h => exact absurd rfl h
    | _ :: _ :: _ :: _, _ => rfl

/-- Witness for C7: two upright sample hands half a unit apart. -/
theorem C7_twoHandsDistance_witness :
    (GestureDetector.calculateGestureParameters
      ⟨Real.pi, Real.sqrt, fun y x => Complex.arg ⟨x, y⟩, fun b x => b ^ x⟩
      GestureDetector.new (HandLandmarks.upright 0)
      [HandLandmarks.upright 0, HandLandmarks.upright 0.5]).gestureState.twoHandsDistance
      = 1 := by
  refine ((C7_twoHandsDistance
    ⟨Real.pi, Real.sqrt, fun y x => Complex.arg ⟨x, y⟩, fun b x => b ^ x⟩
    (fun _ => rfl) GestureDetector.new (HandLandmarks.upright 0)
    [HandLandmarks.upright 0, HandLandmarks.upright 0.5]).1 _ _ rfl).2 ?_
  have h : ∀ (dx : ℝ), (HandLandmarks.upright dx 0).x = 0.2 + dx ∧
      (HandLandmarks.upright dx 9).x = 0.2 + dx ∧
      (HandLandmarks.upright dx 0).y = 0.8 ∧ (HandLandmarks.upright dx 9).y = 0.6 ∧
      (HandLandmarks.upright dx 0).z = some 0 ∧ (HandLandmarks.upright dx 9).z = some 0 :=
    fun dx => ⟨rfl, rfl, rfl, rfl, rfl, rfl⟩
  simp only [h, Option.getD_some]
  rw [show ((0.2 + 0 + (0.2 + 0)) / 2 - (0.2 + 0.5 + (0.2 + 0.5)) / 2 : ℝ) ^ 2
      + ((0.8 + 0.6) / 2 - (0.8 + 0.6) / 2) ^ 2 + ((0 + 0) / 2 - (0 + 0) / 2) ^ 2
      = 0.5 ^ 2 by norm_num]
  exact Real.sqrt_sq (by norm_num)

/-- The rotation `calculateGestureParameters` stores, for any reading of `Math`. -/
theorem GestureDetector.calculateGestureParameters_rotation {α : Type}
    [LinearOrderedField α] (M : JSMath α) (d : GestureDetector α)
    (primaryHand : HandLandmarks α) (allHands : List (HandLandmarks α)) :
    (GestureDetector.calculateGestureParameters M d primaryHand
        allHands).gestureState.rotation
      = (M.atan2 ((primaryHand 5).y - (primaryHand 17).y)
            ((primaryHand 5).x - (primaryHand 17).x) + M.PI) / (2 * M.PI) := rfl

/-- C9, as the code has it: with `Math.atan2(y, x)` read as the argument of `x + y·i`
and `Math.PI` as π, the rotation
`(atan2(indexBase.y − pinkyBase.y, indexBase.x − pinkyBase.x) + π)/(2π)` lies in the
closed interval [0, 1], and it is exactly 1 precisely when `indexBase.y = pinkyBase.y`
and `indexBase.x < pinkyBase.x`. -/
theorem C9_rotation_in_closed_unit_interval (M : JSMath ℝ)
    (hatan2 : ∀ y x : ℝ, M.atan2 y x = Complex.arg ⟨x, y⟩) (hpi : M.PI = Real.pi)
    (d : GestureDetector ℝ) (primaryHand : HandLandmarks ℝ)
    (allHands : List (HandLandmarks ℝ)) :
    0 ≤ (GestureDetector.calculateGestureParameters M d primaryHand
        allHands).gestureState.rotation ∧
    (GestureDetector.calculateGestureParameters M d primaryHand
        allHands).gestureState.rotation ≤ 1 ∧
    ((GestureDetector.calculateGestureParameters M d primaryHand
        allHands).gestureState.rotation = 1
      ↔ (primaryHand 5).y = (primaryHand 17).y ∧ (primaryHand 5).x < (primaryHand 17).x) := by
  rw [GestureDetector.calculateGestureParameters_rotation, hatan2, hpi]
  have hpos : (0 : ℝ) < 2 * Real.pi := by positivity
  have hlo := Complex.neg_pi_lt_arg
    ⟨(primaryHand 5).x - (primaryHand 17).x, (primaryHand 5).y - (primaryHand 17).y⟩
  have hhi := Complex.arg_le_pi
    ⟨(primaryHand 5).x - (primaryHand 17).x, (primaryHand 5).y - (primaryHand 17).y⟩
  refine ⟨div_nonneg (by linarith) hpos.le, (div_le_one hpos).mpr (by linarith), ?_⟩
  rw [div_eq_one_iff_eq hpos.ne']
  constructor
  · intro h
    have harg : Complex.arg ⟨(primaryHand 5).x - (primaryHand 17).x,
        (primaryHand 5).y - (primaryHand 17).y⟩ = Real.pi := by linarith
    obtain ⟨hre, him⟩ := Complex.arg_eq_pi_iff.mp harg
    exact ⟨sub_eq_zero.mp him, sub_neg.mp hre⟩
  · rintro ⟨hy, hx⟩
    have harg : Complex.arg ⟨(primaryHand 5).x - (primaryHand 17).x,
        (primaryHand 5).y - (primaryHand 17).y⟩ = Real.pi :=
      Complex.arg_eq_pi_iff.mpr ⟨sub_neg.mpr hx, sub_eq_zero.mpr hy⟩
    rw [harg]
    ring

/-- Witness for C9 as amended: the upright sample hand. -/
theorem C9_rotation_in_closed_unit_interval_witness :
    (GestureDetector.calculateGestureParameters
      ⟨Real.pi, Real.sqrt, fun y x => Complex.arg ⟨x, y⟩, fun b x => b ^ x⟩
      GestureDetector.new (HandLandmarks.upright 0)
      [HandLandmarks.upright 0]).gestureState.rotation ≤ 1 :=
  (C9_rotation_in_closed_unit_interval
    ⟨Real.pi, Real.sqrt, fun y x => Complex.arg ⟨x, y⟩, fun b x => b ^ x⟩
    (fun _ _ => rfl) rfl GestureDetector.new (HandLandmarks.upright 0)
    [HandLandmarks.upright 0]).2.1

/-- Counterexample to C9 as stated: for the upright sample hand, whose index and
little-finger knuckles are level with the index knuckle at the smaller `x`, the
rotation is exactly 1, outside [0, 1). -/
theorem C9_rotation_reaches_one :
    (GestureDetector.calculateGestureParameters
      ⟨Real.pi, Real.sqrt, fun y x => Complex.arg ⟨x, y⟩, fun b x => b ^ x⟩
      GestureDetector.new (HandLandmarks.upright 0)
      [HandLandmarks.upright 0]).gestureState.rotation = 1 ∧
    ¬ ((GestureDetector.calculateGestureParameters
      ⟨Real.pi, Real.sqrt, fun y x => Complex.arg ⟨x, y⟩, fun b x => b ^ x⟩
      GestureDetector.new (HandLandmarks.upright 0)
      [HandLandmarks.upright 0]).gestureState.rotation < 1) := by
  have h : (GestureDetector.calculateGestureParameters
      ⟨Real.pi, Real.sqrt, fun y x => Complex.arg ⟨x, y⟩, fun b x => b ^ x⟩
      GestureDetector.new (HandLandmarks.upright 0)
      [HandLandmarks.upright 0]).gestureState.rotation = 1 := by
    rw [GestureDetector.calculateGestureParameters_rotation]
    have hpos : (0 : ℝ) < 2 * Real.pi := by positivity
    have harg : Complex.arg ⟨(HandLandmarks.upright (0 : ℝ) 5).x
          - (HandLandmarks.upright (0 : ℝ) 17).x,
        (HandLandmarks.upright (0 : ℝ) 5).y - (HandLandmarks.upright (0 : ℝ) 17).y⟩
        = Real.pi := by
      rw [Complex.arg_eq_pi_iff]
      have h5 : (HandLandmarks.upright (0 : ℝ) 5).x = 0.15 + 0 := rfl
      have h17 : (HandLandmarks.upright (0 : ℝ) 17).x = 0.3 + 0 := rfl
      have k5 : (HandLandmarks.upright (0 : ℝ) 5).y = 0.6 := rfl
      have k17 : (HandLandmarks.upright (0 : ℝ) 17).y = 0.6 := rfl
      constructor
      · show (HandLandmarks.upright (0 : ℝ) 5).x - (HandLandmarks.upright (0 : ℝ) 17).x < 0
        rw [h5, h17]; norm_num
      · show (HandLandmarks.upright (0 : ℝ) 5).y - (HandLandmarks.upright (0 : ℝ) 17).y = 0
        rw [k5, k17]; norm_num
    show (Complex.arg ⟨(HandLandmarks.upright (0 : ℝ) 5).x
          - (HandLandmarks.upright (0 : ℝ) 17).x,
        (HandLandmarks.upright (0 : ℝ) 5).y - (HandLandmarks.upright (0 : ℝ) 17).y⟩
        + Real.pi) / (2 * Real.pi) = 1
    rw [harg, div_eq_one_iff_eq hpos.ne']
    ring
  exact ⟨h, by rw [h]; exact lt_irrefl 1⟩

/-- When the previous frame contained a hand, `processResults` sets the movement speed
from the distance between the current and the previous primary wrist. -/
theorem GestureDetector.processResults_movementSpeed_tracked {α : Type}
    [LinearOrderedField α] (M : JSMath α) (d : GestureDetector α)
    (prevHand : HandLandmarks α) (prevMore : List (HandLandmarks α))
    (hprev : d.previousHandData = some (prevHand :: prevMore))
    (primaryHand : HandLandmarks α) (moreHands : List (HandLandmarks α)) :
    (GestureDetector.processResults M d
        (some (primaryHand :: moreHands))).gestureState.movementSpeed
      = min 1 (GestureDetector.calculateDistance M (primaryHand 0) (prevHand 0) * 20) := by
  simp [GestureDetector.processResults, GestureDetector.calculateGestureParameters, hprev]

/-- When the previous frame contained no hand (no data, or an empty list),
`processResults` leaves the movement speed at the value it held before. -/
theorem GestureDetector.processResults_movementSpeed_stale {α : Type}
    [LinearOrderedField α] (M : JSMath α) (d : GestureDetector α)
    (hprev : d.previousHandData = none ∨ d.previousHandData = some [])
    (primaryHand : HandLandmarks α) (moreHands : List (HandLandmarks α)) :
    (GestureDetector.processResults M d
        (some (primaryHand :: moreHands))).gestureState.movementSpeed
      = d.gestureState.movementSpeed := by
  rcases hprev with h | h <;>
    simp [GestureDetector.processResults, GestureDetector.calculateGestureParameters, h]

/-- A frame without hands keeps the movement speed and records that no hand was seen. -/
theorem GestureDetector.processResults_none {α : Type} [LinearOrderedField α]
    (M : JSMath α) (d : GestureDetector α) :
    (GestureDetector.processResults M d none).gestureState.movementSpeed
      = d.gestureState.movementSpeed ∧
    (GestureDetector.processResults M d none).previousHandData = none ∧
    (GestureDetector.processResults M d none).gestureState.handCount = 0 :=
  ⟨rfl, rfl, rfl⟩

/-- C10, the code at the failing input: a hand is seen, moves by half a unit (movement
speed 1), is lost for one frame and is seen again at the same place.  The frame after
the loss has no previous frame with a hand, yet `movementSpeed` is still 1, not 0. -/
theorem C10_movementSpeed_stale_after_hands_lost :
    (GestureDetector.processResults
      ⟨Real.pi, Real.sqrt, fun y x => Complex.arg ⟨x, y⟩, fun b x => b ^ x⟩
      (GestureDetector.processResults
        ⟨Real.pi, Real.sqrt, fun y x => Complex.arg ⟨x, y⟩, fun b x => b ^ x⟩
        (GestureDetector.processResults
          ⟨Real.pi, Real.sqrt, fun y x => Complex.arg ⟨x, y⟩, fun b x => b ^ x⟩
          GestureDetector.new (some [HandLandmarks.upright 0]))
        (some [HandLandmarks.upright 0.5]))
      none).previousHandData = none ∧
    (GestureDetector.processResults
      ⟨Real.pi, Real.sqrt, fun y x => Complex.arg ⟨x, y⟩, fun b x => b ^ x⟩
      (GestureDetector.processResults
        ⟨Real.pi, Real.sqrt, fun y x => Complex.arg ⟨x, y⟩, fun b x => b ^ x⟩
        (GestureDetector.processResults
          ⟨Real.pi, Real.sqrt, fun y x => Complex.arg ⟨x, y⟩, fun b x => b ^ x⟩
          (GestureDetector.processResults
            ⟨Real.pi, Real.sqrt, fun y x => Complex.arg ⟨x, y⟩, fun b x => b ^ x⟩
            GestureDetector.new (some [HandLandmarks.upright 0]))
          (some [HandLandmarks.upright 0.5]))
        none)
      (some [HandLandmarks.upright 0.5])).gestureState.movementSpeed = 1 := by
  refine ⟨rfl, ?_⟩
  rw [GestureDetector.processResults_movementSpeed_stale _ _ (Or.inl rfl),
    (GestureDetector.processResults_none _ _).1,
    GestureDetector.processResults_movementSpeed_tracked _ _ (HandLandmarks.upright 0) []
      rfl]
  have hx : ∀ dx : ℝ, (HandLandmarks.upright dx 0).x = 0.2 + dx ∧
      (HandLandmarks.upright dx 0).y = 0.8 ∧ (HandLandmarks.upright dx 0).z = some 0 :=
    fun dx => ⟨rfl, rfl, rfl⟩
  simp only [GestureDetector.calculateDistance, hx, Option.getD_some]
  rw [show ((0.2 + 0.5 - (0.2 + 0)) * (0.2 + 0.5 - (0.2 + 0)) + (0.8 - 0.8) * (0.8 - 0.8)
      + (0 - 0) * (0 - 0) : ℝ) = 0.5 ^ 2 by norm_num, Real.sqrt_sq (by norm_num)]
  norm_num

end GestureFeatures

/-! ## Stopping and restarting -/

/-- What `stopVoiceMode()` amounts to: both references dropped, voice mode off. -/
theorem EnhancedAudioEngine.stopVoiceMode_eq {α : Type} (e : EnhancedAudioEngine α) :
    e.stopVoiceMode = { e with microphone := none, micStream := none, isVoiceMode := false } := by
  unfold EnhancedAudioEngine.stopVoiceMode
  cases hm : e.microphone <;> cases hs : e.micStream <;> simp [hm, hs]

/-- A loop of caught node errors never fails. -/
theorem EnhancedAudioEngine.forM_catching_ok {α : Type} (raises : OscillatorNode α → Bool)
    (nodes : List (OscillatorNode α)) :
    (nodes.forM fun node =>
      tryCatch (EnhancedAudioEngine.disconnectAndStop raises node) fun _ => pure ())
      = (Except.ok () : Except String Unit) := by
  induction nodes with
  | nil => rfl
  | cons node rest ih =>
    have hstep : ((node :: rest).forM fun node =>
        tryCatch (EnhancedAudioEngine.disconnectAndStop raises node) fun _ => pure ())
        = ((tryCatch (EnhancedAudioEngine.disconnectAndStop raises node) fun _ => pure ())
            >>= fun _ => rest.forM fun node =>
              tryCatch (EnhancedAudioEngine.disconnectAndStop raises node) fun _ => pure ()) :=
      rfl
    rw [hstep, ih]
    cases h : raises node <;> simp only [EnhancedAudioEngine.disconnectAndStop, h] <;> rfl

/-- Whichever nodes throw, `stopAllOscillators()` completes with both lists emptied. -/
theorem EnhancedAudioEngine.stopAllOscillatorsCatching_ok {α : Type}
    [LinearOrderedField α] (raises : OscillatorNode α → Bool) (e : EnhancedAudioEngine α) :
    EnhancedAudioEngine.stopAllOscillatorsCatching raises e
      = Except.ok e.stopAllOscillators := by
  unfold EnhancedAudioEngine.stopAllOscillatorsCatching
  rw [EnhancedAudioEngine.forM_catching_ok, EnhancedAudioEngine.forM_catching_ok]
  rfl

section StopRestart

variable {α : Type} [LinearOrderedField α]

/-- The state the engine's `stop()` leaves, field by field. -/
theorem EnhancedAudioEngine.stop_fields (e : EnhancedAudioEngine α) :
    e.stop.isPlaying = false ∧ e.stop.oscillators = [] ∧ e.stop.lfos = [] ∧
    e.stop.isVoiceMode = false ∧
    e.stop.microphone = (if e.isVoiceMode then none else e.microphone) ∧
    e.stop.micStream = (if e.isVoiceMode then none else e.micStream) ∧
    e.stop.percussionHits = e.percussionHits ∧
    e.stop.soundType = e.soundType := by
  unfold EnhancedAudioEngine.stop
  simp only [EnhancedAudioEngine.stopVoiceMode_eq, EnhancedAudioEngine.stopAllOscillators]
  cases hv : e.isVoiceMode <;> simp [hv]

/-- C19: for every engine state that holds a microphone source or input stream only
while in voice mode, after `stop()` the engine is not playing, the oscillator and LFO
lists are empty, voice mode is off and the microphone source and input stream
references are `null`; and this does not depend on which oscillator or LFO nodes throw
on `disconnect()`/`stop()`, since `stopAllOscillators()` completes with the same state
whichever of them do. -/
theorem C19_stop_releases_sources (e : EnhancedAudioEngine α)
    (hmic : e.MicOnlyInVoiceMode) :
    e.stop.isPlaying = false ∧ e.stop.oscillators = [] ∧ e.stop.lfos = [] ∧
    e.stop.isVoiceMode = false ∧ e.stop.microphone = none ∧ e.stop.micStream = none ∧
    ∀ (raises : OscillatorNode α → Bool) (e' : EnhancedAudioEngine α),
      EnhancedAudioEngine.stopAllOscillatorsCatching raises e'
        = Except.ok e'.stopAllOscillators := by
  obtain ⟨h1, h2, h3, h4, h5, h6, -, -⟩ := EnhancedAudioEngine.stop_fields e
  refine ⟨h1, h2, h3, h4, ?_, ?_, EnhancedAudioEngine.stopAllOscillatorsCatching_ok⟩
  · rw [h5]
    cases hv : e.isVoiceMode
    · simpa using (hmic hv).1
    · simp
  · rw [h6]
    cases hv : e.isVoiceMode
    · simpa using (hmic hv).2
    · simp

/-- Witness for C19: an engine put into voice mode with a captured stream, then
stopped. -/
theorem C19_stop_releases_sources_witness :
    ((EnhancedAudioEngine.initialized
        ⟨Real.pi, Real.sqrt, fun y x => Complex.arg ⟨x, y⟩, fun b x => b ^ x⟩
        44100 0).startVoiceMode (some { id := 7 })).1.stop.micStream = none :=
  (C19_stop_releases_sources
    ((EnhancedAudioEngine.initialized
      ⟨Real.pi, Real.sqrt, fun y x => Complex.arg ⟨x, y⟩, fun b x => b ^ x⟩
      44100 0).startVoiceMode (some { id := 7 })).1
    (fun h => Bool.noConfusion h)).2.2.2.2.2.1

/-- The engine's `start` does not touch voice mode or the microphone references. -/
theorem EnhancedAudioEngine.start_voice_fields [FloorRing α] (M : JSMath α)
    (random : ℕ → α) (e : EnhancedAudioEngine α) (soundType : String) :
    (EnhancedAudioEngine.start M random e soundType).isVoiceMode = e.isVoiceMode ∧
    (EnhancedAudioEngine.start M random e soundType).microphone = e.microphone ∧
    (EnhancedAudioEngine.start M random e soundType).micStream = e.micStream := by
  unfold EnhancedAudioEngine.start
  dsimp only
  split
  · split
    · exact ⟨rfl, rfl, rfl⟩
    · exact ⟨rfl, rfl, rfl⟩
    · unfold EnhancedAudioEngine.startPercussionSound EnhancedAudioEngine.updateFrequency
      dsimp only
      split <;> exact ⟨rfl, rfl, rfl⟩
    · exact ⟨rfl, rfl, rfl⟩
    · exact ⟨rfl, rfl, rfl⟩
    · exact ⟨rfl, rfl, rfl⟩
  · exact ⟨rfl, rfl, rfl⟩

/-- The methods that touch voice mode or the microphone references, and start-up, all
keep the references confined to voice mode. -/
theorem EnhancedAudioEngine.micOnlyInVoiceMode_kept [FloorRing α] (M : JSMath α)
    (random : ℕ → α) (e : EnhancedAudioEngine α) (h : e.MicOnlyInVoiceMode)
    (granted : Option MediaStream) (sampleRate currentTime : α) (soundType : String) :
    ( EnhancedAudioEngine.initialized M sampleRate currentTime).MicOnlyInVoiceMode ∧
    (e.startVoiceMode granted).1.MicOnlyInVoiceMode ∧
    e.stopVoiceMode.MicOnlyInVoiceMode ∧
    e.stop.MicOnlyInVoiceMode ∧
    (EnhancedAudioEngine.start M random e soundType).MicOnlyInVoiceMode ∧
    (EnhancedAudioEngine.initializeEngine M e sampleRate currentTime).MicOnlyInVoiceMode := by
  refine ⟨fun _ => ⟨rfl, rfl⟩, ?_, ?_, ?_, ?_, h⟩
  · cases granted with
    | none => exact h
    | some stream => exact fun hv => Bool.noConfusion hv
  · rw [EnhancedAudioEngine.stopVoiceMode_eq]
    exact fun _ => ⟨rfl, rfl⟩
  · obtain ⟨-, -, -, -, h5, h6, -, -⟩ := EnhancedAudioEngine.stop_fields e
    intro _
    rw [h5, h6]
    cases hv : e.isVoiceMode
    · simpa using h hv
    · simp
  · obtain ⟨k1, k2, k3⟩ := EnhancedAudioEngine.start_voice_fields M random e soundType
    intro hv
    rw [k2, k3]
    exact h (k1 ▸ hv)

/-- The application's `stop()` changes the running flag, the voice-mode flag and the
engine, and nothing else. -/
theorem EnhancedApp.stop_changes (s : EnhancedApp α) :
    s.stop.isRunning = false ∧ s.stop.isVoiceMode = false ∧
    s.stop.audioEngine = s.audioEngine.stop ∧
    s.stop.smoothedValues = s.smoothedValues ∧
    s.stop.smoothingFactors = s.smoothingFactors ∧
    s.stop.lastPercussionTime = s.lastPercussionTime ∧
    s.stop.percussionCooldown = s.percussionCooldown ∧
    s.stop.currentSoundType = s.currentSoundType :=
  ⟨rfl, rfl, rfl, rfl, rfl, rfl, rfl, rfl⟩

/-- The application's `start()` changes the running flag and the engine, and nothing
else. -/
theorem EnhancedApp.start_changes [FloorRing α] (M : JSMath α) (random : ℕ → α)
    (s : EnhancedApp α) (sampleRate currentTime : α) :
    (EnhancedApp.start M random s sampleRate currentTime).isRunning = true ∧
    (EnhancedApp.start M random s sampleRate currentTime).audioEngine
      = EnhancedAudioEngine.start M random
          (EnhancedAudioEngine.initializeEngine M s.audioEngine sampleRate currentTime)
          s.currentSoundType ∧
    (EnhancedApp.start M random s sampleRate currentTime).smoothedValues
      = s.smoothedValues ∧
    (EnhancedApp.start M random s sampleRate currentTime).smoothingFactors
      = s.smoothingFactors ∧
    (EnhancedApp.start M random s sampleRate currentTime).lastPercussionTime
      = s.lastPercussionTime ∧
    (EnhancedApp.start M random s sampleRate currentTime).percussionCooldown
      = s.percussionCooldown ∧
    (EnhancedApp.start M random s sampleRate currentTime).currentSoundType
      = s.currentSoundType :=
  ⟨rfl, rfl, rfl, rfl, rfl, rfl, rfl⟩

/-- Outside voice mode, starting in mode "percussion" leaves the engine playing in that
mode with the hit log as it was. -/
theorem EnhancedAudioEngine.start_percussion [FloorRing α] (M : JSMath α)
    (random : ℕ → α) (e : EnhancedAudioEngine α) (hvoice : e.isVoiceMode = false) :
    (EnhancedAudioEngine.start M random e "percussion").isPlaying = true ∧
    (EnhancedAudioEngine.start M random e "percussion").soundType = "percussion" ∧
    (EnhancedAudioEngine.start M random e "percussion").percussionHits
      = e.percussionHits := by
  have hstart : EnhancedAudioEngine.start M random e "percussion"
      = EnhancedAudioEngine.updateFrequency M
          { e with soundType := "percussion", isPlaying := true, oscillators := [],
                   lfos := [], baseFrequency := 100 } e.parameters.pitch := by
    simp [EnhancedAudioEngine.start, EnhancedAudioEngine.stopAllOscillators,
      EnhancedAudioEngine.startPercussionSound, hvoice]
  rw [hstart]
  obtain ⟨k1, k2, k3⟩ := EnhancedAudioEngine.updateFrequency_hit_state M
    { e with soundType := "percussion", isPlaying := true, oscillators := [],
             lfos := [], baseFrequency := 100 } e.parameters.pitch
  exact ⟨k1, k2, k3⟩

/-- A trigger request after `stop()` and a restart of a percussion session: the
remembered hit time has survived, so the request fires exactly when more than the
cooldown has passed since it. -/
theorem EnhancedApp.request_after_restart [FloorRing α] (M : JSMath α) (random : ℕ → α)
    (s : EnhancedApp α) (g : GestureState α) (now sampleRate currentTime : α)
    (hmode : s.currentSoundType = "percussion")
    (hcount : g.handCount = 1) (hpalm : g.palmOpenness > 0.7) :
    (EnhancedApp.start M random s.stop sampleRate currentTime).lastPercussionTime
      = s.lastPercussionTime ∧
    (EnhancedApp.start M random s.stop sampleRate currentTime).audioEngine.percussionHits
      = s.audioEngine.percussionHits ∧
    (now - s.lastPercussionTime > s.percussionCooldown →
      (EnhancedApp.handleGestureUpdate M
        (EnhancedApp.start M random s.stop sampleRate currentTime)
        g now).audioEngine.percussionHits.length
        = s.audioEngine.percussionHits.length + 1) ∧
    (¬ now - s.lastPercussionTime > s.percussionCooldown →
      (EnhancedApp.handleGestureUpdate M
        (EnhancedApp.start M random s.stop sampleRate currentTime)
        g now).audioEngine.percussionHits.length
        = s.audioEngine.percussionHits.length) := by
  obtain ⟨-, -, -, hvoice, -, -, hhits, -⟩ := EnhancedAudioEngine.stop_fields s.audioEngine
  have hv : (EnhancedAudioEngine.initializeEngine M s.stop.audioEngine sampleRate
      currentTime).isVoiceMode = false := hvoice
  have hengine : (EnhancedApp.start M random s.stop sampleRate currentTime).audioEngine
      = EnhancedAudioEngine.start M random
          (EnhancedAudioEngine.initializeEngine M s.stop.audioEngine sampleRate currentTime)
          "percussion" := by
    rw [(EnhancedApp.start_changes M random s.stop sampleRate currentTime).2.1]
    show EnhancedAudioEngine.start M random _ s.currentSoundType = _
    rw [hmode]
  obtain ⟨p1, p2, p3⟩ := EnhancedAudioEngine.start_percussion M random
    (EnhancedAudioEngine.initializeEngine M s.stop.audioEngine sampleRate currentTime) hv
  have hlog : (EnhancedApp.start M random s.stop sampleRate currentTime).audioEngine.percussionHits
      = s.audioEngine.percussionHits := by
    rw [hengine, p3]
    exact hhits
  obtain ⟨-, -, -, -, -, b6, b7⟩ :=
    EnhancedApp.handleGestureUpdate_percussion_request M
      (EnhancedApp.start M random s.stop sampleRate currentTime) g now rfl hmode
      (by rw [hengine]; exact p1) (by rw [hengine]; exact p2) hcount hpalm
  rw [hlog] at b6 b7
  exact ⟨rfl, hlog, fun h => (b6 h).2, fun h => (b7 h).2⟩

/-- A fired hit at time `t`, then `stop()` and a restart: the hit time is still
remembered, and a later request fires exactly when it comes more than 200 ms after
`t`. -/
theorem EnhancedApp.hit_then_restart [FloorRing α] (M : JSMath α) (random : ℕ → α)
    (s : EnhancedApp α) (g₁ g₂ : GestureState α) (t sampleRate currentTime : α)
    (hrun : s.isRunning = true) (hmode : s.currentSoundType = "percussion")
    (hcool : s.percussionCooldown = 200)
    (hplay : s.audioEngine.isPlaying = true)
    (hengine : s.audioEngine.soundType = "percussion")
    (hcount₁ : g₁.handCount = 1) (hpalm₁ : g₁.palmOpenness > 0.7)
    (hcount₂ : g₂.handCount = 1) (hpalm₂ : g₂.palmOpenness > 0.7)
    (hfire : (EnhancedApp.handleGestureUpdate M s g₁ t).audioEngine.percussionHits.length
      = s.audioEngine.percussionHits.length + 1) :
    (EnhancedApp.handleGestureUpdate M s g₁ t).stop.lastPercussionTime = t ∧
    (EnhancedApp.start M random (EnhancedApp.handleGestureUpdate M s g₁ t).stop
      sampleRate currentTime).lastPercussionTime = t ∧
    ∀ t' : α,
      ((EnhancedApp.handleGestureUpdate M
          (EnhancedApp.start M random (EnhancedApp.handleGestureUpdate M s g₁ t).stop
            sampleRate currentTime)
          g₂ t').audioEngine.percussionHits.length
        = s.audioEngine.percussionHits.length + 2 ↔ 200 < t' - t) ∧
      ((EnhancedApp.handleGestureUpdate M
          (EnhancedApp.start M random (EnhancedApp.handleGestureUpdate M s g₁ t).stop
            sampleRate currentTime)
          g₂ t').audioEngine.percussionHits.length
        = s.audioEngine.percussionHits.length + 1 ↔ t' - t ≤ 200) := by
  obtain ⟨-, a2, a3, -, -, a6, a7⟩ :=
    EnhancedApp.handleGestureUpdate_percussion_request M s g₁ t hrun hmode hplay hengine
      hcount₁ hpalm₁
  have hlast : (EnhancedApp.handleGestureUpdate M s g₁ t).lastPercussionTime = t := by
    by_cases hgap : t - s.lastPercussionTime > s.percussionCooldown
    · exact (a6 hgap).1
    · have := (a7 hgap).2
      omega
  refine ⟨hlast, hlast, fun t' => ?_⟩
  obtain ⟨-, -, r3, r4⟩ := EnhancedApp.request_after_restart M random
    (EnhancedApp.handleGestureUpdate M s g₁ t) g₂ t' sampleRate currentTime a2 hcount₂ hpalm₂
  rw [hlast, a3, hcool, hfire] at r3 r4
  constructor
  · constructor
    · intro h
      by_contra hd
      have := r4 hd
      omega
    · exact r3
  · constructor
    · intro h
      by_contra hd
      have := r3 (not_le.mp hd)
      omega
    · exact fun h => r4 (not_lt.mpr h)

/-- C12, as the code has it: `stop()` does not touch the percussion cooldown.  In a
running percussion session in which a hit fired at time `t`, the remembered hit time
survives `stop()` and a restart, and a trigger request at time `t'` after the restart
fires a hit exactly when `t' − t > 200`. -/
theorem C12_cooldown_survives_stop [FloorRing α] (M : JSMath α) (random : ℕ → α)
    (s : EnhancedApp α) (g₁ g₂ : GestureState α) (t sampleRate currentTime : α)
    (hrun : s.isRunning = true) (hmode : s.currentSoundType = "percussion")
    (hcool : s.percussionCooldown = 200)
    (hplay : s.audioEngine.isPlaying = true)
    (hengine : s.audioEngine.soundType = "percussion")
    (hcount₁ : g₁.handCount = 1) (hpalm₁ : g₁.palmOpenness > 0.7)
    (hcount₂ : g₂.handCount = 1) (hpalm₂ : g₂.palmOpenness > 0.7)
    (hfire : (EnhancedApp.handleGestureUpdate M s g₁ t).audioEngine.percussionHits.length
      = s.audioEngine.percussionHits.length + 1) :
    (EnhancedApp.handleGestureUpdate M s g₁ t).stop.lastPercussionTime = t ∧
    (EnhancedApp.start M random (EnhancedApp.handleGestureUpdate M s g₁ t).stop
      sampleRate currentTime).lastPercussionTime = t ∧
    ∀ t' : α,
      ((EnhancedApp.handleGestureUpdate M
          (EnhancedApp.start M random (EnhancedApp.handleGestureUpdate M s g₁ t).stop
            sampleRate currentTime)
          g₂ t').audioEngine.percussionHits.length
        = s.audioEngine.percussionHits.length + 2 ↔ 200 < t' - t) ∧
      ((EnhancedApp.handleGestureUpdate M
          (EnhancedApp.start M random (EnhancedApp.handleGestureUpdate M s g₁ t).stop
            sampleRate currentTime)
          g₂ t').audioEngine.percussionHits.length
        = s.audioEngine.percussionHits.length + 1 ↔ t' - t ≤ 200) :=
  EnhancedApp.hit_then_restart M random s g₁ g₂ t sampleRate currentTime hrun hmode hcool
    hplay hengine hcount₁ hpalm₁ hcount₂ hpalm₂ hfire

/-- The first request of the sample session, at 1000 ms, fires a hit. -/
theorem EnhancedApp.percussionSession_first_hit (M : JSMath ℝ) :
    (EnhancedApp.handleGestureUpdate M (EnhancedApp.percussionSession M)
        GestureState.openPalm 1000).audioEngine.percussionHits.length
      = (EnhancedApp.percussionSession M).audioEngine.percussionHits.length + 1 :=
  ((EnhancedApp.handleGestureUpdate_percussion_request M (EnhancedApp.percussionSession M)
      GestureState.openPalm 1000 rfl rfl rfl rfl rfl
      (by norm_num [GestureState.openPalm])).2.2.2.2.2.1
    (by norm_num [EnhancedApp.percussionSession, EnhancedApp.new])).2

/-- Witness for C12 as amended: sample session, hit at 1000 ms, stop, restart, request
at 1300 ms: a second hit. -/
theorem C12_cooldown_survives_stop_witness :
    (EnhancedApp.handleGestureUpdate
      ⟨Real.pi, Real.sqrt, fun y x => Complex.arg ⟨x, y⟩, fun b x => b ^ x⟩
      (EnhancedApp.start
        ⟨Real.pi, Real.sqrt, fun y x => Complex.arg ⟨x, y⟩, fun b x => b ^ x⟩
        (fun _ => 0)
        (EnhancedApp.handleGestureUpdate
          ⟨Real.pi, Real.sqrt, fun y x => Complex.arg ⟨x, y⟩, fun b x => b ^ x⟩
          (EnhancedApp.percussionSession
            ⟨Real.pi, Real.sqrt, fun y x => Complex.arg ⟨x, y⟩, fun b x => b ^ x⟩)
          GestureState.openPalm 1000).stop
        44100 0)
      GestureState.openPalm 1300).audioEngine.percussionHits.length = 0 + 2 :=
  ((C12_cooldown_survives_stop
    ⟨Real.pi, Real.sqrt, fun y x => Complex.arg ⟨x, y⟩, fun b x => b ^ x⟩ (fun _ => 0)
    (EnhancedApp.percussionSession
      ⟨Real.pi, Real.sqrt, fun y x => Complex.arg ⟨x, y⟩, fun b x => b ^ x⟩)
    GestureState.openPalm GestureState.openPalm 1000 44100 0 rfl rfl rfl rfl rfl rfl
    (by norm_num [GestureState.openPalm]) rfl (by norm_num [GestureState.openPalm])
    (EnhancedApp.percussionSession_first_hit _)).2.2 1300).1.mpr (by norm_num)

/-- Counterexample to C12 as stated: in the sample session a hit fires at 1000 ms, the
application is stopped and restarted, and the trigger request at 1100 ms fires no hit:
the log still holds the one hit. -/
theorem C12_request_soon_after_restart_fires_nothing :
    (EnhancedApp.handleGestureUpdate
      ⟨Real.pi, Real.sqrt, fun y x => Complex.arg ⟨x, y⟩, fun b x => b ^ x⟩
      (EnhancedApp.percussionSession
        ⟨Real.pi, Real.sqrt, fun y x => Complex.arg ⟨x, y⟩, fun b x => b ^ x⟩)
      GestureState.openPalm 1000).audioEngine.percussionHits.length = 1 ∧
    (EnhancedApp.handleGestureUpdate
      ⟨Real.pi, Real.sqrt, fun y x => Complex.arg ⟨x, y⟩, fun b x => b ^ x⟩
      (EnhancedApp.start
        ⟨Real.pi, Real.sqrt, fun y x => Complex.arg ⟨x, y⟩, fun b x => b ^ x⟩
        (fun _ => 0)
        (EnhancedApp.handleGestureUpdate
          ⟨Real.pi, Real.sqrt, fun y x => Complex.arg ⟨x, y⟩, fun b x => b ^ x⟩
          (EnhancedApp.percussionSession
            ⟨Real.pi, Real.sqrt, fun y x => Complex.arg ⟨x, y⟩, fun b x => b ^ x⟩)
          GestureState.openPalm 1000).stop
        44100 0)
      GestureState.openPalm 1100).audioEngine.percussionHits.length = 1 :=
  ⟨EnhancedApp.percussionSession_first_hit _,
    ((EnhancedApp.hit_then_restart
      ⟨Real.pi, Real.sqrt, fun y x => Complex.arg ⟨x, y⟩, fun b x => b ^ x⟩ (fun _ => 0)
      (EnhancedApp.percussionSession
        ⟨Real.pi, Real.sqrt, fun y x => Complex.arg ⟨x, y⟩, fun b x => b ^ x⟩)
      GestureState.openPalm GestureState.openPalm 1000 44100 0 rfl rfl rfl rfl rfl rfl
      (by norm_num [GestureState.openPalm]) rfl (by norm_num [GestureState.openPalm])
      (EnhancedApp.percussionSession_first_hit _)).2.2 1100).2.mpr (by norm_num)⟩

/-- C11, as the code has it: `stop()` leaves the smoothed parameters (volume, pitch,
filter, effect) at the values they had, and so does a restart; the first gesture update
after the restart therefore smooths from those values: with no hand the smoothed volume
becomes `smooth(0, old volume, factor)`, with one or two hands
`smooth(target, old volume, factor)`. -/
theorem C11_stop_keeps_smoothed_values [FloorRing α] (M : JSMath α) (random : ℕ → α)
    (s : EnhancedApp α) (sampleRate currentTime : α) (g : GestureState α) (now : α) :
    s.stop.smoothedValues = s.smoothedValues ∧
    (EnhancedApp.start M random s.stop sampleRate currentTime).smoothedValues
      = s.smoothedValues ∧
    (g.handCount = 0 →
      (EnhancedApp.handleGestureUpdate M
        (EnhancedApp.start M random s.stop sampleRate currentTime)
        g now).smoothedValues.volume
      = EnhancedApp.smooth 0 s.smoothedValues.volume s.smoothingFactors.volume) ∧
    (g.handCount = 1 ∨ g.handCount = 2 →
      (EnhancedApp.handleGestureUpdate M
        (EnhancedApp.start M random s.stop sampleRate currentTime)
        g now).smoothedValues.volume
      = EnhancedApp.smooth (EnhancedApp.mapGestureToParameter g.handHeight 0 1)
          s.smoothedValues.volume s.smoothingFactors.volume) := by
  refine ⟨rfl, rfl, fun h0 => ?_, fun h12 => ?_⟩
  · rw [EnhancedApp.handleGestureUpdate_no_hands M _ g now rfl h0]
    rfl
  · rcases h12 with h | h
    · have hstep : EnhancedApp.handleGestureUpdate M
          (EnhancedApp.start M random s.stop sampleRate currentTime) g now
          = EnhancedApp.percussionGate
              (EnhancedApp.stepFilter (EnhancedApp.stepPitch M
                (EnhancedApp.stepVolume
                  (EnhancedApp.start M random s.stop sampleRate currentTime)
                  (EnhancedApp.mapGestureToParameter g.handHeight 0 1)) g) g) g now := by
        simp [EnhancedApp.handleGestureUpdate, h, EnhancedApp.start]
      rw [hstep]
      unfold EnhancedApp.percussionGate
      split
      · split <;> rfl
      · rfl
    · have hstep : EnhancedApp.handleGestureUpdate M
          (EnhancedApp.start M random s.stop sampleRate currentTime) g now
          = EnhancedApp.stepEffect
              (EnhancedApp.stepFilter (EnhancedApp.stepPitch M
                (EnhancedApp.stepVolume
                  (EnhancedApp.start M random s.stop sampleRate currentTime)
                  (EnhancedApp.mapGestureToParameter g.handHeight 0 1)) g) g) g := by
        simp [EnhancedApp.handleGestureUpdate, h, EnhancedApp.start]
      rw [hstep]
      rfl

/-- Counterexample to C11 as stated: stopping the sample session in use leaves the
smoothed volume at 0.8 (and pitch, filter, effect at 0.5, 0.4, 0.3), not at 0. -/
theorem C11_smoothed_values_not_reset_by_stop :
    (EnhancedApp.percussionSessionInUse
      ⟨Real.pi, Real.sqrt, fun y x => Complex.arg ⟨x, y⟩, fun b x => b ^ x⟩).isRunning
      = true ∧
    (EnhancedApp.percussionSessionInUse
      ⟨Real.pi, Real.sqrt, fun y x => Complex.arg ⟨x, y⟩, fun b x => b ^ x⟩).stop.smoothedValues
      = { volume := 0.8, pitch := 0.5, filter := 0.4, effect := 0.3 } ∧
    (EnhancedApp.percussionSessionInUse
      ⟨Real.pi, Real.sqrt, fun y x => Complex.arg ⟨x, y⟩, fun b x => b ^ x⟩).stop.smoothedValues.volume
      ≠ 0 := by
  refine ⟨rfl, rfl, ?_⟩
  show (0.8 : ℝ) ≠ 0
  norm_num

end StopRestart

/-! ## Filter and effect-mix mapping -/

section FilterEffectMix

variable {α : Type} [LinearOrderedField α]

/-- C13: for `v` in [0, 1], when the current effect is "normal", `updateFilter(v)`
schedules the filter frequency target `200 + 7800·v` (within [200, 8000]) and sets Q to
`1 + 10·v` (within [1, 11]); for any other current effect it leaves the filter node's
type, frequency and Q as they were and only records `parameters.filter = v`. -/
theorem C13_updateFilter_only_in_normal (e : EnhancedAudioEngine α) (v : α)
    (h0 : 0 ≤ v) (h1 : v ≤ 1) :
    (e.updateFilter v).parameters.filter = v ∧
    (e.currentEffect = "normal" →
      (e.updateFilter v).filterNode.frequency.ramps
        = e.filterNode.frequency.ramps
          ++ [{ target := 200 + 7800 * v, endTime := e.currentTime + 0.05 }] ∧
      (e.updateFilter v).filterNode.frequency.lastTarget = some (200 + 7800 * v) ∧
      200 ≤ 200 + 7800 * v ∧ 200 + 7800 * v ≤ 8000 ∧
      (e.updateFilter v).filterNode.Q.value = 1 + 10 * v ∧
      1 ≤ 1 + 10 * v ∧ 1 + 10 * v ≤ 11) ∧
    (e.currentEffect ≠ "normal" →
      (e.updateFilter v).filterNode = e.filterNode ∧
      e.updateFilter v = { e with parameters := { e.parameters with filter := v } }) := by
  refine ⟨?_, fun hn => ?_, fun hn => ?_⟩
  · unfold EnhancedAudioEngine.updateFilter
    dsimp only
    split <;> rfl
  · have hupd : e.updateFilter v
        = { e with
            parameters := { e.parameters with filter := v }
            filterNode := { e.filterNode with
              frequency := e.filterNode.frequency.linearRampToValueAtTime
                (200 + (v * (8000 - 200))) (e.currentTime + 0.05)
              Q := e.filterNode.Q.setValue (1 + (v * 10)) } } := by
      simp [EnhancedAudioEngine.updateFilter, hn]
    have hfreq : (200 : α) + (v * (8000 - 200)) = 200 + 7800 * v := by ring
    rw [hupd]
    refine ⟨?_, ?_, by linarith, by linarith, ?_, by linarith, by linarith⟩
    · simp [AudioParam.linearRampToValueAtTime, hfreq]
    · simp [AudioParam.linearRampToValueAtTime, AudioParam.lastTarget, hfreq]
    · simp [AudioParam.setValue, mul_comm]
  · have hupd : e.updateFilter v
        = { e with parameters := { e.parameters with filter := v } } := by
      simp [EnhancedAudioEngine.updateFilter, hn]
    exact ⟨by rw [hupd], hupd⟩

/-- Witness for C13: the freshly initialized engine (effect "normal") at `v = 0.5`. -/
theorem C13_updateFilter_only_in_normal_witness :
    ((EnhancedAudioEngine.initialized
        ⟨Real.pi, Real.sqrt, fun y x => Complex.arg ⟨x, y⟩, fun b x => b ^ x⟩
        44100 0).updateFilter 0.5).filterNode.Q.value = 1 + 10 * 0.5 :=
  ((C13_updateFilter_only_in_normal
    (EnhancedAudioEngine.initialized
      ⟨Real.pi, Real.sqrt, fun y x => Complex.arg ⟨x, y⟩, fun b x => b ^ x⟩ 44100 0)
    0.5 (by norm_num) (by norm_num)).2.1 rfl).2.2.2.2.1

/-- C14: for `v` in [0, 1], `updateEffectMix(v)` schedules the dry gain target `1 − v`
and the wet gain target `v` (summing to 1), and sets the delay time to `0.1 + 0.4·v`
(within [0.1, 0.5]) and the feedback gain to `0.2 + 0.5·v` (within [0.2, 0.7]). -/
theorem C14_updateEffectMix (e : EnhancedAudioEngine α) (v : α)
    (h0 : 0 ≤ v) (h1 : v ≤ 1) :
    (e.updateEffectMix v).parameters.effectMix = v ∧
    (e.updateEffectMix v).dryGainNode.gain.ramps
      = e.dryGainNode.gain.ramps ++ [{ target := 1 - v, endTime := e.currentTime + 0.1 }] ∧
    (e.updateEffectMix v).wetGainNode.gain.ramps
      = e.wetGainNode.gain.ramps ++ [{ target := v, endTime := e.currentTime + 0.1 }] ∧
    (e.updateEffectMix v).dryGainNode.gain.lastTarget = some (1 - v) ∧
    (e.updateEffectMix v).wetGainNode.gain.lastTarget = some v ∧
    (1 - v) + v = 1 ∧
    (e.updateEffectMix v).delayNode.delayTime.value = 0.1 + 0.4 * v ∧
    0.1 ≤ (e.updateEffectMix v).delayNode.delayTime.value ∧
    (e.updateEffectMix v).delayNode.delayTime.value ≤ 0.5 ∧
    (e.updateEffectMix v).feedbackNode.gain.value = 0.2 + 0.5 * v ∧
    0.2 ≤ (e.updateEffectMix v).feedbackNode.gain.value ∧
    (e.updateEffectMix v).feedbackNode.gain.value ≤ 0.7 := by
  have hd : (e.updateEffectMix v).delayNode.delayTime.value = 0.1 + 0.4 * v := by
    show (0.1 : α) + (v * 0.4) = 0.1 + 0.4 * v
    ring
  have hf : (e.updateEffectMix v).feedbackNode.gain.value = 0.2 + 0.5 * v := by
    show (0.2 : α) + (v * 0.5) = 0.2 + 0.5 * v
    ring
  refine ⟨rfl, rfl, rfl, ?_, ?_, by ring, hd, ?_, ?_, hf, ?_, ?_⟩
  · simp [EnhancedAudioEngine.updateEffectMix, AudioParam.linearRampToValueAtTime,
      AudioParam.lastTarget]
  · simp [EnhancedAudioEngine.updateEffectMix, AudioParam.linearRampToValueAtTime,
      AudioParam.lastTarget]
  · rw [hd]; linarith
  · rw [hd]; norm_num; linarith
  · rw [hf]; linarith
  · rw [hf]; norm_num; linarith

/-- Witness for C14: the freshly initialized engine at `v = 0.5`. -/
theorem C14_updateEffectMix_witness :
    ((EnhancedAudioEngine.initialized
        ⟨Real.pi, Real.sqrt, fun y x => Complex.arg ⟨x, y⟩, fun b x => b ^ x⟩
        44100 0).updateEffectMix 0.5).feedbackNode.gain.value = 0.2 + 0.5 * 0.5 :=
  (C14_updateEffectMix
    (EnhancedAudioEngine.initialized
      ⟨Real.pi, Real.sqrt, fun y x => Complex.arg ⟨x, y⟩, fun b x => b ^ x⟩ 44100 0)
    0.5 (by norm_num) (by norm_num)).2.2.2.2.2.2.2.2.2.1

end FilterEffectMix

/-! ## Voice-effect presets -/

section Presets

variable {α : Type} [LinearOrderedField α]

/-- An effect name is one of the eight presets, or the `switch` does nothing. -/
theorem EnhancedAudioEngine.applyPreset_cases (M : JSMath α) (e : EnhancedAudioEngine α)
    (effectName : String) :
    effectName = "normal" ∨ effectName = "robot" ∨ effectName = "chipmunk" ∨
    effectName = "monster" ∨ effectName = "alien" ∨ effectName = "echo" ∨
    effectName = "underwater" ∨ effectName = "telephone" ∨
    EnhancedAudioEngine.applyPreset M e effectName = e := by
  unfold EnhancedAudioEngine.applyPreset
  split <;> simp

/-- Whatever the effect name, `applyVoiceEffect` changes the engine only in the
current effect name, the filter node, the adjustable parameters, the distortion curve,
the vibrato nodes, the delay, feedback, wet and dry nodes and the reverb node. -/
theorem EnhancedAudioEngine.applyVoiceEffect_frame (M : JSMath α)
    (e : EnhancedAudioEngine α) (effectName : String) :
    EnhancedAudioEngine.applyVoiceEffect M e effectName
      = { e with
          currentEffect := effectName
          filterNode := (EnhancedAudioEngine.applyVoiceEffect M e effectName).filterNode
          adjustableParams :=
            (EnhancedAudioEngine.applyVoiceEffect M e effectName).adjustableParams
          distortionNode :=
            (EnhancedAudioEngine.applyVoiceEffect M e effectName).distortionNode
          vibratoLFO := (EnhancedAudioEngine.applyVoiceEffect M e effectName).vibratoLFO
          vibratoGain := (EnhancedAudioEngine.applyVoiceEffect M e effectName).vibratoGain
          delayNode := (EnhancedAudioEngine.applyVoiceEffect M e effectName).delayNode
          feedbackNode := (EnhancedAudioEngine.applyVoiceEffect M e effectName).feedbackNode
          wetGainNode := (EnhancedAudioEngine.applyVoiceEffect M e effectName).wetGainNode
          dryGainNode := (EnhancedAudioEngine.applyVoiceEffect M e effectName).dryGainNode
          reverbNode := (EnhancedAudioEngine.applyVoiceEffect M e effectName).reverbNode } := by
  rcases EnhancedAudioEngine.applyPreset_cases M { e with currentEffect := effectName }
    effectName with h | h | h | h | h | h | h | h | h
  · subst h; rfl
  · subst h; rfl
  · subst h; rfl
  · subst h; rfl
  · subst h; rfl
  · subst h; rfl
  · subst h; rfl
  · subst h; rfl
  · unfold EnhancedAudioEngine.applyVoiceEffect
    dsimp only
    rw [h]
    rfl

/-- The feedback gain after `applyVoiceEffect`: 0.7 for "echo", unchanged otherwise. -/
theorem EnhancedAudioEngine.applyVoiceEffect_feedback (M : JSMath α)
    (e : EnhancedAudioEngine α) (effectName : String) :
    (EnhancedAudioEngine.applyVoiceEffect M e effectName).feedbackNode.gain.value = 0.7 ∨
    (EnhancedAudioEngine.applyVoiceEffect M e effectName).feedbackNode.gain.value
      = e.feedbackNode.gain.value := by
  rcases EnhancedAudioEngine.applyPreset_cases M { e with currentEffect := effectName }
    effectName with h | h | h | h | h | h | h | h | h
  · subst h; exact Or.inr rfl
  · subst h; exact Or.inr rfl
  · subst h; exact Or.inr rfl
  · subst h; exact Or.inr rfl
  · subst h; exact Or.inr rfl
  · subst h; exact Or.inl rfl
  · subst h; exact Or.inr rfl
  · subst h; exact Or.inr rfl
  · right
    unfold EnhancedAudioEngine.applyVoiceEffect
    dsimp only
    rw [h]
    rfl

/-- C15, as the code has it: each preset other than "normal" assigns a fixed subset of
filter type, filter frequency, filter Q, pitch shift, distortion amount, vibrato speed,
vibrato depth, delay time, feedback gain, wet gain and dry gain, and the fields of that
list it does not assign keep their prior values; "underwater" also sets the reverb size
to 80 and regenerates the reverb impulse, the six others leave reverb size and reverb
node alone; `harmonics` is never changed; and outside the preset fields, the reverb,
the recorded effect name and the recomputed distortion curve and vibrato node values,
the engine is as before. -/
theorem C15_presets_partial_overwrite (M : JSMath α) (e : EnhancedAudioEngine α) :
    (EnhancedAudioEngine.applyVoiceEffect M e "robot").presetFields
      = ( "bandpass", 800, 10, -2, 40, 0, e.adjustableParams.vibratoDepth
        , e.delayNode.delayTime.value, e.feedbackNode.gain.value
        , e.wetGainNode.gain.value, e.dryGainNode.gain.value ) ∧
    (EnhancedAudioEngine.applyVoiceEffect M e "chipmunk").presetFields
      = ( "highpass", 500, e.filterNode.Q.value, 12, 0, e.adjustableParams.vibratoSpeed
        , e.adjustableParams.vibratoDepth
        , e.delayNode.delayTime.value, e.feedbackNode.gain.value
        , e.wetGainNode.gain.value, e.dryGainNode.gain.value ) ∧
    (EnhancedAudioEngine.applyVoiceEffect M e "monster").presetFields
      = ( "lowpass", 300, e.filterNode.Q.value, -12, 60, 3, 50
        , e.delayNode.delayTime.value, e.feedbackNode.gain.value
        , e.wetGainNode.gain.value, e.dryGainNode.gain.value ) ∧
    (EnhancedAudioEngine.applyVoiceEffect M e "alien").presetFields
      = ( "bandpass", 1500, e.filterNode.Q.value, 7, 30, 15, 80
        , e.delayNode.delayTime.value, e.feedbackNode.gain.value
        , e.wetGainNode.gain.value, e.dryGainNode.gain.value ) ∧
    (EnhancedAudioEngine.applyVoiceEffect M e "echo").presetFields
      = ( e.filterNode.type, e.filterNode.frequency.value, e.filterNode.Q.value
        , e.adjustableParams.pitchShift, e.adjustableParams.distortion
        , e.adjustableParams.vibratoSpeed, e.adjustableParams.vibratoDepth
        , 0.5, 0.7, 0.8, 0.5 ) ∧
    (EnhancedAudioEngine.applyVoiceEffect M e "underwater").presetFields
      = ( "lowpass", 400, 5
        , e.adjustableParams.pitchShift, e.adjustableParams.distortion
        , e.adjustableParams.vibratoSpeed, e.adjustableParams.vibratoDepth
        , e.delayNode.delayTime.value, e.feedbackNode.gain.value
        , 0.7, e.dryGainNode.gain.value ) ∧
    (EnhancedAudioEngine.applyVoiceEffect M e "telephone").presetFields
      = ( "bandpass", 1000, 2
        , e.adjustableParams.pitchShift, 20
        , e.adjustableParams.vibratoSpeed, e.adjustableParams.vibratoDepth
        , e.delayNode.delayTime.value, e.feedbackNode.gain.value
        , e.wetGainNode.gain.value, e.dryGainNode.gain.value ) ∧
    (EnhancedAudioEngine.applyVoiceEffect M e "underwater").adjustableParams.reverbSize
      = 80 ∧
    (EnhancedAudioEngine.applyVoiceEffect M e "underwater").reverbNode
      = e.createReverb (80 / 100) ∧
    (∀ effectName ∈ ["robot", "chipmunk", "monster", "alien", "echo", "telephone"],
      (EnhancedAudioEngine.applyVoiceEffect M e effectName).adjustableParams.reverbSize
        = e.adjustableParams.reverbSize ∧
      (EnhancedAudioEngine.applyVoiceEffect M e effectName).reverbNode = e.reverbNode) ∧
    (∀ effectName ∈
        ["robot", "chipmunk", "monster", "alien", "echo", "underwater", "telephone"],
      (EnhancedAudioEngine.applyVoiceEffect M e effectName).adjustableParams.harmonics
        = e.adjustableParams.harmonics ∧
      EnhancedAudioEngine.applyVoiceEffect M e effectName
        = { e with
            currentEffect := effectName
            filterNode := (EnhancedAudioEngine.applyVoiceEffect M e effectName).filterNode
            adjustableParams :=
              (EnhancedAudioEngine.applyVoiceEffect M e effectName).adjustableParams
            distortionNode :=
              (EnhancedAudioEngine.applyVoiceEffect M e effectName).distortionNode
            vibratoLFO := (EnhancedAudioEngine.applyVoiceEffect M e effectName).vibratoLFO
            vibratoGain := (EnhancedAudioEngine.applyVoiceEffect M e effectName).vibratoGain
            delayNode := (EnhancedAudioEngine.applyVoiceEffect M e effectName).delayNode
            feedbackNode :=
              (EnhancedAudioEngine.applyVoiceEffect M e effectName).feedbackNode
            wetGainNode := (EnhancedAudioEngine.applyVoiceEffect M e effectName).wetGainNode
            dryGainNode := (EnhancedAudioEngine.applyVoiceEffect M e effectName).dryGainNode
            reverbNode :=
              (EnhancedAudioEngine.applyVoiceEffect M e effectName).reverbNode }) := by
  refine ⟨rfl, rfl, rfl, rfl, rfl, rfl, rfl, rfl, rfl, ?_, ?_⟩
  · intro effectName hmem
    simp only [List.mem_cons, List.mem_singleton, List.mem_nil_iff, or_false] at hmem
    rcases hmem with h | h | h | h | h | h <;> subst h <;> exact ⟨rfl, rfl⟩
  · intro effectName hmem
    refine ⟨?_, EnhancedAudioEngine.applyVoiceEffect_frame M e effectName⟩
    simp only [List.mem_cons, List.mem_singleton, List.mem_nil_iff, or_false] at hmem
    rcases hmem with h | h | h | h | h | h | h <;> subst h <;> rfl

/-- Counterexample to C15 as stated: on a freshly initialized engine the preset
"underwater" changes `reverbSize`, a field outside the listed set, from 50 to 80. -/
theorem C15_underwater_changes_reverbSize :
    ( EnhancedAudioEngine.initialized
        ⟨Real.pi, Real.sqrt, fun y x => Complex.arg ⟨x, y⟩, fun b x => b ^ x⟩
        44100 0).adjustableParams.reverbSize = 50 ∧
    (EnhancedAudioEngine.applyVoiceEffect
        ⟨Real.pi, Real.sqrt, fun y x => Complex.arg ⟨x, y⟩, fun b x => b ^ x⟩
        (EnhancedAudioEngine.initialized
          ⟨Real.pi, Real.sqrt, fun y x => Complex.arg ⟨x, y⟩, fun b x => b ^ x⟩ 44100 0)
        "underwater").adjustableParams.reverbSize = 80 ∧
    (EnhancedAudioEngine.applyVoiceEffect
        ⟨Real.pi, Real.sqrt, fun y x => Complex.arg ⟨x, y⟩, fun b x => b ^ x⟩
        (EnhancedAudioEngine.initialized
          ⟨Real.pi, Real.sqrt, fun y x => Complex.arg ⟨x, y⟩, fun b x => b ^ x⟩ 44100 0)
        "underwater").adjustableParams.reverbSize
      ≠ ( EnhancedAudioEngine.initialized
        ⟨Real.pi, Real.sqrt, fun y x => Complex.arg ⟨x, y⟩, fun b x => b ^ x⟩
        44100 0).adjustableParams.reverbSize := by
  refine ⟨rfl, rfl, ?_⟩
  show (80 : ℝ) ≠ 50
  norm_num

/-- C16: for every engine state and every effect name, after `applyVoiceEffect(name)`
the distortion curve is the one computed from `adjustableParams.distortion`, the vibrato
LFO frequency equals `adjustableParams.vibratoSpeed` and the vibrato gain equals
`adjustableParams.vibratoDepth / 10`. -/
theorem C16_effect_nodes_follow_params (M : JSMath α) (e : EnhancedAudioEngine α)
    (effectName : String) :
    (EnhancedAudioEngine.applyVoiceEffect M e effectName).distortionNode.curve
      = EnhancedAudioEngine.distortionCurve M
          (EnhancedAudioEngine.applyVoiceEffect M e effectName).adjustableParams.distortion ∧
    (EnhancedAudioEngine.applyVoiceEffect M e effectName).vibratoLFO.frequency.value
      = (EnhancedAudioEngine.applyVoiceEffect M e effectName).adjustableParams.vibratoSpeed ∧
    (EnhancedAudioEngine.applyVoiceEffect M e effectName).vibratoGain.gain.value
      = (EnhancedAudioEngine.applyVoiceEffect M e effectName).adjustableParams.vibratoDepth
          / 10 :=
  ⟨rfl, rfl, rfl⟩

end Presets

/-! ## Distortion curve -/

section Distortion

variable {α : Type} [LinearOrderedField α]

/-- The entry of the distortion curve at index `i`. -/
theorem EnhancedAudioEngine.distortionCurve_getElem? (M : JSMath α) (amount : α) (i : ℕ)
    (hi : i < 44100) :
    (EnhancedAudioEngine.distortionCurve M amount)[i]?
      = some (if amount / 100 = 0 then ((i : α) * 2) / 44100 - 1
          else ((3 + amount / 100) * (((i : α) * 2) / 44100 - 1) * 20 * (M.PI / 180))
            / (M.PI + amount / 100 * |((i : α) * 2) / 44100 - 1|)) := by
  unfold EnhancedAudioEngine.distortionCurve
  simp only [List.getElem?_map, List.getElem?_range hi, Option.map_some', Nat.cast_ofNat]

/-- C17: `updateDistortion(amount)` stores a curve of 44100 entries; for amount 0 it is
the identity curve, entry `i` being the input position `x_i = 2·i/44100 − 1`, and for
every amount `a ≠ 0` entry `i` is
`((3 + a/100)·x_i·20·π/180) / (π + (a/100)·|x_i|)` with `π = Math.PI`. -/
theorem C17_distortion_curve (M : JSMath α) (e : EnhancedAudioEngine α) (a : α) (i : ℕ)
    (hi : i < 44100) :
    (EnhancedAudioEngine.updateDistortion M e a).distortionNode.curve
      = EnhancedAudioEngine.distortionCurve M a ∧
    (EnhancedAudioEngine.updateDistortion M e a).distortionNode.curve.length = 44100 ∧
    (EnhancedAudioEngine.updateDistortion M e 0).distortionNode.curve[i]?
      = some (2 * (i : α) / 44100 - 1) ∧
    (a ≠ 0 →
      (EnhancedAudioEngine.updateDistortion M e a).distortionNode.curve[i]?
        = some (((3 + a / 100) * (2 * (i : α) / 44100 - 1) * 20 * M.PI / 180)
            / (M.PI + (a / 100) * |2 * (i : α) / 44100 - 1|))) := by
  have hx : ((i : α) * 2) / 44100 - 1 = 2 * (i : α) / 44100 - 1 := by ring
  refine ⟨rfl, ?_, ?_, fun ha => ?_⟩
  · show (EnhancedAudioEngine.distortionCurve M a).length = 44100
    unfold EnhancedAudioEngine.distortionCurve
    simp only [List.length_map, List.length_range]
  · show (EnhancedAudioEngine.distortionCurve M 0)[i]? = _
    rw [EnhancedAudioEngine.distortionCurve_getElem? M 0 i hi, if_pos (by simp), hx]
  · show (EnhancedAudioEngine.distortionCurve M a)[i]? = _
    have hne : a / 100 ≠ 0 := div_ne_zero ha (by norm_num)
    rw [EnhancedAudioEngine.distortionCurve_getElem? M a i hi, if_neg hne, hx]
    congr 2
    ring

/-- Witness for C17: entry 11025 of the identity curve is -1/2. -/
theorem C17_distortion_curve_witness :
    (EnhancedAudioEngine.updateDistortion
      ⟨Real.pi, Real.sqrt, fun y x => Complex.arg ⟨x, y⟩, fun b x => b ^ x⟩
      (EnhancedAudioEngine.initialized
        ⟨Real.pi, Real.sqrt, fun y x => Complex.arg ⟨x, y⟩, fun b x => b ^ x⟩ 44100 0)
      0).distortionNode.curve[11025]? = some (2 * ((11025 : ℕ) : ℝ) / 44100 - 1) :=
  (C17_distortion_curve
    ⟨Real.pi, Real.sqrt, fun y x => Complex.arg ⟨x, y⟩, fun b x => b ^ x⟩
    (EnhancedAudioEngine.initialized
      ⟨Real.pi, Real.sqrt, fun y x => Complex.arg ⟨x, y⟩, fun b x => b ^ x⟩ 44100 0)
    0 11025 (by norm_num)).2.2.1

end Distortion

/-! ## Synth partials -/

section SynthPartials

variable {α : Type} [LinearOrderedField α] [FloorRing α]

/-- Started on an empty oscillator list with a harmonics value of at least 1,
`startSynthSound` builds the synth partial series. -/
theorem EnhancedAudioEngine.startSynthSound_partials (e : EnhancedAudioEngine α)
    (hempty : e.oscillators = []) (hn : 1 ≤ e.adjustableParams.harmonics) :
    e.startSynthSound.HasSynthPartials e.adjustableParams.harmonics := by
  have hfloor : (1 : ℤ) ≤ ⌊e.adjustableParams.harmonics⌋ := Int.le_floor.mpr (by simpa using hn)
  have hcast : ((⌊e.adjustableParams.harmonics⌋.toNat : ℕ) : ℤ)
      = ⌊e.adjustableParams.harmonics⌋ := Int.toNat_of_nonneg (by linarith)
  have hosc : e.startSynthSound.oscillators
      = (List.range ⌊e.adjustableParams.harmonics⌋.toNat).map fun (i : ℕ) =>
          ({ type := if i = 0 then "sawtooth" else "sine"
             frequency := AudioParam.ofValue (e.currentFrequency * ((i : α) + 1))
             detune := AudioParam.ofValue 0
             gainStage := some { gain := AudioParam.ofValue ((1 / ((i : α) + 1)) * 0.3) } } :
            OscillatorNode α) := by
    simp [EnhancedAudioEngine.startSynthSound, hempty]
  refine ⟨?_, fun k hk hle => ?_⟩
  · rw [hosc, List.length_map, List.length_range, hcast]
  · have hlt : k - 1 < ⌊e.adjustableParams.harmonics⌋.toNat := by omega
    have hk' : ((k - 1 : ℕ) : α) + 1 = (k : α) := by
      rw [← Nat.cast_succ, Nat.succ_eq_add_one, Nat.sub_add_cancel hk]
    refine ⟨_, by rw [hosc, List.getElem?_map, List.getElem?_range hlt]; rfl, ?_, ?_, ?_⟩
    · show e.currentFrequency * (((k - 1 : ℕ) : α) + 1) = e.currentFrequency * (k : α)
      rw [hk']
    · show some ((1 / (((k - 1 : ℕ) : α) + 1)) * 0.3) = some (0.3 / (k : α))
      rw [hk']
      congr 1
      ring
    · show (if k - 1 = 0 then "sawtooth" else "sine") = if k = 1 then "sawtooth" else "sine"
      have : (k - 1 = 0) ↔ (k = 1) := by omega
      simp only [this]

/-- C18: outside voice mode, after `start("synth")` with harmonics `n ≥ 1`, and after
`updateHarmonics(n)` with `n ≥ 1` in sound mode "synth", the oscillator set has exactly
`floor(n)` partials; partial `k` (counted from 1) has frequency `currentFrequency · k`
and amplitude `0.3 / k`, the first is a sawtooth and every other one a sine. -/
theorem C18_synth_partials (M : JSMath α) (random : ℕ → α) (e : EnhancedAudioEngine α)
    (hvoice : e.isVoiceMode = false) :
    (1 ≤ e.adjustableParams.harmonics →
      (EnhancedAudioEngine.start M random e "synth").HasSynthPartials
        e.adjustableParams.harmonics ∧
      (EnhancedAudioEngine.start M random e "synth").currentFrequency
        = e.currentFrequency) ∧
    (∀ n : α, 1 ≤ n → e.soundType = "synth" →
      (e.updateHarmonics n).HasSynthPartials n ∧
      (e.updateHarmonics n).currentFrequency = e.currentFrequency) := by
  constructor
  · intro hn
    have hstart : EnhancedAudioEngine.start M random e "synth"
        = EnhancedAudioEngine.startSynthSound
            { e with soundType := "synth", isPlaying := true, oscillators := [], lfos := [] } := by
      simp [EnhancedAudioEngine.start, EnhancedAudioEngine.stopAllOscillators, hvoice]
    rw [hstart]
    exact ⟨EnhancedAudioEngine.startSynthSound_partials _ rfl hn, rfl⟩
  · intro n hn hsynth
    have hupd : e.updateHarmonics n
        = EnhancedAudioEngine.startSynthSound
            { e with adjustableParams := { e.adjustableParams with harmonics := n },
                     oscillators := [], lfos := [] } := by
      simp [EnhancedAudioEngine.updateHarmonics, EnhancedAudioEngine.stopAllOscillators,
        hvoice, hsynth]
    rw [hupd]
    exact ⟨EnhancedAudioEngine.startSynthSound_partials _ rfl hn, rfl⟩

/-- Witness for C18: the freshly initialized engine (harmonics 2) started in mode
"synth" has two partials. -/
theorem C18_synth_partials_witness :
    ((EnhancedAudioEngine.start
      ⟨Real.pi, Real.sqrt, fun y x => Complex.arg ⟨x, y⟩, fun b x => b ^ x⟩ (fun _ => 0)
      (EnhancedAudioEngine.initialized
        ⟨Real.pi, Real.sqrt, fun y x => Complex.arg ⟨x, y⟩, fun b x => b ^ x⟩ 44100 0)
      "synth").oscillators.length : ℤ) = ⌊(2 : ℝ)⌋ :=
  ((C18_synth_partials
    ⟨Real.pi, Real.sqrt, fun y x => Complex.arg ⟨x, y⟩, fun b x => b ^ x⟩ (fun _ => 0)
    (EnhancedAudioEngine.initialized
      ⟨Real.pi, Real.sqrt, fun y x => Complex.arg ⟨x, y⟩, fun b x => b ^ x⟩ 44100 0)
    rfl).1 (by
      show (1 : ℝ) ≤ 2
      norm_num)).1.1

end SynthPartials

/-! ## Feedback gain stays below 1 -/

section Feedback

variable {α : Type} [LinearOrderedField α]

/-- One effect call keeps the feedback gain within [0.2, 0.7], provided an effect-mix
value lies in [0, 1]. -/
theorem EnhancedAudioEngine.effectCall_feedback (M : JSMath α) (e : EnhancedAudioEngine α)
    (call : EffectCall α)
    (hvalid : ∀ v : α, call = EffectCall.updateEffectMix v → 0 ≤ v ∧ v ≤ 1)
    (hinv : 0.2 ≤ e.feedbackNode.gain.value ∧ e.feedbackNode.gain.value ≤ 0.7) :
    0.2 ≤ (EnhancedAudioEngine.effectCall M e call).feedbackNode.gain.value ∧
    (EnhancedAudioEngine.effectCall M e call).feedbackNode.gain.value ≤ 0.7 := by
  cases call with
  | applyVoiceEffect effectName =>
    show 0.2 ≤ (EnhancedAudioEngine.applyVoiceEffect M e effectName).feedbackNode.gain.value ∧
      (EnhancedAudioEngine.applyVoiceEffect M e effectName).feedbackNode.gain.value ≤ 0.7
    rcases EnhancedAudioEngine.applyVoiceEffect_feedback M e effectName with h | h
    · rw [h]; constructor <;> norm_num
    · rw [h]; exact hinv
  | updateEffectMix v =>
    obtain ⟨h0, h1⟩ := hvalid v rfl
    show (0.2 : α) ≤ 0.2 + (v * 0.5) ∧ (0.2 : α) + (v * 0.5) ≤ 0.7
    constructor
    · linarith
    · norm_num; linarith

/-- A sequence of effect calls keeps the feedback gain within [0.2, 0.7]. -/
theorem EnhancedAudioEngine.effectCalls_feedback (M : JSMath α)
    (calls : List (EffectCall α)) (e : EnhancedAudioEngine α)
    (hvalid : ∀ v : α, EffectCall.updateEffectMix v ∈ calls → 0 ≤ v ∧ v ≤ 1)
    (hinv : 0.2 ≤ e.feedbackNode.gain.value ∧ e.feedbackNode.gain.value ≤ 0.7) :
    0.2 ≤ (EnhancedAudioEngine.effectCalls M e calls).feedbackNode.gain.value ∧
    (EnhancedAudioEngine.effectCalls M e calls).feedbackNode.gain.value ≤ 0.7 := by
  induction calls generalizing e with
  | nil => exact hinv
  | cons call rest ih =>
    show 0.2 ≤ (EnhancedAudioEngine.effectCalls M
        (EnhancedAudioEngine.effectCall M e call) rest).feedbackNode.gain.value ∧
      (EnhancedAudioEngine.effectCalls M
        (EnhancedAudioEngine.effectCall M e call) rest).feedbackNode.gain.value ≤ 0.7
    apply ih
    · intro v hv
      exact hvalid v (List.mem_cons_of_mem _ hv)
    · apply EnhancedAudioEngine.effectCall_feedback M e call _ hinv
      intro v hv
      exact hvalid v (hv ▸ List.mem_cons_self _ _)

/-- C20: in every engine state reached from the initialized engine by a sequence of
`applyVoiceEffect` calls and `updateEffectMix(v)` calls with `v` in [0, 1], the feedback
gain of the delay→feedback loop lies in [0.2, 0.7], hence is strictly below 1. -/
theorem C20_feedback_gain_below_one (M : JSMath α) (sampleRate currentTime : α)
    (calls : List (EffectCall α))
    (hvalid : ∀ v : α, EffectCall.updateEffectMix v ∈ calls → 0 ≤ v ∧ v ≤ 1) :
    0.2 ≤ (EnhancedAudioEngine.effectCalls M
      ( EnhancedAudioEngine.initialized M sampleRate currentTime)
      calls).feedbackNode.gain.value ∧
    (EnhancedAudioEngine.effectCalls M
      ( EnhancedAudioEngine.initialized M sampleRate currentTime)
      calls).feedbackNode.gain.value ≤ 0.7 ∧
    (EnhancedAudioEngine.effectCalls M
      ( EnhancedAudioEngine.initialized M sampleRate currentTime)
      calls).feedbackNode.gain.value < 1 := by
  have hinit : (0.2 : α) ≤ ( EnhancedAudioEngine.initialized M sampleRate
        currentTime).feedbackNode.gain.value ∧
      ( EnhancedAudioEngine.initialized M sampleRate
        currentTime).feedbackNode.gain.value ≤ 0.7 := by
    show (0.2 : α) ≤ 0.4 ∧ (0.4 : α) ≤ 0.7
    constructor <;> norm_num
  obtain ⟨hlo, hhi⟩ := EnhancedAudioEngine.effectCalls_feedback M calls _ hvalid hinit
  refine ⟨hlo, hhi, lt_of_le_of_lt hhi ?_⟩
  norm_num

/-- Witness for C20: "echo", then an effect mix of 1, then "robot". -/
theorem C20_feedback_gain_below_one_witness :
    (EnhancedAudioEngine.effectCalls
      ⟨Real.pi, Real.sqrt, fun y x => Complex.arg ⟨x, y⟩, fun b x => b ^ x⟩
      ( EnhancedAudioEngine.initialized
        ⟨Real.pi, Real.sqrt, fun y x => Complex.arg ⟨x, y⟩, fun b x => b ^ x⟩ 44100 0)
      [EffectCall.applyVoiceEffect "echo", EffectCall.updateEffectMix 1,
        EffectCall.applyVoiceEffect "robot"]).feedbackNode.gain.value < 1 :=
  (C20_feedback_gain_below_one
    ⟨Real.pi, Real.sqrt, fun y x => Complex.arg ⟨x, y⟩, fun b x => b ^ x⟩ 44100 0
    [EffectCall.applyVoiceEffect "echo", EffectCall.updateEffectMix 1,
      EffectCall.applyVoiceEffect "robot"]
    (by
      intro v hv
      simp only [List.mem_cons, List.mem_singleton, List.mem_nil_iff, or_false,
        EffectCall.updateEffectMix.injEq, reduceCtorEq, false_or] at hv
      subst hv
      constructor <;> norm_num)).2.2

end Feedback

/-! ## Smoothed parameters stay in [0, 1] -/

section SmoothedRange

variable {α : Type} [LinearOrderedField α]

/-- The clamped target of `mapGestureToParameter(value, 0, 1)` lies in [0, 1]. -/
theorem EnhancedApp.mapGestureToParameter_unit (value : α) :
    0 ≤ EnhancedApp.mapGestureToParameter value 0 1 ∧
    EnhancedApp.mapGestureToParameter value 0 1 ≤ 1 := by
  unfold EnhancedApp.mapGestureToParameter
  simp only [sub_zero, mul_one, zero_add]
  exact ⟨le_max_left _ _, max_le zero_le_one (min_le_left _ _)⟩

/-- A smoothing step between two values of [0, 1] with a factor in [0, 1] stays in
[0, 1]. -/
theorem EnhancedApp.smooth_unit (target current factor : α)
    (ht : 0 ≤ target ∧ target ≤ 1) (hc : 0 ≤ current ∧ current ≤ 1)
    (hf : 0 ≤ factor ∧ factor ≤ 1) :
    0 ≤ EnhancedApp.smooth target current factor ∧
    EnhancedApp.smooth target current factor ≤ 1 := by
  have heq : EnhancedApp.smooth target current factor
      = (1 - factor) * current + factor * target := by
    unfold EnhancedApp.smooth
    ring
  rw [heq]
  constructor
  · have h1 : 0 ≤ (1 - factor) * current := mul_nonneg (by linarith) hc.1
    have h2 : 0 ≤ factor * target := mul_nonneg hf.1 ht.1
    linarith
  · have h1 : (1 - factor) * current ≤ (1 - factor) * 1 :=
      mul_le_mul_of_nonneg_left hc.2 (by linarith)
    have h2 : factor * target ≤ factor * 1 := mul_le_mul_of_nonneg_left ht.2 hf.1
    linarith

/-- The smoothed values and factors after one `handleGestureUpdate`: the factors are
untouched, and each smoothed value is either kept or replaced by a smoothing step
toward a clamped target (0 for the volume when no hand is seen). -/
theorem EnhancedApp.handleGestureUpdate_smoothed (M : JSMath α) (s : EnhancedApp α)
    (g : GestureState α) (now : α) :
    (EnhancedApp.handleGestureUpdate M s g now).smoothingFactors = s.smoothingFactors ∧
    ((EnhancedApp.handleGestureUpdate M s g now).smoothedValues.volume
        = s.smoothedValues.volume ∨
      (EnhancedApp.handleGestureUpdate M s g now).smoothedValues.volume
        = EnhancedApp.smooth 0 s.smoothedValues.volume s.smoothingFactors.volume ∨
      (EnhancedApp.handleGestureUpdate M s g now).smoothedValues.volume
        = EnhancedApp.smooth (EnhancedApp.mapGestureToParameter g.handHeight 0 1)
            s.smoothedValues.volume s.smoothingFactors.volume) ∧
    ((EnhancedApp.handleGestureUpdate M s g now).smoothedValues.pitch
        = s.smoothedValues.pitch ∨
      (EnhancedApp.handleGestureUpdate M s g now).smoothedValues.pitch
        = EnhancedApp.smooth (EnhancedApp.mapGestureToParameter g.pinchDistance 0 1)
            s.smoothedValues.pitch s.smoothingFactors.pitch) ∧
    ((EnhancedApp.handleGestureUpdate M s g now).smoothedValues.filter
        = s.smoothedValues.filter ∨
      (EnhancedApp.handleGestureUpdate M s g now).smoothedValues.filter
        = EnhancedApp.smooth (EnhancedApp.mapGestureToParameter g.rotation 0 1)
            s.smoothedValues.filter s.smoothingFactors.filter) ∧
    ((EnhancedApp.handleGestureUpdate M s g now).smoothedValues.effect
        = s.smoothedValues.effect ∨
      (EnhancedApp.handleGestureUpdate M s g now).smoothedValues.effect
        = EnhancedApp.smooth (EnhancedApp.mapGestureToParameter g.twoHandsDistance 0 1)
            s.smoothedValues.effect s.smoothingFactors.effect) := by
  unfold EnhancedApp.handleGestureUpdate
  split
  · exact ⟨rfl, Or.inl rfl, Or.inl rfl, Or.inl rfl, Or.inl rfl⟩
  · split
    · exact ⟨rfl, Or.inr (Or.inl rfl), Or.inl rfl, Or.inl rfl, Or.inl rfl⟩
    · split
      · dsimp only
        unfold EnhancedApp.percussionGate
        split
        · split
          · exact ⟨rfl, Or.inr (Or.inr rfl), Or.inr rfl, Or.inr rfl, Or.inl rfl⟩
          · exact ⟨rfl, Or.inr (Or.inr rfl), Or.inr rfl, Or.inr rfl, Or.inl rfl⟩
        · exact ⟨rfl, Or.inr (Or.inr rfl), Or.inr rfl, Or.inr rfl, Or.inl rfl⟩
      · split
        · exact ⟨rfl, Or.inr (Or.inr rfl), Or.inr rfl, Or.inr rfl, Or.inr rfl⟩
        · exact ⟨rfl, Or.inl rfl, Or.inl rfl, Or.inl rfl, Or.inl rfl⟩

/-- With the factors as constructed, one `handleGestureUpdate` keeps the factors and
keeps the smoothed values in [0, 1]. -/
theorem EnhancedApp.handleGestureUpdate_unit (M : JSMath α) (s : EnhancedApp α)
    (g : GestureState α) (now : α)
    (hfactors : s.smoothingFactors = (EnhancedApp.new s.audioEngine).smoothingFactors)
    (hunit : s.smoothedValues.InUnitRange) :
    (EnhancedApp.handleGestureUpdate M s g now).smoothingFactors
      = (EnhancedApp.new (EnhancedApp.handleGestureUpdate M s g now).audioEngine).smoothingFactors ∧
    (EnhancedApp.handleGestureUpdate M s g now).smoothedValues.InUnitRange := by
  obtain ⟨kf, kv, kp, kfi, ke⟩ := EnhancedApp.handleGestureUpdate_smoothed M s g now
  obtain ⟨hv, hp, hfi, he⟩ := hunit
  have fv : (0 : α) ≤ s.smoothingFactors.volume ∧ s.smoothingFactors.volume ≤ 1 := by
    rw [hfactors]; show (0 : α) ≤ 0.15 ∧ (0.15 : α) ≤ 1; constructor <;> norm_num
  have fp : (0 : α) ≤ s.smoothingFactors.pitch ∧ s.smoothingFactors.pitch ≤ 1 := by
    rw [hfactors]; show (0 : α) ≤ 0.2 ∧ (0.2 : α) ≤ 1; constructor <;> norm_num
  have ff : (0 : α) ≤ s.smoothingFactors.filter ∧ s.smoothingFactors.filter ≤ 1 := by
    rw [hfactors]; show (0 : α) ≤ 0.15 ∧ (0.15 : α) ≤ 1; constructor <;> norm_num
  have fe : (0 : α) ≤ s.smoothingFactors.effect ∧ s.smoothingFactors.effect ≤ 1 := by
    rw [hfactors]; show (0 : α) ≤ 0.1 ∧ (0.1 : α) ≤ 1; constructor <;> norm_num
  have zero_unit : (0 : α) ≤ 0 ∧ (0 : α) ≤ 1 := ⟨le_refl 0, zero_le_one⟩
  refine ⟨kf.trans hfactors, ?_, ?_, ?_, ?_⟩
  · rcases kv with h | h | h <;> rw [h]
    · exact hv
    · exact EnhancedApp.smooth_unit _ _ _ zero_unit hv fv
    · exact EnhancedApp.smooth_unit _ _ _ (EnhancedApp.mapGestureToParameter_unit _) hv fv
  · rcases kp with h | h <;> rw [h]
    · exact hp
    · exact EnhancedApp.smooth_unit _ _ _ (EnhancedApp.mapGestureToParameter_unit _) hp fp
  · rcases kfi with h | h <;> rw [h]
    · exact hfi
    · exact EnhancedApp.smooth_unit _ _ _ (EnhancedApp.mapGestureToParameter_unit _) hfi ff
  · rcases ke with h | h <;> rw [h]
    · exact he
    · exact EnhancedApp.smooth_unit _ _ _ (EnhancedApp.mapGestureToParameter_unit _) he fe

/-- A sequence of `handleGestureUpdate` calls keeps the smoothed values in [0, 1]. -/
theorem EnhancedApp.gestureUpdates_unit (M : JSMath α) (updates : List (GestureState α × α))
    (s : EnhancedApp α)
    (hfactors : s.smoothingFactors = (EnhancedApp.new s.audioEngine).smoothingFactors)
    (hunit : s.smoothedValues.InUnitRange) :
    (EnhancedApp.gestureUpdates M s updates).smoothedValues.InUnitRange := by
  induction updates generalizing s with
  | nil => exact hunit
  | cons u rest ih =>
    obtain ⟨h1, h2⟩ := EnhancedApp.handleGestureUpdate_unit M s u.1 u.2 hfactors hunit
    exact ih (EnhancedApp.handleGestureUpdate M s u.1 u.2) h1 h2

/-- C22: starting from the initial smoothed values (all 0) with the smoothing factors as
constructed, after any sequence of `handleGestureUpdate` calls, whatever the gesture
feature values (in or out of range), each smoothed parameter (volume, pitch, filter,
effect) lies in [0, 1]. -/
theorem C22_smoothed_values_stay_in_unit_range (M : JSMath α) (s : EnhancedApp α)
    (updates : List (GestureState α × α))
    (hfactors : s.smoothingFactors = (EnhancedApp.new s.audioEngine).smoothingFactors)
    (hstart : s.smoothedValues = (EnhancedApp.new s.audioEngine).smoothedValues) :
    (0 ≤ (EnhancedApp.gestureUpdates M s updates).smoothedValues.volume ∧
      (EnhancedApp.gestureUpdates M s updates).smoothedValues.volume ≤ 1) ∧
    (0 ≤ (EnhancedApp.gestureUpdates M s updates).smoothedValues.pitch ∧
      (EnhancedApp.gestureUpdates M s updates).smoothedValues.pitch ≤ 1) ∧
    (0 ≤ (EnhancedApp.gestureUpdates M s updates).smoothedValues.filter ∧
      (EnhancedApp.gestureUpdates M s updates).smoothedValues.filter ≤ 1) ∧
    (0 ≤ (EnhancedApp.gestureUpdates M s updates).smoothedValues.effect ∧
      (EnhancedApp.gestureUpdates M s updates).smoothedValues.effect ≤ 1) := by
  apply EnhancedApp.gestureUpdates_unit M updates s hfactors
  rw [hstart]
  exact ⟨⟨le_refl 0, zero_le_one⟩, ⟨le_refl 0, zero_le_one⟩, ⟨le_refl 0, zero_le_one⟩,
    ⟨le_refl 0, zero_le_one⟩⟩

/-- Witness for C22: the sample session through an open palm, a frame without hands
and a two-hand frame with out-of-range features. -/
theorem C22_smoothed_values_stay_in_unit_range_witness :
    (EnhancedApp.gestureUpdates
      ⟨Real.pi, Real.sqrt, fun y x => Complex.arg ⟨x, y⟩, fun b x => b ^ x⟩
      (EnhancedApp.percussionSession
        ⟨Real.pi, Real.sqrt, fun y x => Complex.arg ⟨x, y⟩, fun b x => b ^ x⟩)
      [(GestureState.openPalm, 1000), (GestureState.noHands, 1100),
        (GestureState.outOfRange, 1200)]).smoothedValues.effect ≤ 1 :=
  (C22_smoothed_values_stay_in_unit_range
    ⟨Real.pi, Real.sqrt, fun y x => Complex.arg ⟨x, y⟩, fun b x => b ^ x⟩
    (EnhancedApp.percussionSession
      ⟨Real.pi, Real.sqrt, fun y x => Complex.arg ⟨x, y⟩, fun b x => b ^ x⟩)
    [(GestureState.openPalm, 1000), (GestureState.noHands, 1100),
      (GestureState.outOfRange, 1200)] rfl rfl).2.2.2.2

end SmoothedRange

/-! ## Gesture features stay in [0, 1] -/

section GestureRange

/-- With the real square root, `calculateDistance` is never negative. -/
theorem GestureDetector.calculateDistance_nonneg (M : JSMath ℝ)
    (hsqrt : ∀ x : ℝ, M.sqrt x = Real.sqrt x) (p q : Landmark ℝ) :
    0 ≤ GestureDetector.calculateDistance M p q := by
  unfold GestureDetector.calculateDistance
  simp only [hsqrt]
  exact Real.sqrt_nonneg _

/-- With the real reading of `Math`, `calculateGestureParameters` on a primary hand
whose wrist height lies in [0, 1] leaves every gesture feature in [0, 1], provided the
movement speed was there before. -/
theorem GestureDetector.calculateGestureParameters_unit (M : JSMath ℝ)
    (hsqrt : ∀ x : ℝ, M.sqrt x = Real.sqrt x)
    (hatan2 : ∀ y x : ℝ, M.atan2 y x = Complex.arg ⟨x, y⟩) (hpi : M.PI = Real.pi)
    (d : GestureDetector ℝ) (primaryHand : HandLandmarks ℝ)
    (allHands : List (HandLandmarks ℝ))
    (hy : 0 ≤ (primaryHand 0).y ∧ (primaryHand 0).y ≤ 1)
    (hspeed : 0 ≤ d.gestureState.movementSpeed ∧ d.gestureState.movementSpeed ≤ 1) :
    (GestureDetector.calculateGestureParameters M d primaryHand
      allHands).gestureState.InUnitRange := by
  have hdist := GestureDetector.calculateDistance_nonneg M hsqrt
  have hpos : (0 : ℝ) < 2 * Real.pi := by positivity
  unfold GestureDetector.calculateGestureParameters GestureState.InUnitRange
  dsimp only
  refine ⟨⟨by linarith, by linarith⟩, ⟨le_max_left _ _, max_le zero_le_one (min_le_left _ _)⟩,
    ⟨?_, ?_⟩, ⟨?_, min_le_left _ _⟩, ⟨?_, ?_⟩, ⟨?_, ?_⟩⟩
  · rw [hatan2, hpi]
    have hlo := Complex.neg_pi_lt_arg
      ⟨(primaryHand 5).x - (primaryHand 17).x, (primaryHand 5).y - (primaryHand 17).y⟩
    exact div_nonneg (by linarith) hpos.le
  · rw [hatan2, hpi]
    have hhi := Complex.arg_le_pi
      ⟨(primaryHand 5).x - (primaryHand 17).x, (primaryHand 5).y - (primaryHand 17).y⟩
    exact (div_le_one hpos).mpr (by linarith)
  · apply le_min zero_le_one
    apply mul_nonneg _ (by norm_num)
    apply div_nonneg _ (Nat.cast_nonneg _)
    simp only [List.foldl]
    have h1 := hdist (primaryHand 4) (primaryHand 2)
    have h2 := hdist (primaryHand 8) (primaryHand 6)
    have h3 := hdist (primaryHand 12) (primaryHand 10)
    have h4 := hdist (primaryHand 16) (primaryHand 14)
    have h5 := hdist (primaryHand 20) (primaryHand 18)
    linarith
  · split
    · exact le_min zero_le_one (mul_nonneg (hdist _ _) (by norm_num))
    · exact le_refl 0
  · split
    · exact min_le_left _ _
    · exact zero_le_one
  · split
    · exact le_min zero_le_one (mul_nonneg (hdist _ _) (by norm_num))
    · exact hspeed.1
  · split
    · exact min_le_left _ _
    · exact hspeed.2

/-- With the real reading of `Math`, one `processResults` frame whose primary wrist
height lies in [0, 1] keeps every gesture feature in [0, 1]. -/
theorem GestureDetector.processResults_unit (M : JSMath ℝ)
    (hsqrt : ∀ x : ℝ, M.sqrt x = Real.sqrt x)
    (hatan2 : ∀ y x : ℝ, M.atan2 y x = Complex.arg ⟨x, y⟩) (hpi : M.PI = Real.pi)
    (d : GestureDetector ℝ) (frame : Option (List (HandLandmarks ℝ)))
    (hframe : ∀ hands, frame = some hands → ∀ hand ∈ hands,
      0 ≤ (hand 0).y ∧ (hand 0).y ≤ 1)
    (hunit : d.gestureState.InUnitRange) :
    (GestureDetector.processResults M d frame).gestureState.InUnitRange := by
  unfold GestureDetector.processResults
  dsimp only
  split
  · next primaryHand moreHands =>
    exact GestureDetector.calculateGestureParameters_unit M hsqrt hatan2 hpi _ primaryHand _
      (hframe _ rfl primaryHand (List.mem_cons_self _ _)) hunit.2.2.2.2.2
  · exact hunit

/-- With the real reading of `Math`, a sequence of frames with wrist heights in [0, 1]
keeps every gesture feature in [0, 1]. -/
theorem GestureDetector.processFrames_unit (M : JSMath ℝ)
    (hsqrt : ∀ x : ℝ, M.sqrt x = Real.sqrt x)
    (hatan2 : ∀ y x : ℝ, M.atan2 y x = Complex.arg ⟨x, y⟩) (hpi : M.PI = Real.pi)
    (frames : List (Option (List (HandLandmarks ℝ)))) (d : GestureDetector ℝ)
    (hframes : ∀ hands, some hands ∈ frames → ∀ hand ∈ hands,
      0 ≤ (hand 0).y ∧ (hand 0).y ≤ 1)
    (hunit : d.gestureState.InUnitRange) :
    (GestureDetector.processFrames M d frames).gestureState.InUnitRange := by
  induction frames generalizing d with
  | nil => exact hunit
  | cons frame rest ih =>
    apply ih (GestureDetector.processResults M d frame)
    · intro hands hmem
      exact hframes hands (List.mem_cons_of_mem _ hmem)
    · apply GestureDetector.processResults_unit M hsqrt hatan2 hpi d frame _ hunit
      intro hands hsome
      exact hframes hands (hsome ▸ List.mem_cons_self _ _)

/-- C21: with the real reading of `Math`, starting from the constructor's all-zero
gesture state, after any sequence of `processResults` frames whose landmark `x` and `y`
coordinates lie in [0, 1], each of `handHeight`, `pinchDistance`, `rotation`,
`palmOpenness`, `twoHandsDistance` and `movementSpeed` lies in [0, 1]. -/
theorem C21_gesture_features_in_unit_range (M : JSMath ℝ)
    (hsqrt : ∀ x : ℝ, M.sqrt x = Real.sqrt x)
    (hatan2 : ∀ y x : ℝ, M.atan2 y x = Complex.arg ⟨x, y⟩) (hpi : M.PI = Real.pi)
    (frames : List (Option (List (HandLandmarks ℝ))))
    (hframes : ∀ hands, some hands ∈ frames → ∀ hand ∈ hands, ∀ i : Fin 21,
      (0 ≤ (hand i).x ∧ (hand i).x ≤ 1) ∧ (0 ≤ (hand i).y ∧ (hand i).y ≤ 1)) :
    (0 ≤ (GestureDetector.processFrames M GestureDetector.new frames).gestureState.handHeight ∧
      (GestureDetector.processFrames M GestureDetector.new frames).gestureState.handHeight
        ≤ 1) ∧
    (0 ≤ (GestureDetector.processFrames M GestureDetector.new
        frames).gestureState.pinchDistance ∧
      (GestureDetector.processFrames M GestureDetector.new frames).gestureState.pinchDistance
        ≤ 1) ∧
    (0 ≤ (GestureDetector.processFrames M GestureDetector.new frames).gestureState.rotation ∧
      (GestureDetector.processFrames M GestureDetector.new frames).gestureState.rotation
        ≤ 1) ∧
    (0 ≤ (GestureDetector.processFrames M GestureDetector.new
        frames).gestureState.palmOpenness ∧
      (GestureDetector.processFrames M GestureDetector.new frames).gestureState.palmOpenness
        ≤ 1) ∧
    (0 ≤ (GestureDetector.processFrames M GestureDetector.new
        frames).gestureState.twoHandsDistance ∧
      (GestureDetector.processFrames M GestureDetector.new
        frames).gestureState.twoHandsDistance ≤ 1) ∧
    (0 ≤ (GestureDetector.processFrames M GestureDetector.new
        frames).gestureState.movementSpeed ∧
      (GestureDetector.processFrames M GestureDetector.new frames).gestureState.movementSpeed
        ≤ 1) := by
  apply GestureDetector.processFrames_unit M hsqrt hatan2 hpi frames GestureDetector.new
  · intro hands hmem hand hhand
    exact (hframes hands hmem hand hhand 0).2
  · exact ⟨⟨le_refl 0, zero_le_one⟩, ⟨le_refl 0, zero_le_one⟩, ⟨le_refl 0, zero_le_one⟩,
      ⟨le_refl 0, zero_le_one⟩, ⟨le_refl 0, zero_le_one⟩, ⟨le_refl 0, zero_le_one⟩⟩

/-- The upright sample hand lies within the frame for shifts between 0 and 0.7. -/
theorem HandLandmarks.upright_in_frame (dx : ℝ) (h0 : 0 ≤ dx) (h1 : dx ≤ 0.7)
    (i : Fin 21) :
    (0 ≤ (HandLandmarks.upright dx i).x ∧ (HandLandmarks.upright dx i).x ≤ 1) ∧
    (0 ≤ (HandLandmarks.upright dx i).y ∧ (HandLandmarks.upright dx i).y ≤ 1) := by
  unfold HandLandmarks.upright
  split <;> norm_num <;> constructor <;> linarith

/-- Witness for C21: a hand seen, moved, lost, and seen again together with a second
hand. -/
theorem C21_gesture_features_in_unit_range_witness :
    (GestureDetector.processFrames
      ⟨Real.pi, Real.sqrt, fun y x => Complex.arg ⟨x, y⟩, fun b x => b ^ x⟩
      GestureDetector.new
      [some [HandLandmarks.upright 0], some [HandLandmarks.upright 0.5], none,
        some [HandLandmarks.upright 0.5, HandLandmarks.upright 0]]).gestureState.movementSpeed
      ≤ 1 :=
  (C21_gesture_features_in_unit_range
    ⟨Real.pi, Real.sqrt, fun y x => Complex.arg ⟨x, y⟩, fun b x => b ^ x⟩
    (fun _ => rfl) (fun _ _ => rfl) rfl
    [some [HandLandmarks.upright 0], some [HandLandmarks.upright 0.5], none,
      some [HandLandmarks.upright 0.5, HandLandmarks.upright 0]]
    (by
      intro hands hmem hand hhand i
      have hup : hand = HandLandmarks.upright 0 ∨ hand = HandLandmarks.upright 0.5 := by
        simp only [List.mem_cons, Option.some.injEq, List.mem_singleton, List.mem_nil_iff,
          or_false, reduceCtorEq, false_or] at hmem
        rcases hmem with h | h | h <;> subst h <;>
          simp only [List.mem_cons, List.mem_singleton, List.mem_nil_iff, or_false] at hhand
        · exact Or.inl hhand
        · exact Or.inr hhand
        · exact hhand.symm
      rcases hup with h | h <;> subst h
      · exact HandLandmarks.upright_in_frame 0 (by norm_num) (by norm_num) i
      · exact HandLandmarks.upright_in_frame 0.5 (by norm_num) (by norm_num) i)).2.2.2.2.2.2

end GestureRange

/-! ## Mode switches rebuild the oscillator set -/

/-- In mode "percussion" `updateFrequency` changes nothing but the current frequency. -/
theorem EnhancedAudioEngine.updateFrequency_percussion {α : Type}
    [LinearOrderedField α] (M : JSMath α)
    (e : EnhancedAudioEngine α) (p : α) (hmode : e.soundType = "percussion") :
    EnhancedAudioEngine.updateFrequency M e p
      = { e with currentFrequency :=
            (EnhancedAudioEngine.updateFrequency M e p).currentFrequency } := by
  unfold EnhancedAudioEngine.updateFrequency
  simp [hmode]

section ModeSwitch

variable {α : Type} [LinearOrderedField α] [FloorRing α]

/-- Outside voice mode `start(soundType)` empties the oscillator and LFO lists and then
runs the `start…Sound` method of the mode. -/
theorem EnhancedAudioEngine.start_modes (M : JSMath α) (random : ℕ → α)
    (e : EnhancedAudioEngine α) (hvoice : e.isVoiceMode = false) :
    EnhancedAudioEngine.start M random e "synth"
      = EnhancedAudioEngine.startSynthSound
          { e with soundType := "synth", isPlaying := true, oscillators := [], lfos := [] } ∧
    EnhancedAudioEngine.start M random e "ambient"
      = EnhancedAudioEngine.startAmbientSound
          { e with soundType := "ambient", isPlaying := true, oscillators := [], lfos := [] } ∧
    EnhancedAudioEngine.start M random e "theremin"
      = EnhancedAudioEngine.startThereminSound
          { e with soundType := "theremin", isPlaying := true, oscillators := [], lfos := [] } ∧
    EnhancedAudioEngine.start M random e "choir"
      = EnhancedAudioEngine.startChoirSound random
          { e with soundType := "choir", isPlaying := true, oscillators := [], lfos := [] } ∧
    EnhancedAudioEngine.start M random e "percussion"
      = EnhancedAudioEngine.startPercussionSound M
          { e with soundType := "percussion", isPlaying := true, oscillators := [],
                   lfos := [] } := by
  refine ⟨?_, ?_, ?_, ?_, ?_⟩ <;>
    simp [EnhancedAudioEngine.start, EnhancedAudioEngine.stopAllOscillators, hvoice]

/-- C23: for every prior engine state not in voice mode, whatever oscillators and LFOs
it holds, after `start(mode)` the lists hold exactly the new set: `floor(harmonics)`
oscillators and no LFO for "synth", 6 and 6 for "ambient", 1 and 0 for "theremin", 8 and
8 for "choir", none for "percussion"; and for each of these modes the filter,
distortion, delay, feedback, reverb, dry-gain and wet-gain nodes are the ones the engine
had before the call. -/
theorem C23_start_rebuilds_oscillator_set (M : JSMath α) (random : ℕ → α)
    (e : EnhancedAudioEngine α) (hvoice : e.isVoiceMode = false) :
    ((EnhancedAudioEngine.start M random e "synth").oscillators.length
        = ⌊e.adjustableParams.harmonics⌋.toNat ∧
      (0 ≤ e.adjustableParams.harmonics →
        ((EnhancedAudioEngine.start M random e "synth").oscillators.length : ℤ)
          = ⌊e.adjustableParams.harmonics⌋) ∧
      (EnhancedAudioEngine.start M random e "synth").lfos.length = 0) ∧
    ((EnhancedAudioEngine.start M random e "ambient").oscillators.length = 6 ∧
      (EnhancedAudioEngine.start M random e "ambient").lfos.length = 6) ∧
    ((EnhancedAudioEngine.start M random e "theremin").oscillators.length = 1 ∧
      (EnhancedAudioEngine.start M random e "theremin").lfos.length = 0) ∧
    ((EnhancedAudioEngine.start M random e "choir").oscillators.length = 8 ∧
      (EnhancedAudioEngine.start M random e "choir").lfos.length = 8) ∧
    ((EnhancedAudioEngine.start M random e "percussion").oscillators.length = 0 ∧
      (EnhancedAudioEngine.start M random e "percussion").lfos.length = 0) ∧
    ∀ mode ∈ ["synth", "ambient", "theremin", "choir", "percussion"],
      (EnhancedAudioEngine.start M random e mode).filterNode = e.filterNode ∧
      (EnhancedAudioEngine.start M random e mode).distortionNode = e.distortionNode ∧
      (EnhancedAudioEngine.start M random e mode).delayNode = e.delayNode ∧
      (EnhancedAudioEngine.start M random e mode).feedbackNode = e.feedbackNode ∧
      (EnhancedAudioEngine.start M random e mode).reverbNode = e.reverbNode ∧
      (EnhancedAudioEngine.start M random e mode).dryGainNode = e.dryGainNode ∧
      (EnhancedAudioEngine.start M random e mode).wetGainNode = e.wetGainNode := by
  obtain ⟨hs, ha, ht, hc, hp⟩ := EnhancedAudioEngine.start_modes M random e hvoice
  have hperc : EnhancedAudioEngine.start M random e "percussion"
      = { ({ e with soundType := "percussion", isPlaying := true, oscillators := [],
                    lfos := [], baseFrequency := 100 } : EnhancedAudioEngine α) with
          currentFrequency :=
            (EnhancedAudioEngine.start M random e "percussion").currentFrequency } := by
    rw [hp]
    unfold EnhancedAudioEngine.startPercussionSound
    exact EnhancedAudioEngine.updateFrequency_percussion M
      { e with soundType := "percussion", isPlaying := true, oscillators := [],
               lfos := [], baseFrequency := 100 } _ rfl
  have hlen : (EnhancedAudioEngine.start M random e "synth").oscillators.length
      = ⌊e.adjustableParams.harmonics⌋.toNat := by
    rw [hs]
    simp [EnhancedAudioEngine.startSynthSound]
  refine ⟨⟨hlen, fun h0 => ?_, by rw [hs]; rfl⟩, ⟨by rw [ha]; rfl, by rw [ha]; rfl⟩,
    ⟨by rw [ht]; rfl, by rw [ht]; rfl⟩, ⟨by rw [hc]; rfl, by rw [hc]; rfl⟩,
    ⟨by rw [hperc]; rfl, by rw [hperc]; rfl⟩, ?_⟩
  · rw [hlen]
    exact Int.toNat_of_nonneg (Int.floor_nonneg.mpr h0)
  · intro mode hmem
    simp only [List.mem_cons, List.mem_singleton, List.mem_nil_iff, or_false] at hmem
    rcases hmem with h | h | h | h | h <;> subst h
    · rw [hs]; exact ⟨rfl, rfl, rfl, rfl, rfl, rfl, rfl⟩
    · rw [ha]; exact ⟨rfl, rfl, rfl, rfl, rfl, rfl, rfl⟩
    · rw [ht]; exact ⟨rfl, rfl, rfl, rfl, rfl, rfl, rfl⟩
    · rw [hc]; exact ⟨rfl, rfl, rfl, rfl, rfl, rfl, rfl⟩
    · rw [hperc]; exact ⟨rfl, rfl, rfl, rfl, rfl, rfl, rfl⟩

/-- Witness for C23: an engine already playing the eight choir voices, switched to
"ambient", holds six oscillators. -/
theorem C23_start_rebuilds_oscillator_set_witness :
    (EnhancedAudioEngine.start
      ⟨Real.pi, Real.sqrt, fun y x => Complex.arg ⟨x, y⟩, fun b x => b ^ x⟩ (fun _ => 0)
      (EnhancedAudioEngine.start
        ⟨Real.pi, Real.sqrt, fun y x => Complex.arg ⟨x, y⟩, fun b x => b ^ x⟩ (fun _ => 0)
        (EnhancedAudioEngine.initialized
          ⟨Real.pi, Real.sqrt, fun y x => Complex.arg ⟨x, y⟩, fun b x => b ^ x⟩ 44100 0)
        "choir")
      "ambient").oscillators.length = 6 :=
  (C23_start_rebuilds_oscillator_set
    ⟨Real.pi, Real.sqrt, fun y x => Complex.arg ⟨x, y⟩, fun b x => b ^ x⟩ (fun _ => 0)
    (EnhancedAudioEngine.start
      ⟨Real.pi, Real.sqrt, fun y x => Complex.arg ⟨x, y⟩, fun b x => b ^ x⟩ (fun _ => 0)
      (EnhancedAudioEngine.initialized
        ⟨Real.pi, Real.sqrt, fun y x => Complex.arg ⟨x, y⟩, fun b x => b ^ x⟩ 44100 0)
      "choir")
    ((EnhancedAudioEngine.start_voice_fields _ _ _ _).1.trans rfl)).2.1.1

end ModeSwitch

/-! ## Replacing the reverb convolver -/

section ReverbGraph

/-- Connecting keeps the connections already made. -/
theorem AudioGraph.mem_connect (g : AudioGraph) (source dest : AudioNodeRef)
    (c : AudioNodeRef × AudioNodeRef) (hc : c ∈ g.connections) :
    c ∈ (g.connect source dest).connections := by
  unfold AudioGraph.connect
  split
  · exact hc
  · exact List.mem_append_left _ hc

/-- The method `updateReverbSize` removes no connection into the convolver it
replaces: whatever fed the old convolver still feeds it. -/
theorem AudioGraph.updateReverbSize_keeps_incoming (g : AudioGraph) (source : AudioNodeRef)
    (hsource : source ≠ g.reverbNode)
    (hc : (source, g.reverbNode) ∈ g.connections) :
    (source, g.reverbNode) ∈ g.updateReverbSize.connections := by
  unfold AudioGraph.updateReverbSize
  dsimp only [AudioGraph.createReverb]
  apply AudioGraph.mem_connect
  apply AudioGraph.mem_connect
  show (source, g.reverbNode) ∈ (g.disconnect g.reverbNode).connections
  unfold AudioGraph.disconnect
  simp only [List.mem_filter]
  exact ⟨hc, by simpa using hsource⟩

/-- The connections after a `connect` call. -/
theorem AudioGraph.mem_connect_iff (g : AudioGraph) (source dest : AudioNodeRef)
    (c : AudioNodeRef × AudioNodeRef) :
    c ∈ (g.connect source dest).connections ↔ c ∈ g.connections ∨ c = (source, dest) := by
  unfold AudioGraph.connect
  split
  · next h =>
    constructor
    · exact Or.inl
    · rintro (h' | h')
      · exact h'
      · exact h' ▸ h
  · simp only [List.mem_append, List.mem_singleton]

/-- Connecting does not change which convolver is the reverb node. -/
theorem AudioGraph.connect_reverbNode (g : AudioGraph) (source dest : AudioNodeRef) :
    (g.connect source dest).reverbNode = g.reverbNode := by
  unfold AudioGraph.connect
  split <;> rfl

/-- The connections after `updateReverbSize`: those that did not leave the old
convolver, then delay → new convolver and new convolver → wet gain. -/
theorem AudioGraph.mem_updateReverbSize_iff (g : AudioGraph)
    (c : AudioNodeRef × AudioNodeRef) :
    c ∈ g.updateReverbSize.connections ↔
      (c ∈ g.connections ∧ c.1 ≠ g.reverbNode) ∨
      c = (AudioNodeRef.delayNode, AudioNodeRef.convolver g.convolversCreated) ∨
      c = (AudioNodeRef.convolver g.convolversCreated, AudioNodeRef.wetGainNode) := by
  unfold AudioGraph.updateReverbSize
  dsimp only [AudioGraph.createReverb]
  rw [AudioGraph.mem_connect_iff, AudioGraph.mem_connect_iff, AudioGraph.connect_reverbNode]
  simp only [AudioGraph.disconnect, List.mem_filter, decide_eq_true_eq, decide_not,
    Bool.not_eq_eq_eq_not, Bool.not_true, decide_eq_false_iff_not, or_assoc, ne_eq]

/-- After `updateReverbSize` the replaced convolver has no outgoing connection. -/
theorem AudioGraph.updateReverbSize_old_outgoing (g : AudioGraph)
    (hold : g.reverbNode ≠ AudioNodeRef.convolver g.convolversCreated)
    (hdelay : g.reverbNode ≠ AudioNodeRef.delayNode) :
    g.updateReverbSize.outgoing g.reverbNode = [] := by
  unfold AudioGraph.outgoing
  rw [List.filter_eq_nil_iff]
  intro c hc
  rw [AudioGraph.mem_updateReverbSize_iff] at hc
  simp only [decide_eq_true_eq]
  rcases hc with h | h | h
  · exact h.2
  · subst h; exact fun hx => hdelay hx.symm
  · subst h; exact fun hx => hold hx.symm

/-- C24, the code at the failing input: on the graph `initialize()` builds,
`updateReverbSize` makes convolver 1 the reverb node, wired delay → convolver 1 → wet
gain, and the replaced convolver 0 has no outgoing connection, but the connection
delay → convolver 0 is still there: the replaced convolver is not detached. -/
theorem C24_replaced_convolver_still_fed_by_delay :
    AudioGraph.initialized.reverbNode = AudioNodeRef.convolver 0 ∧
    AudioGraph.initialized.updateReverbSize.reverbNode = AudioNodeRef.convolver 1 ∧
    AudioGraph.initialized.updateReverbSize.outgoing (AudioNodeRef.convolver 0) = [] ∧
    AudioGraph.initialized.updateReverbSize.incoming (AudioNodeRef.convolver 0)
      = [(AudioNodeRef.delayNode, AudioNodeRef.convolver 0)] ∧
    AudioGraph.initialized.updateReverbSize.incoming (AudioNodeRef.convolver 1)
      = [(AudioNodeRef.delayNode, AudioNodeRef.convolver 1)] ∧
    AudioGraph.initialized.updateReverbSize.outgoing (AudioNodeRef.convolver 1)
      = [(AudioNodeRef.convolver 1, AudioNodeRef.wetGainNode)] ∧
    AudioGraph.initialized.updateReverbSize.incoming AudioNodeRef.wetGainNode
      = [(AudioNodeRef.convolver 1, AudioNodeRef.wetGainNode)] ∧
    AudioGraph.initialized.updateReverbSize.outgoing AudioNodeRef.delayNode
      = [(AudioNodeRef.delayNode, AudioNodeRef.feedbackNode),
         (AudioNodeRef.delayNode, AudioNodeRef.convolver 0),
         (AudioNodeRef.delayNode, AudioNodeRef.convolver 1)] := by
  decide

end ReverbGraph

/-! ## Presets, pitch shift and the frequency -/

section PresetPitch

variable {α : Type} [LinearOrderedField α]

/-- C25: for every engine state and effect name, `applyVoiceEffect` leaves
`currentFrequency` and the oscillators, with their values and scheduled ramps, as they
were, also when the preset changes the pitch shift (robot −2, chipmunk +12, monster −12,
alien +7, normal 0); the new pitch shift enters the frequency at the next `updatePitch`
or `updatePitchShift` call. -/
theorem C25_preset_pitch_shift_deferred (M : JSMath α) (e : EnhancedAudioEngine α)
    (effectName : String) (p v : α) :
    (EnhancedAudioEngine.applyVoiceEffect M e effectName).currentFrequency
      = e.currentFrequency ∧
    (EnhancedAudioEngine.applyVoiceEffect M e effectName).oscillators = e.oscillators ∧
    (EnhancedAudioEngine.applyVoiceEffect M e "robot").adjustableParams.pitchShift = -2 ∧
    (EnhancedAudioEngine.applyVoiceEffect M e "chipmunk").adjustableParams.pitchShift = 12 ∧
    (EnhancedAudioEngine.applyVoiceEffect M e "monster").adjustableParams.pitchShift = -12 ∧
    (EnhancedAudioEngine.applyVoiceEffect M e "alien").adjustableParams.pitchShift = 7 ∧
    (EnhancedAudioEngine.applyVoiceEffect M e "normal").adjustableParams.pitchShift = 0 ∧
    (EnhancedAudioEngine.updatePitch M
        (EnhancedAudioEngine.applyVoiceEffect M e effectName) p).currentFrequency
      = ((if e.soundType = "percussion" then 60 else 220)
          + p * ((if e.soundType = "percussion" then 400 else 880)
            - (if e.soundType = "percussion" then 60 else 220)))
        * M.pow 2
          ((EnhancedAudioEngine.applyVoiceEffect M e effectName).adjustableParams.pitchShift
            / 12) ∧
    (EnhancedAudioEngine.updatePitchShift M
        (EnhancedAudioEngine.applyVoiceEffect M e effectName) v).currentFrequency
      = ((if e.soundType = "percussion" then 60 else 220)
          + e.parameters.pitch * ((if e.soundType = "percussion" then 400 else 880)
            - (if e.soundType = "percussion" then 60 else 220)))
        * M.pow 2 (v / 12) := by
  have hframe := EnhancedAudioEngine.applyVoiceEffect_frame M e effectName
  have hfreq : (EnhancedAudioEngine.applyVoiceEffect M e effectName).currentFrequency
      = e.currentFrequency := by rw [hframe]
  have hosc : (EnhancedAudioEngine.applyVoiceEffect M e effectName).oscillators
      = e.oscillators := by rw [hframe]
  have hmode : (EnhancedAudioEngine.applyVoiceEffect M e effectName).soundType
      = e.soundType := by rw [hframe]
  have hpitch : (EnhancedAudioEngine.applyVoiceEffect M e effectName).parameters
      = e.parameters := by rw [hframe]
  refine ⟨hfreq, hosc, rfl, rfl, rfl, rfl, rfl, ?_, ?_⟩
  · unfold EnhancedAudioEngine.updatePitch
    rw [EnhancedAudioEngine.updateFrequency_currentFrequency]
    show ((if (EnhancedAudioEngine.applyVoiceEffect M e effectName).soundType = "percussion"
        then (60 : α) else 220) + _) * _ = _
    rw [hmode]
  · unfold EnhancedAudioEngine.updatePitchShift
    dsimp only
    rw [EnhancedAudioEngine.updateFrequency_currentFrequency]
    show ((if (EnhancedAudioEngine.applyVoiceEffect M e effectName).soundType = "percussion"
        then (60 : α) else 220)
        + (EnhancedAudioEngine.applyVoiceEffect M e effectName).parameters.pitch * _) * _ = _
    rw [hmode, hpitch]

/-- C26: for every engine state, `applyVoiceEffect("normal")` leaves the delay,
feedback, dry-gain and wet-gain nodes (so delay time, feedback gain, dry gain, wet gain),
the reverb node, `reverbSize` and `harmonics` as they were; so "echo" then "normal" keeps
delay time 0.5, feedback 0.7, wet gain 0.8 and dry gain 0.5, and "underwater" then
"normal" keeps `reverbSize` 80 and wet gain 0.7. -/
theorem C26_normal_keeps_delay_mix_reverb (M : JSMath α) (e : EnhancedAudioEngine α) :
    (EnhancedAudioEngine.applyVoiceEffect M e "normal").delayNode = e.delayNode ∧
    (EnhancedAudioEngine.applyVoiceEffect M e "normal").feedbackNode = e.feedbackNode ∧
    (EnhancedAudioEngine.applyVoiceEffect M e "normal").dryGainNode = e.dryGainNode ∧
    (EnhancedAudioEngine.applyVoiceEffect M e "normal").wetGainNode = e.wetGainNode ∧
    (EnhancedAudioEngine.applyVoiceEffect M e "normal").reverbNode = e.reverbNode ∧
    (EnhancedAudioEngine.applyVoiceEffect M e "normal").adjustableParams.reverbSize
      = e.adjustableParams.reverbSize ∧
    (EnhancedAudioEngine.applyVoiceEffect M e "normal").adjustableParams.harmonics
      = e.adjustableParams.harmonics ∧
    (EnhancedAudioEngine.applyVoiceEffect M
        (EnhancedAudioEngine.applyVoiceEffect M e "echo") "normal").delayNode.delayTime.value
      = 0.5 ∧
    (EnhancedAudioEngine.applyVoiceEffect M
        (EnhancedAudioEngine.applyVoiceEffect M e "echo") "normal").feedbackNode.gain.value
      = 0.7 ∧
    (EnhancedAudioEngine.applyVoiceEffect M
        (EnhancedAudioEngine.applyVoiceEffect M e "echo") "normal").wetGainNode.gain.value
      = 0.8 ∧
    (EnhancedAudioEngine.applyVoiceEffect M
        (EnhancedAudioEngine.applyVoiceEffect M e "echo") "normal").dryGainNode.gain.value
      = 0.5 ∧
    (EnhancedAudioEngine.applyVoiceEffect M
        (EnhancedAudioEngine.applyVoiceEffect M e "underwater")
        "normal").adjustableParams.reverbSize = 80 ∧
    (EnhancedAudioEngine.applyVoiceEffect M
        (EnhancedAudioEngine.applyVoiceEffect M e "underwater")
        "normal").wetGainNode.gain.value = 0.7 :=
  ⟨rfl, rfl, rfl, rfl, rfl, rfl, rfl, rfl, rfl, rfl, rfl, rfl, rfl⟩

end PresetPitch

/-! ## Frequency multipliers at creation and at pitch updates -/

/-- Outside "percussion" and voice mode, `updateFrequency` schedules on the oscillator
at index `i` a ramp to the new current frequency times the multiplier of the mode at
`i`. -/
theorem EnhancedAudioEngine.updateFrequency_oscillators {α : Type} [LinearOrderedField α]
    (M : JSMath α) (e : EnhancedAudioEngine α) (p : α)
    (hmode : e.soundType ≠ "percussion") (hvoice : e.isVoiceMode = false) :
    (EnhancedAudioEngine.updateFrequency M e p).oscillators
      = e.oscillators.mapIdx fun (i : ℕ) osc =>
          { osc with
            frequency := osc.frequency.linearRampToValueAtTime
              ((EnhancedAudioEngine.updateFrequency M e p).currentFrequency
                * EnhancedAudioEngine.frequencyMultiplier e.soundType i)
              (e.currentTime + 0.05) } := by
  rw [EnhancedAudioEngine.updateFrequency_currentFrequency]
  unfold EnhancedAudioEngine.updateFrequency
  simp [hmode, hvoice]

/-- If every oscillator sits at the current frequency times the multiplier of its
index, a pitch update that leaves the current frequency unchanged schedules each
oscillator to the value it already has. -/
theorem EnhancedAudioEngine.updateFrequency_retargets {α : Type} [LinearOrderedField α]
    (M : JSMath α) (e : EnhancedAudioEngine α) (p : α)
    (hmode : e.soundType ≠ "percussion") (hvoice : e.isVoiceMode = false)
    (hcreated : ∀ (i : ℕ) (osc : OscillatorNode α), e.oscillators[i]? = some osc →
      osc.frequency.value
        = e.currentFrequency * EnhancedAudioEngine.frequencyMultiplier e.soundType i)
    (hsame : (EnhancedAudioEngine.updateFrequency M e p).currentFrequency
      = e.currentFrequency)
    (i : ℕ) (osc' : OscillatorNode α)
    (hosc : (EnhancedAudioEngine.updateFrequency M e p).oscillators[i]? = some osc') :
    osc'.frequency.lastTarget = some osc'.frequency.value ∧
    ∃ osc : OscillatorNode α, e.oscillators[i]? = some osc ∧
      osc'.frequency.value = osc.frequency.value := by
  rw [EnhancedAudioEngine.updateFrequency_oscillators M e p hmode hvoice,
    List.getElem?_mapIdx, Option.map_eq_some'] at hosc
  obtain ⟨osc, hget, hdef⟩ := hosc
  subst hdef
  refine ⟨?_, osc, hget, rfl⟩
  simp only [AudioParam.lastTarget, AudioParam.linearRampToValueAtTime,
    List.getLast?_append, List.getLast?_singleton, Option.or_some, Option.map_some',
    hsame]
  rw [hcreated i osc hget]

section Multipliers

variable {α : Type} [LinearOrderedField α] [FloorRing α]

/-- Outside voice mode, after `start(mode)` in a sustained mode every oscillator sits
at the current frequency times the multiplier `updateFrequency` uses for its index. -/
theorem EnhancedAudioEngine.start_created_frequencies (M : JSMath α) (random : ℕ → α)
    (e : EnhancedAudioEngine α) (hvoice : e.isVoiceMode = false) (mode : String)
    (hmode : mode ∈ ["synth", "ambient", "theremin", "choir"])
    (i : ℕ) (osc : OscillatorNode α)
    (hosc : (EnhancedAudioEngine.start M random e mode).oscillators[i]? = some osc) :
    osc.frequency.value
      = (EnhancedAudioEngine.start M random e mode).currentFrequency
        * EnhancedAudioEngine.frequencyMultiplier
            (EnhancedAudioEngine.start M random e mode).soundType i := by
  obtain ⟨hs, ha, ht, hc, -⟩ := EnhancedAudioEngine.start_modes M random e hvoice
  simp only [List.mem_cons, List.mem_singleton, List.mem_nil_iff, or_false] at hmode
  rcases hmode with h | h | h | h <;> subst h
  · rw [hs] at hosc ⊢
    simp only [EnhancedAudioEngine.startSynthSound, List.nil_append, List.getElem?_map,
      Option.map_eq_some'] at hosc
    obtain ⟨j, hj, hdef⟩ := hosc
    obtain ⟨hlt, hji⟩ := List.getElem?_eq_some.mp hj
    rw [List.getElem_range] at hji
    subst hji
    subst hdef
    rfl
  · rw [ha] at hosc ⊢
    simp only [EnhancedAudioEngine.startAmbientSound, List.nil_append, List.getElem?_mapIdx,
      Option.map_eq_some'] at hosc
    obtain ⟨mult, hmult, hdef⟩ := hosc
    subst hdef
    show e.currentFrequency * mult
      = e.currentFrequency * ([1, 1.5, 2, 2.5, 3, 4] : List α).getD i 1
    rw [List.getD_eq_getElem?_getD, hmult]
    rfl
  · rw [ht] at hosc ⊢
    have hmem := List.getElem?_mem hosc
    simp only [EnhancedAudioEngine.startThereminSound, List.nil_append,
      List.mem_singleton] at hmem
    subst hmem
    show e.currentFrequency = e.currentFrequency * 1
    rw [mul_one]
  · rw [hc] at hosc ⊢
    have hmem := List.getElem?_mem hosc
    simp only [EnhancedAudioEngine.startChoirSound, List.nil_append, List.mem_map] at hmem
    obtain ⟨j, -, hdef⟩ := hmem
    subst hdef
    show e.currentFrequency = e.currentFrequency * 1
    rw [mul_one]

/-- C27: the multiplier `updateFrequency` applies at index `i` is `i + 1` in "synth",
the entry `i` of `[1, 1.5, 2, 2.5, 3, 4]` in "ambient" and 1 in "theremin" and "choir";
outside voice mode, after `start(mode)` in any of these four modes every oscillator was
created at the current frequency times that multiplier, every pitch update schedules it
to the new current frequency times that multiplier, and a pitch update that leaves the
current frequency unchanged schedules each oscillator to its creation frequency. -/
theorem C27_pitch_update_keeps_creation_multipliers (M : JSMath α) (random : ℕ → α)
    (e : EnhancedAudioEngine α) (hvoice : e.isVoiceMode = false) :
    (∀ i : ℕ, (EnhancedAudioEngine.frequencyMultiplier "synth" i : α) = (i : α) + 1) ∧
    ((EnhancedAudioEngine.frequencyMultiplier "ambient" 0 : α) = 1 ∧
      (EnhancedAudioEngine.frequencyMultiplier "ambient" 1 : α) = 1.5 ∧
      (EnhancedAudioEngine.frequencyMultiplier "ambient" 2 : α) = 2 ∧
      (EnhancedAudioEngine.frequencyMultiplier "ambient" 3 : α) = 2.5 ∧
      (EnhancedAudioEngine.frequencyMultiplier "ambient" 4 : α) = 3 ∧
      (EnhancedAudioEngine.frequencyMultiplier "ambient" 5 : α) = 4) ∧
    (∀ i : ℕ, (EnhancedAudioEngine.frequencyMultiplier "theremin" i : α) = 1) ∧
    (∀ i : ℕ, (EnhancedAudioEngine.frequencyMultiplier "choir" i : α) = 1) ∧
    ∀ mode : String, mode ∈ ["synth", "ambient", "theremin", "choir"] →
      (EnhancedAudioEngine.start M random e mode).soundType = mode ∧
      (∀ (i : ℕ) (osc : OscillatorNode α),
        (EnhancedAudioEngine.start M random e mode).oscillators[i]? = some osc →
        osc.frequency.value
          = (EnhancedAudioEngine.start M random e mode).currentFrequency
            * EnhancedAudioEngine.frequencyMultiplier mode i) ∧
      ∀ (p : α) (i : ℕ) (osc' : OscillatorNode α),
        (EnhancedAudioEngine.updateFrequency M
          (EnhancedAudioEngine.start M random e mode) p).oscillators[i]? = some osc' →
        osc'.frequency.lastTarget
          = some ((EnhancedAudioEngine.updateFrequency M
              (EnhancedAudioEngine.start M random e mode) p).currentFrequency
            * EnhancedAudioEngine.frequencyMultiplier mode i) ∧
        ((EnhancedAudioEngine.updateFrequency M
            (EnhancedAudioEngine.start M random e mode) p).currentFrequency
          = (EnhancedAudioEngine.start M random e mode).currentFrequency →
          osc'.frequency.lastTarget = some osc'.frequency.value ∧
          ∃ osc : OscillatorNode α,
            (EnhancedAudioEngine.start M random e mode).oscillators[i]? = some osc ∧
            osc'.frequency.value = osc.frequency.value) := by
  refine ⟨fun _ => rfl, ⟨rfl, rfl, rfl, rfl, rfl, rfl⟩, fun _ => rfl, fun _ => rfl, ?_⟩
  intro mode hmode
  have hfields := EnhancedAudioEngine.start_voice_fields M random e mode
  have hsound : (EnhancedAudioEngine.start M random e mode).soundType = mode := by
    obtain ⟨hs, ha, ht, hc, -⟩ := EnhancedAudioEngine.start_modes M random e hvoice
    simp only [List.mem_cons, List.mem_singleton, List.mem_nil_iff, or_false] at hmode
    rcases hmode with h | h | h | h <;> subst h
    · rw [hs]; rfl
    · rw [ha]; rfl
    · rw [ht]; rfl
    · rw [hc]; rfl
  have hnotperc : (EnhancedAudioEngine.start M random e mode).soundType ≠ "percussion" := by
    rw [hsound]
    simp only [List.mem_cons, List.mem_singleton, List.mem_nil_iff, or_false] at hmode
    rcases hmode with h | h | h | h <;> subst h <;> decide
  have hv : (EnhancedAudioEngine.start M random e mode).isVoiceMode = false :=
    hfields.1.trans hvoice
  have hcreated : ∀ (i : ℕ) (osc : OscillatorNode α),
      (EnhancedAudioEngine.start M random e mode).oscillators[i]? = some osc →
      osc.frequency.value
        = (EnhancedAudioEngine.start M random e mode).currentFrequency
          * EnhancedAudioEngine.frequencyMultiplier
              (EnhancedAudioEngine.start M random e mode).soundType i :=
    EnhancedAudioEngine.start_created_frequencies M random e hvoice mode hmode
  refine ⟨hsound, ?_, ?_⟩
  · intro i osc hosc
    rw [hcreated i osc hosc, hsound]
  · intro p i osc' hosc
    refine ⟨?_, fun hsame =>
      EnhancedAudioEngine.updateFrequency_retargets M _ p hnotperc hv hcreated hsame i osc'
        hosc⟩
    rw [EnhancedAudioEngine.updateFrequency_oscillators M _ p hnotperc hv,
      List.getElem?_mapIdx, Option.map_eq_some'] at hosc
    obtain ⟨osc, -, hdef⟩ := hosc
    subst hdef
    simp only [AudioParam.lastTarget, AudioParam.linearRampToValueAtTime,
      List.getLast?_append, List.getLast?_singleton, Option.or_some, Option.map_some',
      hsound]

end Multipliers

/-- Witness for C27: the engine as initialised, started in "ambient" and given the pitch
value 1/3, keeps the current frequency 440; its second oscillator, created at 660, is
scheduled to 660. -/
theorem C27_pitch_update_keeps_creation_multipliers_witness :
    Option.map (fun o : OscillatorNode ℝ => (o.frequency.lastTarget, o.frequency.value))
      ((EnhancedAudioEngine.updateFrequency
        ⟨Real.pi, Real.sqrt, fun y x => Complex.arg ⟨x, y⟩, fun b x => b ^ x⟩
        (EnhancedAudioEngine.start
          ⟨Real.pi, Real.sqrt, fun y x => Complex.arg ⟨x, y⟩, fun b x => b ^ x⟩ (fun _ => 0)
          (EnhancedAudioEngine.initialized
            ⟨Real.pi, Real.sqrt, fun y x => Complex.arg ⟨x, y⟩, fun b x => b ^ x⟩ 44100 0)
          "ambient")
        (1 / 3)).oscillators[1]?)
      = some (some 660, 660) := by
  obtain ⟨-, ⟨-, hmult, -⟩, -, -, h⟩ :=
    C27_pitch_update_keeps_creation_multipliers
      ⟨Real.pi, Real.sqrt, fun y x => Complex.arg ⟨x, y⟩, fun b x => b ^ x⟩ (fun _ => 0)
      (EnhancedAudioEngine.initialized
        ⟨Real.pi, Real.sqrt, fun y x => Complex.arg ⟨x, y⟩, fun b x => b ^ x⟩ 44100 0)
      rfl
  obtain ⟨hsound, hcreated, hupdate⟩ := h "ambient" (by decide)
  have hvoice : (EnhancedAudioEngine.start
      ⟨Real.pi, Real.sqrt, fun y x => Complex.arg ⟨x, y⟩, fun b x => b ^ x⟩ (fun _ => 0)
      (EnhancedAudioEngine.initialized
        ⟨Real.pi, Real.sqrt, fun y x => Complex.arg ⟨x, y⟩, fun b x => b ^ x⟩ 44100 0)
      "ambient").isVoiceMode = false :=
    (EnhancedAudioEngine.start_voice_fields _ _ _ _).1.trans rfl
  have hstart := (EnhancedAudioEngine.start_modes
    ⟨Real.pi, Real.sqrt, fun y x => Complex.arg ⟨x, y⟩, fun b x => b ^ x⟩ (fun _ => 0)
    (EnhancedAudioEngine.initialized
      ⟨Real.pi, Real.sqrt, fun y x => Complex.arg ⟨x, y⟩, fun b x => b ^ x⟩ 44100 0)
    rfl).2.1
  have hfreq : (EnhancedAudioEngine.start
      ⟨Real.pi, Real.sqrt, fun y x => Complex.arg ⟨x, y⟩, fun b x => b ^ x⟩ (fun _ => 0)
      (EnhancedAudioEngine.initialized
        ⟨Real.pi, Real.sqrt, fun y x => Complex.arg ⟨x, y⟩, fun b x => b ^ x⟩ 44100 0)
      "ambient").currentFrequency = 440 := by
    rw [hstart]; rfl
  have hshift : (EnhancedAudioEngine.start
      ⟨Real.pi, Real.sqrt, fun y x => Complex.arg ⟨x, y⟩, fun b x => b ^ x⟩ (fun _ => 0)
      (EnhancedAudioEngine.initialized
        ⟨Real.pi, Real.sqrt, fun y x => Complex.arg ⟨x, y⟩, fun b x => b ^ x⟩ 44100 0)
      "ambient").adjustableParams.pitchShift = 0 := by
    rw [hstart]; rfl
  have hlength : (EnhancedAudioEngine.start
      ⟨Real.pi, Real.sqrt, fun y x => Complex.arg ⟨x, y⟩, fun b x => b ^ x⟩ (fun _ => 0)
      (EnhancedAudioEngine.initialized
        ⟨Real.pi, Real.sqrt, fun y x => Complex.arg ⟨x, y⟩, fun b x => b ^ x⟩ 44100 0)
      "ambient").oscillators.length = 6 := by
    rw [hstart]; rfl
  have hsame : (EnhancedAudioEngine.updateFrequency
      ⟨Real.pi, Real.sqrt, fun y x => Complex.arg ⟨x, y⟩, fun b x => b ^ x⟩
      (EnhancedAudioEngine.start
        ⟨Real.pi, Real.sqrt, fun y x => Complex.arg ⟨x, y⟩, fun b x => b ^ x⟩ (fun _ => 0)
        (EnhancedAudioEngine.initialized
          ⟨Real.pi, Real.sqrt, fun y x => Complex.arg ⟨x, y⟩, fun b x => b ^ x⟩ 44100 0)
        "ambient")
      (1 / 3)).currentFrequency = 440 := by
    rw [EnhancedAudioEngine.updateFrequency_currentFrequency, hsound, hshift,
      if_neg (by decide), if_neg (by decide)]
    norm_num
  cases hget : (EnhancedAudioEngine.updateFrequency
      ⟨Real.pi, Real.sqrt, fun y x => Complex.arg ⟨x, y⟩, fun b x => b ^ x⟩
      (EnhancedAudioEngine.start
        ⟨Real.pi, Real.sqrt, fun y x => Complex.arg ⟨x, y⟩, fun b x => b ^ x⟩ (fun _ => 0)
        (EnhancedAudioEngine.initialized
          ⟨Real.pi, Real.sqrt, fun y x => Complex.arg ⟨x, y⟩, fun b x => b ^ x⟩ 44100 0)
        "ambient")
      (1 / 3)).oscillators[1]? with
  | none =>
    rw [EnhancedAudioEngine.updateFrequency_oscillators _ _ _
      (by rw [hsound]; decide) hvoice, List.getElem?_eq_none_iff, List.length_mapIdx,
      hlength] at hget
    omega
  | some osc' =>
    obtain ⟨-, hback⟩ := hupdate (1 / 3) 1 osc' hget
    obtain ⟨htarget, osc, hosc, hvalue⟩ := hback (hsame.trans hfreq.symm)
    have h660 : osc'.frequency.value = 660 := by
      rw [hvalue, hcreated 1 osc hosc, hfreq, hmult]
      norm_num
    rw [Option.map_some', htarget, h660]
